import Mathlib

/-!
# marketplace-api: validators, account service and listing service

A shallow embedding of the Go sources

* pkg/utils/validator.go
* internal/models/user.go, internal/models/listing.go
* internal/database/connection.go (the tables and the types of their columns)
* internal/database/postgres/user_repository.go, listing_repository.go
* internal/service/auth_service.go, listing_service.go
* internal/api/handlers/auth.go, listings.go, pkg/utils/responce.go

Modelling conventions.

* A Go string is a Lean String (a sequence of Unicode scalar values, which is
  what JSON decoding hands to the handlers); the builtin len counts the bytes
  of its UTF-8 encoding, a range loop visits its runes.
* A Go error is its message (the code itself compares errors through
  err.Error()); an error result is Except.error msg, fmt.Errorf with a
  wrapped error appends the wrapped message.
* float64 prices are finite and modelled by rationals (the decimal number that
  the driver writes for the float); a time.Time value is a natural number, its
  clock reading in nanoseconds, and time.Now() is the parameter now.
* A Go int is an integer; an arithmetic operation whose exact result may leave
  the 64-bit range is followed by wrapInt64, the value the Go int then holds.
* The PostgreSQL database is a value of type DB with the tables of
  internal/database/connection.go. Every SQL statement of the repositories is
  modelled by its effect on the tables. The database is available: a statement
  fails only for a reason its own semantics gives (no row, a violated
  constraint, a value outside the type of its column).
* Column types: a listing id of a request comes from the path and is any Go
  int, while the columns id are SERIAL (int4), so a statement that compares id
  with a value outside int4 fails; price is DECIMAL(10, 2), so a price is
  rounded to two decimals when it is stored and refused from 10^8 on; a
  time.Time written to a TIMESTAMP column is kept with microsecond resolution
  and without zone (the conversion is the field pgTimestamp of Env). The id of
  a caller comes from a token issued for a row of users and is within int4.
* The repositories issue their statements one after the other without a
  transaction, so a parameter race : DB -> DB stands for what other requests
  do to the database between two statements of one method (the identity when
  nothing interferes).
* What the sources import from outside the repository (unicode tables beyond
  Latin-1, net/url, bcrypt, the reading of a time by PostgreSQL) and the token
  helper pkg/utils GenerateToken are fields of the record Env.
-/

namespace Marketplace

/-! ## Go runtime and standard library -/

/-- UTF-8 length of a rune, as utf8.RuneLen gives it for a valid rune. -/
def RuneLen (r : Char) : Nat :=
  if r.toNat < 0x80 then 1
  else if r.toNat < 0x800 then 2
  else if r.toNat < 0x10000 then 3
  else 4

/-- Builtin len of a Go string: the number of bytes of its UTF-8 encoding. -/
def len (s : String) : Nat := (s.toList.map RuneLen).sum

/-- Result of url.Parse, restricted to the two fields the sources read. -/
structure ParsedURL where
  Scheme : String
  Host : String
deriving DecidableEq, Repr

/-- Behaviour of code that is imported by the sources and lives outside them. -/
structure Env where
  /-- Membership in unicode.Letter for runes above Latin-1. -/
  Letter : Char → Bool
  /-- Membership in unicode.Digit for runes above Latin-1. -/
  Digit : Char → Bool
  /-- Lower-case mapping unicode.LowerCase for runes above ASCII. -/
  LowerCase : Char → Char
  /-- Function url.Parse; none stands for a non-nil error. -/
  urlParse : String → Option ParsedURL
  /-- Function bcrypt.GenerateFromPassword at the default cost. -/
  bcryptGenerate : String → Except String String
  /-- Function bcrypt.CompareHashAndPassword hash password; true stands for a nil error. -/
  bcryptCompare : String → String → Bool
  /-- Function utils.GenerateToken userID login secret (pkg/utils, not among the sources). -/
  GenerateToken : Int → String → String → Except String String
  /-- Clock reading that a TIMESTAMP column holds, and the driver reads back,
  for a time.Time bound to a statement: PostgreSQL keeps microseconds and drops the zone. -/
  pgTimestamp : Nat → Nat

/-- Letter property of the Latin-1 runes (the table unicode.IsLetter reads for r <= MaxLatin1). -/
def latin1Letter (n : Nat) : Bool :=
  (0x41 ≤ n && n ≤ 0x5A) || (0x61 ≤ n && n ≤ 0x7A) || n == 0xAA || n == 0xB5 || n == 0xBA ||
    (0xC0 ≤ n && n ≤ 0xD6) || (0xD8 ≤ n && n ≤ 0xF6) || (0xF8 ≤ n && n ≤ 0xFF)

/-- Function unicode.IsLetter. -/
def IsLetter (E : Env) (r : Char) : Bool :=
  if r.toNat ≤ 0xFF then latin1Letter r.toNat else E.Letter r

/-- Function unicode.IsDigit. -/
def IsDigit (E : Env) (r : Char) : Bool :=
  if r.toNat ≤ 0xFF then (0x30 ≤ r.toNat && r.toNat ≤ 0x39) else E.Digit r

/-- Function unicode.ToLower. -/
def runeToLower (E : Env) (r : Char) : Char :=
  if r.toNat ≤ 0x7F then
    (if 0x41 ≤ r.toNat && r.toNat ≤ 0x5A then Char.ofNat (r.toNat + 32) else r)
  else E.LowerCase r

/-- Function strings.ToLower: every rune is mapped by unicode.ToLower. -/
def ToLower (E : Env) (s : String) : String := String.mk (s.toList.map (runeToLower E))

/-! ## pkg/utils/validator.go -/

/-- Character class [a-zA-Z0-9_] of the login pattern. -/
def loginRune (r : Char) : Bool :=
  (0x61 ≤ r.toNat && r.toNat ≤ 0x7A) || (0x41 ≤ r.toNat && r.toNat ≤ 0x5A) ||
    (0x30 ≤ r.toNat && r.toNat ≤ 0x39) || r.toNat == 0x5F

/-- Call regexp.MatchString "^[a-zA-Z0-9_]+$" s: one or more runes, all of the class. -/
def matchLoginPattern (s : String) : Bool :=
  match s.toList with
  | [] => false
  | r :: rs => (r :: rs).all loginRune

/-- Function ValidateLogin of validator.go. -/
def ValidateLogin (login : String) : Bool :=
  if len login < 3 || len login > 50 then false
  else matchLoginPattern login

/-- Loop of ValidatePassword: the pair (hasLetter, hasDigit) after visiting the runes. -/
def scanPassword (E : Env) : List Char → Bool × Bool → Bool × Bool
  | [], flags => flags
  | char :: rest, (hasLetter, hasDigit) =>
    scanPassword E rest
      (if IsLetter E char then true else hasLetter, if IsDigit E char then true else hasDigit)

/-- Function ValidatePassword of validator.go. -/
def ValidatePassword (E : Env) (password : String) : Bool :=
  if len password < 6 then false
  else
    let flags := scanPassword E password.toList (false, false)
    flags.1 && flags.2

/-- Function ValidateURL of validator.go. -/
def ValidateURL (E : Env) (rawURL : String) : Bool :=
  if rawURL = "" then true
  else
    match E.urlParse rawURL with
    | none => false
    | some parsedURL =>
      let scheme := ToLower E parsedURL.Scheme
      if scheme ≠ "http" ∧ scheme ≠ "https" then false
      else if parsedURL.Host = "" then false
      else true

/-! ## internal/models -/

/-- Struct models.User; it is also the shape of a row of the table users. -/
structure User where
  ID : Int
  Login : String
  PasswordHash : String
  CreatedAt : Nat
  UpdatedAt : Nat
deriving DecidableEq, Repr

/-- Struct models.RegisterRequest. -/
structure RegisterRequest where
  Login : String
  Password : String
deriving DecidableEq, Repr

/-- Struct models.LoginRequest. -/
structure LoginRequest where
  Login : String
  Password : String
deriving DecidableEq, Repr

/-- Struct models.AuthResponse. -/
structure AuthResponse where
  User : User
  Token : String
deriving DecidableEq, Repr

/-- Struct models.Listing; a nil ImageURL pointer is none. -/
structure Listing where
  ID : Int
  Title : String
  Description : String
  ImageURL : Option String
  Price : ℚ
  UserID : Int
  UserLogin : String
  IsOwner : Bool
  CreatedAt : Nat
  UpdatedAt : Nat
deriving DecidableEq, Repr

/-- Struct models.UpdateListingRequest; a nil pointer (field absent) is none. -/
structure UpdateListingRequest where
  Title : Option String
  Description : Option String
  ImageURL : Option String
  Price : Option ℚ
deriving DecidableEq, Repr

/-- Struct models.CreateListingRequest; a nil ImageURL pointer is none. -/
structure CreateListingRequest where
  Title : String
  Description : String
  ImageURL : Option String
  Price : ℚ
deriving DecidableEq, Repr

/-- Struct models.ListingsFilter; Page and Limit are Go ints. -/
structure ListingsFilter where
  MinPrice : Option ℚ
  MaxPrice : Option ℚ
  SortBy : String
  SortDir : String
  Page : Int
  Limit : Int
deriving DecidableEq, Repr

/-- Struct models.PaginatedListings. -/
structure PaginatedListings where
  Data : List Listing
  Total : Int
  Page : Int
  Limit : Int
  TotalPages : Int
deriving DecidableEq, Repr

/-- The Go int (64 bits, two's complement) that an arithmetic operation with
the exact result x leaves: x reduced to the range from -2^63 to 2^63 - 1. -/
def wrapInt64 (x : Int) : Int :=
  (x + 9223372036854775808) % 18446744073709551616 - 9223372036854775808

/-- Method ListingsFilter.SetDefaults, as the filter it leaves. -/
def SetDefaults (f : ListingsFilter) : ListingsFilter :=
  let f := if f.SortBy = "" then { f with SortBy := "created_at" } else f
  let f := if f.SortDir = "" then { f with SortDir := "desc" } else f
  let f := if f.Page = 0 then { f with Page := 1 } else f
  let f := if f.Limit = 0 then { f with Limit := 20 } else f
  f

/-- Method ListingsFilter.GetOffset: (f.Page - 1) * f.Limit in Go int arithmetic. -/
def GetOffset (f : ListingsFilter) : Int :=
  wrapInt64 (wrapInt64 (f.Page - 1) * f.Limit)

/-- Binding rules of ListingsFilter (the struct tags read by c.ShouldBindQuery):
min_price and max_price omitempty,gte=0; sort_by omitempty,oneof=created_at price;
sort_dir omitempty,oneof=asc desc; page omitempty,min=1; limit omitempty,min=1,max=100. -/
def bindingAccepts (f : ListingsFilter) : Bool :=
  (match f.MinPrice with | some m => decide (0 ≤ m) | none => true) &&
  (match f.MaxPrice with | some m => decide (0 ≤ m) | none => true) &&
  (f.SortBy == "" || f.SortBy == "created_at" || f.SortBy == "price") &&
  (f.SortDir == "" || f.SortDir == "asc" || f.SortDir == "desc") &&
  (f.Page == 0 || decide (1 ≤ f.Page)) &&
  (f.Limit == 0 || (decide (1 ≤ f.Limit) && decide (f.Limit ≤ 100)))

/-! ## The database (internal/database/connection.go) -/

/-- Row of the table listings. -/
structure ListingRow where
  id : Int
  title : String
  description : String
  image_url : Option String
  price : ℚ
  user_id : Int
  created_at : Nat
  updated_at : Nat
deriving DecidableEq, Repr

/-- State of the database: the two tables and their SERIAL sequences. -/
structure DB where
  users : List User
  listings : List ListingRow
  users_id_seq : Int
  listings_id_seq : Int
deriving DecidableEq, Repr

/-- Columns of listings that an UPDATE of the repository may assign. -/
inductive Column where
  | title
  | description
  | image_url
  | price
  | updated_at
deriving DecidableEq, Repr

/-- Value bound to a placeholder of a statement. -/
inductive Arg where
  | str (s : String)
  | num (q : ℚ)
  | time (t : Nat)
  | int (i : Int)
deriving DecidableEq, Repr

/-- One item of a SET clause, the text fmt.Sprintf("<column> = $%d", index). -/
structure SetPart where
  column : Column
  index : Nat
deriving DecidableEq, Repr

/-- Comparison of a price condition. -/
inductive PriceOp where
  | ge
  | le
deriving DecidableEq, Repr

/-- One condition of a WHERE clause, the text fmt.Sprintf("l.price >= $%d", index)
or fmt.Sprintf("l.price <= $%d", index). -/
structure Condition where
  op : PriceOp
  index : Nat
deriving DecidableEq, Repr

/-- SQL statements the repositories send, with their arguments. -/
inductive Stmt where
  /-- SELECT user_id FROM listings WHERE id = $1 -/
  | selectOwner (id : Int)
  /-- UPDATE listings SET setParts WHERE id = $whereIndex RETURNING the row -/
  | updateListing (setParts : List SetPart) (whereIndex : Nat) (args : List Arg)
  /-- DELETE FROM listings WHERE id = $1 -/
  | deleteListing (id : Int)
  /-- SELECT EXISTS(SELECT 1 FROM users WHERE login = $1) -/
  | userExists (login : String)
  /-- INSERT INTO users (login, password_hash) VALUES ($1, $2) RETURNING the row -/
  | insertUser (login passwordHash : String)
  /-- SELECT the row FROM users WHERE login = $1 -/
  | selectUserByLogin (login : String)
  /-- INSERT INTO listings (title, description, image_url, price, user_id)
  VALUES ($1, $2, $3, $4, $5) RETURNING the row -/
  | insertListing (title description : String) (imageURL : Option String) (price : ℚ)
      (userID : Int)
  /-- SELECT COUNT(*) FROM listings l JOIN users u ON l.user_id = u.id WHERE conditions -/
  | countListings (conditions : List Condition) (args : List Arg)
  /-- SELECT the row, u.login FROM listings l JOIN users u ON l.user_id = u.id
  WHERE conditions, then the text orderBy, then LIMIT $limitIndex OFFSET $offsetIndex -/
  | selectListings (conditions : List Condition) (orderBy : String)
      (limitIndex offsetIndex : Nat) (args : List Arg)
  /-- SELECT the row, u.login FROM listings l JOIN users u ON l.user_id = u.id WHERE l.id = $1 -/
  | selectListingByID (id : Int)
  /-- SELECT COUNT(*) FROM listings WHERE user_id = $1 -/
  | countUserListings (userID : Int)
  /-- SELECT the row, u.login FROM listings l JOIN users u ON l.user_id = u.id
  WHERE l.user_id = $1, then the text orderBy, then LIMIT $2 OFFSET $3 -/
  | selectUserListings (orderBy : String) (userID limit offset : Int)
deriving DecidableEq, Repr

/-- What a method returns together with what it did to the database: its
result, the database after its last statement, and the statements it sent. -/
structure Outcome (α : Type) where
  result : Except String α
  db : DB
  queries : List Stmt

/-- Argument bound to placeholder $k (placeholders count from 1). -/
def placeholder (args : List Arg) (k : Nat) : Option Arg :=
  if k = 0 then none else args.get? (k - 1)

/-- Range of the type integer (int4) of the SERIAL columns id. -/
def inInt4 (i : Int) : Bool := decide (-2147483648 ≤ i) && decide (i ≤ 2147483647)

/-- Error of PostgreSQL for a value that is compared with an integer column
and is outside the range of int4. -/
def outOfRange (i : Int) : String :=
  "pq: value \"" ++ toString i ++ "\" is out of range for type integer"

/-- Value that a column of type DECIMAL(10, 2) keeps for a number: the number
rounded to two decimals (cents), a tie away from zero; a number whose rounded
absolute value is 10^8 or more is refused. -/
def decimal10_2 (q : ℚ) : Except String ℚ :=
  let cents : Nat := (q.num.natAbs * 200 + q.den) / (2 * q.den)
  if 10000000000 ≤ cents then .error "pq: numeric field overflow"
  else .ok (if q.num < 0 then mkRat (-(cents : Int)) 100 else mkRat cents 100)

/-- Assignment column = value on one row: the row with the value as the type of
the column keeps it, or the error of a value that does not fit the column. -/
def assign (E : Env) (r : ListingRow) (c : Column) (a : Arg) : Except String ListingRow :=
  match c, a with
  | .title, .str s => .ok { r with title := s }
  | .description, .str s => .ok { r with description := s }
  | .image_url, .str s => .ok { r with image_url := some s }
  | .price, .num q =>
    match decimal10_2 q with
    | .error e => .error e
    | .ok stored => .ok { r with price := stored }
  | .updated_at, .time t => .ok { r with updated_at := E.pgTimestamp t }
  | _, _ => .error "pq: could not bind the statement arguments"

/-- SET clause applied to one row, item by item. -/
def applySet (E : Env) (args : List Arg) : List SetPart → ListingRow → Except String ListingRow
  | [], r => .ok r
  | p :: ps, r =>
    match placeholder args p.index with
    | none => .error "pq: could not bind the statement arguments"
    | some a =>
      match assign E r p.column a with
      | .error e => .error e
      | .ok r1 => applySet E args ps r1

/-- Rows after UPDATE ... WHERE id: every row with that id gets the SET clause. -/
def updateRows (E : Env) (args : List Arg) (setParts : List SetPart) (id : Int) :
    List ListingRow → Except String (List ListingRow)
  | [] => .ok []
  | r :: rs =>
    match updateRows E args setParts id rs with
    | .error e => .error e
    | .ok rs1 =>
      if r.id = id then
        match applySet E args setParts r with
        | .error e => .error e
        | .ok r1 => .ok (r1 :: rs1)
      else .ok (r :: rs1)

/-- Statement UPDATE listings SET ... WHERE id = $whereIndex RETURNING ...:
the new table and the first returned row (none: no row was updated), or the
error of a statement whose arguments do not fit. The id has passed the
ownership query of the method before, so it is within int4. -/
def execUpdate (E : Env) (rows : List ListingRow) (setParts : List SetPart) (whereIndex : Nat)
    (args : List Arg) : Except String (List ListingRow × Option ListingRow) :=
  match placeholder args whereIndex with
  | some (.int id) =>
    match updateRows E args setParts id rows with
    | .error e => .error e
    | .ok rows1 => .ok (rows1, rows1.find? (fun r => r.id == id))
  | _ => .error "pq: could not bind the statement arguments"

/-- Statement SELECT user_id FROM listings WHERE id = $1 read by QueryRow: the
owner in the first row, none for sql.ErrNoRows, and the error of PostgreSQL for
an id outside int4, the type of the column. -/
def queryOwner (db : DB) (id : Int) : Except String (Option Int) :=
  if inInt4 id then .ok ((db.listings.find? (fun r => r.id == id)).map (fun r => r.user_id))
  else .error (outOfRange id)

/-- Statement DELETE FROM listings WHERE id = $1: the new table and RowsAffected.
The id has passed the ownership query of the method before, so it is within int4. -/
def execDelete (rows : List ListingRow) (id : Int) : List ListingRow × Nat :=
  (rows.filter (fun r => r.id != id), rows.countP (fun r => r.id == id))

/-- Put a row of listings into a models.Listing the way the Scan of UpdateListing
does: user_login is not selected and IsOwner starts false. -/
def scanListing (r : ListingRow) : Listing :=
  { ID := r.id, Title := r.title, Description := r.description, ImageURL := r.image_url,
    Price := r.price, UserID := r.user_id, UserLogin := "", IsOwner := false,
    CreatedAt := r.created_at, UpdatedAt := r.updated_at }

/-- Rows of listings l JOIN users u ON l.user_id = u.id: each listing with the
login of each user whose id is its user_id. -/
def joinUsers (users : List User) : List ListingRow → List (ListingRow × String)
  | [] => []
  | l :: ls =>
    (users.filter (fun u => u.ID == l.user_id)).map (fun u => (l, u.Login)) ++ joinUsers users ls

/-- Conditions with their placeholders replaced by the bound prices; none when
a placeholder has no numeric argument. -/
def bindConditions (args : List Arg) : List Condition → Option (List (PriceOp × ℚ))
  | [] => some []
  | c :: cs =>
    match placeholder args c.index, bindConditions args cs with
    | some (.num q), some rest => some ((c.op, q) :: rest)
    | _, _ => none

/-- Conjunction of the bound conditions on one row (an empty WHERE clause holds). -/
def matchesAll (bounds : List (PriceOp × ℚ)) (r : ListingRow) : Bool :=
  bounds.all (fun b =>
    match b.1 with
    | .ge => decide (b.2 ≤ r.price)
    | .le => decide (r.price ≤ b.2))

/-- Joined rows that satisfy the WHERE clause. -/
def matching (db : DB) (bounds : List (PriceOp × ℚ)) : List (ListingRow × String) :=
  (joinUsers db.users db.listings).filter (fun p => matchesAll bounds p.1)

/-- Statement SELECT COUNT(*) over the join with the WHERE clause. -/
def execCount (db : DB) (conditions : List Condition) (args : List Arg) : Except String Int :=
  match bindConditions args conditions with
  | none => .error "pq: could not bind the statement arguments"
  | some bounds => .ok ((matching db bounds).length : Int)

/-- Insertion of a row before the first row that it may precede. -/
def insertRow (le : ListingRow → ListingRow → Bool) (a : ListingRow × String) :
    List (ListingRow × String) → List (ListingRow × String)
  | [] => [a]
  | b :: bs => if le a.1 b.1 then a :: b :: bs else b :: insertRow le a bs

/-- Rows in the order le; rows that le does not tell apart keep their table order. -/
def sortRows (le : ListingRow → ListingRow → Bool) :
    List (ListingRow × String) → List (ListingRow × String)
  | [] => []
  | a :: as => insertRow le a (sortRows le as)

/-- Text fmt.Sprintf("ORDER BY l.%s %s", sortBy, sortDir). -/
def orderByClause (sortBy sortDir : String) : String :=
  "ORDER BY l." ++ sortBy ++ " " ++ sortDir

/-- Effect of an ORDER BY clause. The four clauses over the columns created_at
and price have their meaning; any other text is outside the model and counts
as a statement that fails. -/
def orderRows (orderBy : String) (rows : List (ListingRow × String)) :
    Except String (List (ListingRow × String)) :=
  if orderBy = "ORDER BY l.created_at asc" then
    .ok (sortRows (fun a b => decide (a.created_at ≤ b.created_at)) rows)
  else if orderBy = "ORDER BY l.created_at desc" then
    .ok (sortRows (fun a b => decide (b.created_at ≤ a.created_at)) rows)
  else if orderBy = "ORDER BY l.price asc" then
    .ok (sortRows (fun a b => decide (a.price ≤ b.price)) rows)
  else if orderBy = "ORDER BY l.price desc" then
    .ok (sortRows (fun a b => decide (b.price ≤ a.price)) rows)
  else .error "pq: the ORDER BY clause has no meaning in the model"

/-- Clause LIMIT limit OFFSET offset; PostgreSQL refuses a negative value. -/
def limitOffset (limit offset : Int) (rows : List (ListingRow × String)) :
    Except String (List (ListingRow × String)) :=
  if limit < 0 then .error "pq: LIMIT must not be negative"
  else if offset < 0 then .error "pq: OFFSET must not be negative"
  else .ok ((rows.drop offset.toNat).take limit.toNat)

/-- Statement SELECT ... WHERE conditions orderBy LIMIT $limitIndex OFFSET $offsetIndex. -/
def execSelect (db : DB) (conditions : List Condition) (orderBy : String)
    (limitIndex offsetIndex : Nat) (args : List Arg) :
    Except String (List (ListingRow × String)) :=
  match bindConditions args conditions, placeholder args limitIndex,
    placeholder args offsetIndex with
  | some bounds, some (.int limit), some (.int offset) =>
    match orderRows orderBy (matching db bounds) with
    | .error e => .error e
    | .ok rows => limitOffset limit offset rows
  | _, _, _ => .error "pq: could not bind the statement arguments"

/-- Statement SELECT ... WHERE l.user_id = $1 orderBy LIMIT $2 OFFSET $3. -/
def execSelectUser (db : DB) (orderBy : String) (userID limit offset : Int) :
    Except String (List (ListingRow × String)) :=
  match orderRows orderBy
    ((joinUsers db.users db.listings).filter (fun p => p.1.user_id == userID)) with
  | .error e => .error e
  | .ok rows => limitOffset limit offset rows

/-- Statement INSERT INTO listings ... RETURNING: the next value of the SERIAL
sequence is taken (also when the statement then fails), the price is stored as
DECIMAL(10, 2) keeps it and must then satisfy CHECK (price >= 0), user_id must
reference a row of users, both timestamps default to the time of the statement
on the clock of the database. -/
def execInsertListing (now : Nat) (db : DB) (title description : String)
    (imageURL : Option String) (price : ℚ) (userID : Int) : Except String ListingRow × DB :=
  let id := db.listings_id_seq + 1
  match decimal10_2 price with
  | .error e => (.error e, { db with listings_id_seq := id })
  | .ok stored =>
    if stored < 0 then
      (.error "pq: new row for relation \"listings\" violates check constraint",
        { db with listings_id_seq := id })
    else if !db.users.any (fun u => u.ID == userID) then
      (.error "pq: insert or update on table \"listings\" violates foreign key constraint",
        { db with listings_id_seq := id })
    else
      let row : ListingRow :=
        { id := id, title := title, description := description, image_url := imageURL,
          price := stored, user_id := userID, created_at := now, updated_at := now }
      (.ok row, { db with listings := db.listings ++ [row], listings_id_seq := id })

/-- Put a joined row into a models.Listing the way the Scan of GetListings and
GetListingByID does, then set IsOwner when the caller is present and is the owner. -/
def scanJoined (currentUserID : Option Int) (p : ListingRow × String) : Listing :=
  let listing : Listing := { scanListing p.1 with UserLogin := p.2 }
  if currentUserID = some listing.UserID then { listing with IsOwner := true } else listing

/-- Expression (total + limit - 1) / limit in Go int arithmetic (the division truncates). -/
def totalPages (total limit : Int) : Int :=
  Int.tdiv (wrapInt64 (wrapInt64 (total + limit) - 1)) limit

/-! ## internal/database/postgres/listing_repository.go -/

/-- The three variables setParts, args and argIndex that UpdateListing builds up. -/
structure SetBuilder where
  setParts : List SetPart
  args : List Arg
  argIndex : Nat
deriving DecidableEq, Repr

/-- One block "if req.F != nil: append the item, append the value, argIndex++". -/
def addField (b : SetBuilder) (c : Column) : Option Arg → SetBuilder
  | none => b
  | some a =>
    { setParts := b.setParts ++ [⟨c, b.argIndex⟩], args := b.args ++ [a],
      argIndex := b.argIndex + 1 }

/-- The four blocks of UpdateListing in their order: title, description, image_url, price. -/
def buildSet (req : UpdateListingRequest) : SetBuilder :=
  let b : SetBuilder := { setParts := [], args := [], argIndex := 1 }
  let b := addField b .title (req.Title.map Arg.str)
  let b := addField b .description (req.Description.map Arg.str)
  let b := addField b .image_url (req.ImageURL.map Arg.str)
  let b := addField b .price (req.Price.map Arg.num)
  b

/-- Method ListingRepository.UpdateListing. -/
def ListingRepository.UpdateListing (E : Env) (now : Nat) (race : DB → DB) (db : DB)
    (id userID : Int) (req : UpdateListingRequest) : Outcome Listing :=
  match queryOwner db id with
  | .error e =>
    { result := .error ("failed to check listing ownership: " ++ e), db := db,
      queries := [.selectOwner id] }
  | .ok none => { result := .error "listing not found", db := db, queries := [.selectOwner id] }
  | .ok (some ownerID) =>
    if ownerID ≠ userID then
      { result := .error "access denied: not owner", db := db, queries := [.selectOwner id] }
    else
      let b := buildSet req
      if b.setParts.length = 0 then
        { result := .error "no fields to update", db := db, queries := [.selectOwner id] }
      else
        let setParts := b.setParts ++ [⟨.updated_at, b.argIndex⟩]
        let args := b.args ++ [.time now]
        let argIndex := b.argIndex + 1
        let args := args ++ [.int id]
        let db1 := race db
        let queries := [.selectOwner id, .updateListing setParts argIndex args]
        match execUpdate E db1.listings setParts argIndex args with
        | .error e =>
          { result := .error ("failed to update listing: " ++ e), db := db1, queries := queries }
        | .ok (rows, none) =>
          { result := .error "failed to update listing: sql: no rows in result set",
            db := { db1 with listings := rows }, queries := queries }
        | .ok (rows, some r) =>
          { result := .ok { scanListing r with IsOwner := true },
            db := { db1 with listings := rows }, queries := queries }

/-- Method ListingRepository.DeleteListing. -/
def ListingRepository.DeleteListing (race : DB → DB) (db : DB) (id userID : Int) : Outcome Unit :=
  match queryOwner db id with
  | .error e =>
    { result := .error ("failed to check listing ownership: " ++ e), db := db,
      queries := [.selectOwner id] }
  | .ok none => { result := .error "listing not found", db := db, queries := [.selectOwner id] }
  | .ok (some ownerID) =>
    if ownerID ≠ userID then
      { result := .error "access denied: not owner", db := db, queries := [.selectOwner id] }
    else
      let db1 := race db
      let deleted := execDelete db1.listings id
      let db2 := { db1 with listings := deleted.1 }
      let queries := [.selectOwner id, .deleteListing id]
      if deleted.2 = 0 then
        { result := .error "listing not found", db := db2, queries := queries }
      else { result := .ok (), db := db2, queries := queries }

/-- Method ListingRepository.CreateListing. -/
def ListingRepository.CreateListing (now : Nat) (db : DB) (userID : Int)
    (req : CreateListingRequest) : Outcome Listing :=
  let query := Stmt.insertListing req.Title req.Description req.ImageURL req.Price userID
  match execInsertListing now db req.Title req.Description req.ImageURL req.Price userID with
  | (.error e, db1) =>
    { result := .error ("failed to create listing: " ++ e), db := db1, queries := [query] }
  | (.ok row, db1) => { result := .ok (scanListing row), db := db1, queries := [query] }

/-- The three variables conditions, args and argIndex that GetListings builds up. -/
structure WhereBuilder where
  conditions : List Condition
  args : List Arg
  argIndex : Nat
deriving DecidableEq, Repr

/-- One block "if the bound != nil: append the condition, append the value, argIndex++". -/
def addBound (b : WhereBuilder) (op : PriceOp) : Option ℚ → WhereBuilder
  | none => b
  | some q =>
    { conditions := b.conditions ++ [⟨op, b.argIndex⟩], args := b.args ++ [.num q],
      argIndex := b.argIndex + 1 }

/-- The two blocks of GetListings in their order: MinPrice, MaxPrice. -/
def buildWhere (filter : ListingsFilter) : WhereBuilder :=
  let b : WhereBuilder := { conditions := [], args := [], argIndex := 1 }
  let b := addBound b .ge filter.MinPrice
  let b := addBound b .le filter.MaxPrice
  b

/-- Method ListingRepository.GetListings. The count query runs on db, the
select query on race db; a Limit of zero ends in the division panic. -/
def ListingRepository.GetListings (race : DB → DB) (db : DB) (filter : ListingsFilter)
    (currentUserID : Option Int) : Outcome PaginatedListings :=
  let b := buildWhere filter
  let countQuery := Stmt.countListings b.conditions b.args
  match execCount db b.conditions b.args with
  | .error e =>
    { result := .error ("failed to count listings: " ++ e), db := db, queries := [countQuery] }
  | .ok total =>
    let orderBy := orderByClause filter.SortBy filter.SortDir
    let args := b.args ++ [.int filter.Limit, .int (GetOffset filter)]
    let finalQuery := Stmt.selectListings b.conditions orderBy b.argIndex (b.argIndex + 1) args
    let db1 := race db
    match execSelect db1 b.conditions orderBy b.argIndex (b.argIndex + 1) args with
    | .error e =>
      { result := .error ("failed to get listings: " ++ e), db := db1,
        queries := [countQuery, finalQuery] }
    | .ok rows =>
      let listings := rows.map (scanJoined currentUserID)
      if filter.Limit = 0 then
        { result := .error "runtime error: integer divide by zero", db := db1,
          queries := [countQuery, finalQuery] }
      else
        { result := .ok
            { Data := listings, Total := total, Page := filter.Page, Limit := filter.Limit,
              TotalPages := totalPages total filter.Limit },
          db := db1, queries := [countQuery, finalQuery] }

/-- Statement SELECT ... FROM listings l JOIN users u ON l.user_id = u.id WHERE
l.id = $1 read by QueryRow: the first row, none for sql.ErrNoRows, and the
error of PostgreSQL for an id outside int4, the type of the column. -/
def queryListingByID (db : DB) (id : Int) : Except String (Option (ListingRow × String)) :=
  if inInt4 id then .ok ((joinUsers db.users db.listings).find? (fun p => p.1.id == id))
  else .error (outOfRange id)

/-- Method ListingRepository.GetListingByID. -/
def ListingRepository.GetListingByID (db : DB) (id : Int) (currentUserID : Option Int) :
    Outcome Listing :=
  match queryListingByID db id with
  | .error e =>
    { result := .error ("failed to get listing: " ++ e), db := db,
      queries := [.selectListingByID id] }
  | .ok none =>
    { result := .error "listing not found", db := db, queries := [.selectListingByID id] }
  | .ok (some p) =>
    { result := .ok (scanJoined currentUserID p), db := db, queries := [.selectListingByID id] }

/-- Method ListingRepository.GetUserListings. The count query runs on db, the
select query on race db; a Limit of zero ends in the division panic. -/
def ListingRepository.GetUserListings (race : DB → DB) (db : DB) (userID : Int)
    (filter : ListingsFilter) : Outcome PaginatedListings :=
  let countQuery := Stmt.countUserListings userID
  let total : Int := ((db.listings.filter (fun r => r.user_id == userID)).length : Int)
  let orderBy := orderByClause filter.SortBy filter.SortDir
  let query := Stmt.selectUserListings orderBy userID filter.Limit (GetOffset filter)
  let db1 := race db
  match execSelectUser db1 orderBy userID filter.Limit (GetOffset filter) with
  | .error e =>
    { result := .error ("failed to get user listings: " ++ e), db := db1,
      queries := [countQuery, query] }
  | .ok rows =>
    let listings := rows.map (fun p => { scanJoined none p with IsOwner := true })
    if filter.Limit = 0 then
      { result := .error "runtime error: integer divide by zero", db := db1,
        queries := [countQuery, query] }
    else
      { result := .ok
          { Data := listings, Total := total, Page := filter.Page, Limit := filter.Limit,
            TotalPages := totalPages total filter.Limit },
        db := db1, queries := [countQuery, query] }

/-- Text fmt.Sprintf("l.price >= $%d", index) or fmt.Sprintf("l.price <= $%d", index). -/
def Condition.text (c : Condition) : String :=
  match c.op with
  | .ge => "l.price >= $" ++ toString c.index
  | .le => "l.price <= $" ++ toString c.index

/-- Variable whereClause of GetListings: "WHERE " and the conditions joined by
" AND ", or the empty string when there is no condition. -/
def whereClause (conditions : List Condition) : String :=
  if conditions.length > 0 then "WHERE " ++ " AND ".intercalate (conditions.map Condition.text)
  else ""

/-- Text fmt.Sprintf("LIMIT $%d OFFSET $%d", argIndex, argIndex+1). -/
def limitOffsetClause (argIndex : Nat) : String :=
  "LIMIT $" ++ toString argIndex ++ " OFFSET $" ++ toString (argIndex + 1)

/-- Name of a column as the statements write it. -/
def Column.name : Column → String
  | .title => "title"
  | .description => "description"
  | .image_url => "image_url"
  | .price => "price"
  | .updated_at => "updated_at"

/-- Text fmt.Sprintf("<column> = $%d", index) of one SET item. -/
def SetPart.text (p : SetPart) : String := p.column.name ++ " = $" ++ toString p.index

/-- Text strings.Join(setParts, ", ") that UpdateListing puts after SET. -/
def setClause (setParts : List SetPart) : String := ", ".intercalate (setParts.map SetPart.text)

/-! ## internal/service/listing_service.go -/

/-- Method validateUpdateListingRequest: none for a nil error, else the message. -/
def validateUpdateListingRequest (E : Env) (req : UpdateListingRequest) : Option String :=
  let titleErr : Option String :=
    match req.Title with
    | some title =>
      if title = "" then some "title cannot be empty"
      else if len title > 255 then some "title must be less than 255 characters"
      else none
    | none => none
  match titleErr with
  | some e => some e
  | none =>
    if req.Description = some "" then some "description cannot be empty"
    else if (match req.Price with | some price => decide (price ≤ 0) | none => false) then
      some "price must be greater than 0"
    else
      match req.ImageURL with
      | some imageURL =>
        if imageURL ≠ "" then
          if !ValidateURL E imageURL then some "invalid image URL format"
          else if len imageURL > 500 then some "image URL must be less than 500 characters"
          else none
        else none
      | none => none

/-- Method ListingService.UpdateListing. -/
def ListingService.UpdateListing (E : Env) (now : Nat) (race : DB → DB) (db : DB)
    (id userID : Int) (req : UpdateListingRequest) : Outcome Listing :=
  if id ≤ 0 then { result := .error "invalid listing ID", db := db, queries := [] }
  else
    match validateUpdateListingRequest E req with
    | some err => { result := .error err, db := db, queries := [] }
    | none =>
      let out := ListingRepository.UpdateListing E now race db id userID req
      match out.result with
      | .error e =>
        if e = "listing not found" then { out with result := .error "listing not found" }
        else if e = "access denied: not owner" then
          { out with result := .error "access denied: you can only edit your own listings" }
        else { out with result := .error ("failed to update listing: " ++ e) }
      | .ok listing => { out with result := .ok listing }

/-- Method ListingService.DeleteListing. -/
def ListingService.DeleteListing (race : DB → DB) (db : DB) (id userID : Int) : Outcome Unit :=
  if id ≤ 0 then { result := .error "invalid listing ID", db := db, queries := [] }
  else
    let out := ListingRepository.DeleteListing race db id userID
    match out.result with
    | .error e =>
      if e = "listing not found" then { out with result := .error "listing not found" }
      else if e = "access denied: not owner" then
        { out with result := .error "access denied: you can only delete your own listings" }
      else { out with result := .error ("failed to delete listing: " ++ e) }
    | .ok () => { out with result := .ok () }

/-- Method validateCreateListingRequest: none for a nil error, else the message. -/
def validateCreateListingRequest (E : Env) (req : CreateListingRequest) : Option String :=
  if req.Title = "" then some "title is required"
  else if len req.Title > 255 then some "title must be less than 255 characters"
  else if req.Description = "" then some "description is required"
  else if req.Price ≤ 0 then some "price must be greater than 0"
  else
    match req.ImageURL with
    | some imageURL =>
      if imageURL ≠ "" then
        if !ValidateURL E imageURL then some "invalid image URL format"
        else if len imageURL > 500 then some "image URL must be less than 500 characters"
        else none
      else none
    | none => none

/-- Method validateListingsFilter: none for a nil error, else the message. -/
def validateListingsFilter (filter : ListingsFilter) : Option String :=
  if (match filter.MinPrice with | some m => decide (m < 0) | none => false) then
    some "min_price cannot be negative"
  else if (match filter.MaxPrice with | some m => decide (m < 0) | none => false) then
    some "max_price cannot be negative"
  else if (match filter.MinPrice, filter.MaxPrice with
      | some lo, some hi => decide (lo > hi)
      | _, _ => false) then
    some "min_price cannot be greater than max_price"
  else if filter.Page < 1 then some "page must be greater than 0"
  else if filter.Limit < 1 ∨ filter.Limit > 100 then some "limit must be between 1 and 100"
  else none

/-- Method ListingService.CreateListing. -/
def ListingService.CreateListing (E : Env) (now : Nat) (db : DB) (userID : Int)
    (req : CreateListingRequest) : Outcome Listing :=
  match validateCreateListingRequest E req with
  | some err => { result := .error err, db := db, queries := [] }
  | none =>
    let out := ListingRepository.CreateListing now db userID req
    match out.result with
    | .error e => { out with result := .error ("failed to create listing: " ++ e) }
    | .ok listing => { out with result := .ok listing }

/-- Method ListingService.GetListings. -/
def ListingService.GetListings (race : DB → DB) (db : DB) (filter : ListingsFilter)
    (currentUserID : Option Int) : Outcome PaginatedListings :=
  let filter := SetDefaults filter
  match validateListingsFilter filter with
  | some err => { result := .error err, db := db, queries := [] }
  | none =>
    let out := ListingRepository.GetListings race db filter currentUserID
    match out.result with
    | .error e => { out with result := .error ("failed to get listings: " ++ e) }
    | .ok listings => { out with result := .ok listings }

/-- Method ListingService.GetListingByID. -/
def ListingService.GetListingByID (db : DB) (id : Int) (currentUserID : Option Int) :
    Outcome Listing :=
  if id ≤ 0 then { result := .error "invalid listing ID", db := db, queries := [] }
  else
    let out := ListingRepository.GetListingByID db id currentUserID
    match out.result with
    | .error e =>
      if e = "listing not found" then { out with result := .error "listing not found" }
      else { out with result := .error ("failed to get listing: " ++ e) }
    | .ok listing => { out with result := .ok listing }

/-- Method ListingService.GetUserListings. -/
def ListingService.GetUserListings (race : DB → DB) (db : DB) (userID : Int)
    (filter : ListingsFilter) : Outcome PaginatedListings :=
  if userID ≤ 0 then { result := .error "invalid user ID", db := db, queries := [] }
  else
    let filter := SetDefaults filter
    match validateListingsFilter filter with
    | some err => { result := .error err, db := db, queries := [] }
    | none =>
      let out := ListingRepository.GetUserListings race db userID filter
      match out.result with
      | .error e => { out with result := .error ("failed to get user listings: " ++ e) }
      | .ok listings => { out with result := .ok listings }

/-! ## internal/database/postgres/user_repository.go -/

/-- Method UserRepository.UserExists. -/
def UserRepository.UserExists (db : DB) (login : String) : Except String Bool :=
  .ok (db.users.any (fun u => u.Login == login))

/-- Method UserRepository.CreateUser: the INSERT takes the next value of the
SERIAL sequence (also when it then fails), the column login is UNIQUE, and both
timestamps default to the time of the statement. -/
def UserRepository.CreateUser (now : Nat) (db : DB) (login passwordHash : String) :
    Except String User × DB :=
  let id := db.users_id_seq + 1
  if db.users.any (fun u => u.Login == login) then
    (.error ("failed to create user: " ++
        "pq: duplicate key value violates unique constraint \"users_login_key\""),
      { db with users_id_seq := id })
  else
    let user : User :=
      { ID := id, Login := login, PasswordHash := passwordHash, CreatedAt := now,
        UpdatedAt := now }
    (.ok user, { db with users := db.users ++ [user], users_id_seq := id })

/-- Method UserRepository.GetUserByLogin. -/
def UserRepository.GetUserByLogin (db : DB) (login : String) : Except String User :=
  match db.users.find? (fun u => u.Login == login) with
  | none => .error "user not found"
  | some user => .ok user

/-! ## internal/service/auth_service.go -/

/-- Method AuthService.Register. -/
def AuthService.Register (E : Env) (jwtSecret : String) (now : Nat) (race : DB → DB) (db : DB)
    (req : RegisterRequest) : Outcome AuthResponse :=
  if !ValidateLogin req.Login then
    { result := .error "invalid login format", db := db, queries := [] }
  else if !ValidatePassword E req.Password then
    { result := .error
        "password must be at least 6 characters long and contain letters and digits",
      db := db, queries := [] }
  else
    match UserRepository.UserExists db req.Login with
    | .error e =>
      { result := .error ("failed to check user existence: " ++ e), db := db,
        queries := [.userExists req.Login] }
    | .ok found =>
      if found then
        { result := .error "user already exists", db := db, queries := [.userExists req.Login] }
      else
        match E.bcryptGenerate req.Password with
        | .error e =>
          { result := .error ("failed to hash password: " ++ e), db := db,
            queries := [.userExists req.Login] }
        | .ok passwordHash =>
          let queries := [.userExists req.Login, .insertUser req.Login passwordHash]
          match UserRepository.CreateUser now (race db) req.Login passwordHash with
          | (.error e, db1) =>
            { result := .error ("failed to create user: " ++ e), db := db1, queries := queries }
          | (.ok user, db1) =>
            match E.GenerateToken user.ID user.Login jwtSecret with
            | .error e =>
              { result := .error ("failed to generate token: " ++ e), db := db1,
                queries := queries }
            | .ok token =>
              { result := .ok { User := user, Token := token }, db := db1, queries := queries }

/-- Method AuthService.Login. -/
def AuthService.Login (E : Env) (jwtSecret : String) (db : DB) (req : LoginRequest) :
    Outcome AuthResponse :=
  let queries := [.selectUserByLogin req.Login]
  match UserRepository.GetUserByLogin db req.Login with
  | .error _ => { result := .error "invalid credentials", db := db, queries := queries }
  | .ok user =>
    if !E.bcryptCompare user.PasswordHash req.Password then
      { result := .error "invalid credentials", db := db, queries := queries }
    else
      match E.GenerateToken user.ID user.Login jwtSecret with
      | .error e =>
        { result := .error ("failed to generate token: " ++ e), db := db, queries := queries }
      | .ok token =>
        { result := .ok { User := user, Token := token }, db := db, queries := queries }

/-! ## pkg/utils/responce.go -/

/-- What a handler writes with c.JSON: the status code and an ErrorResponse
(fields error and message) or a SuccessResponse (fields data and message). -/
inductive Response (α : Type) where
  | failure (statusCode : Nat) (error message : String)
  | success (statusCode : Nat) (data : α) (message : String)
deriving DecidableEq, Repr

/-- Function SendError with one message. -/
def SendError {α : Type} (statusCode : Nat) (err message : String) : Response α :=
  .failure statusCode err message

/-- Function SendSuccess with one message. -/
def SendSuccess {α : Type} (statusCode : Nat) (data : α) (message : String) : Response α :=
  .success statusCode data message

/-- Function BadRequest. -/
def BadRequest {α : Type} (message : String) : Response α := SendError 400 "bad_request" message

/-- Function Unauthorized. -/
def Unauthorized {α : Type} (message : String) : Response α :=
  SendError 401 "unauthorized" message

/-- Function InternalError. -/
def InternalError {α : Type} (message : String) : Response α :=
  SendError 500 "internal_error" message

/-- Function Conflict. -/
def Conflict {α : Type} (message : String) : Response α := SendError 409 "conflict" message

/-- Function NotFound. -/
def NotFound {α : Type} (message : String) : Response α := SendError 404 "not_found" message

/-- Function Forbidden. -/
def Forbidden {α : Type} (message : String) : Response α := SendError 403 "forbidden" message

/-! ## internal/api/handlers -/

/-- Method AuthHandler.Login. The argument bound is what c.ShouldBindJSON
leaves (none: it returned an error), authService the Login method of the
service behind the handler. -/
def AuthHandler.Login (authService : LoginRequest → Except String AuthResponse)
    (bound : Option LoginRequest) : Response AuthResponse :=
  match bound with
  | none => BadRequest "Invalid request format"
  | some req =>
    match authService req with
    | .error _ => Unauthorized "Invalid login or password"
    | .ok response => SendSuccess 200 response "Login successful"

/-- Method ListingHandler.UpdateListing. The argument userID is what
middleware.GetUserID finds in the context, id the result of strconv.Atoi on the
path parameter (none: an error), bound the result of c.ShouldBindJSON. -/
def ListingHandler.UpdateListing
    (listingService : Int → Int → UpdateListingRequest → Except String Listing)
    (userID : Option Int) (id : Option Int) (bound : Except String UpdateListingRequest) :
    Response Listing :=
  match userID with
  | none => Unauthorized "User not found in context"
  | some userID =>
    match id with
    | none => BadRequest "Invalid listing ID"
    | some id =>
      match bound with
      | .error e => BadRequest ("Invalid request format: " ++ e)
      | .ok req =>
        match listingService id userID req with
        | .error e =>
          if e = "listing not found" then NotFound "Listing not found"
          else if e = "access denied: you can only edit your own listings" then
            Forbidden "You can only edit your own listings"
          else if e = "invalid listing ID" ∨ e = "title cannot be empty" ∨
              e = "description cannot be empty" ∨ e = "price must be greater than 0" ∨
              e = "invalid image URL format" ∨
              e = "title must be less than 255 characters" ∨
              e = "image URL must be less than 500 characters" ∨
              e = "no fields to update" then
            BadRequest e
          else InternalError "Failed to update listing"
        | .ok listing => SendSuccess 200 listing "Listing updated successfully"

/-- Value stored in the gin context under a key: an int, or something else. -/
inductive CtxValue where
  | int (i : Int)
  | other
deriving DecidableEq, Repr

/-- Function middleware.GetUserID on the context value of user_id (none: the
key is not set): the id, when the key is set and holds an int. -/
def GetUserID (userID : Option CtxValue) : Option Int :=
  match userID with
  | some (.int id) => some id
  | _ => none

/-- Method AuthHandler.Register. The argument bound is what c.ShouldBindJSON
leaves (none: it returned an error). -/
def AuthHandler.Register (authService : RegisterRequest → Except String AuthResponse)
    (bound : Option RegisterRequest) : Response AuthResponse :=
  match bound with
  | none => BadRequest "Invalid request format"
  | some req =>
    match authService req with
    | .error e =>
      if e = "user already exists" then Conflict "User with this login already exists"
      else if e = "invalid login format" then
        BadRequest
          "Login must be 3-50 characters long and contain only letters, numbers, and underscores"
      else if e =
          "password must be at least 6 characters long and contain letters and digits" then
        BadRequest e
      else InternalError "Registration failed"
    | .ok response => SendSuccess 201 response "User registered successfully"

/-- Method AuthHandler.Me on the context value of user_id. -/
def AuthHandler.Me (authService : Int → Except String User) (userID : Option CtxValue) :
    Response User :=
  match userID with
  | none => Unauthorized "User not found in context"
  | some .other => InternalError "Invalid user ID format"
  | some (.int id) =>
    match authService id with
    | .error _ => InternalError "Failed to get user info"
    | .ok user => SendSuccess 200 user ""

/-- Method ListingHandler.CreateListing. -/
def ListingHandler.CreateListing
    (listingService : Int → CreateListingRequest → Except String Listing)
    (userID : Option Int) (bound : Except String CreateListingRequest) : Response Listing :=
  match userID with
  | none => Unauthorized "User not found in context"
  | some userID =>
    match bound with
    | .error e => BadRequest ("Invalid request format: " ++ e)
    | .ok req =>
      match listingService userID req with
      | .error e =>
        if e = "title is required" ∨ e = "description is required" ∨
            e = "price must be greater than 0" ∨ e = "invalid image URL format" ∨
            e = "title must be less than 255 characters" ∨
            e = "image URL must be less than 500 characters" then
          BadRequest e
        else InternalError "Failed to create listing"
      | .ok listing => SendSuccess 201 listing "Listing created successfully"

/-- Method ListingHandler.GetListings; the query is bound before the context is read. -/
def ListingHandler.GetListings
    (listingService : ListingsFilter → Option Int → Except String PaginatedListings)
    (userID : Option Int) (bound : Except String ListingsFilter) : Response PaginatedListings :=
  match bound with
  | .error e => BadRequest ("Invalid query parameters: " ++ e)
  | .ok filter =>
    match listingService filter userID with
    | .error e =>
      if e = "min_price cannot be negative" ∨ e = "max_price cannot be negative" ∨
          e = "min_price cannot be greater than max_price" ∨
          e = "page must be greater than 0" ∨ e = "limit must be between 1 and 100" then
        BadRequest e
      else InternalError "Failed to get listings"
    | .ok listings => SendSuccess 200 listings ""

/-- Method ListingHandler.GetListing. -/
def ListingHandler.GetListing (listingService : Int → Option Int → Except String Listing)
    (userID : Option Int) (id : Option Int) : Response Listing :=
  match id with
  | none => BadRequest "Invalid listing ID"
  | some id =>
    match listingService id userID with
    | .error e =>
      if e = "listing not found" then NotFound "Listing not found"
      else if e = "invalid listing ID" then BadRequest e
      else InternalError "Failed to get listing"
    | .ok listing => SendSuccess 200 listing ""

/-- Method ListingHandler.DeleteListing; its success carries nil as data. -/
def ListingHandler.DeleteListing (listingService : Int → Int → Except String Unit)
    (userID : Option Int) (id : Option Int) : Response Unit :=
  match userID with
  | none => Unauthorized "User not found in context"
  | some userID =>
    match id with
    | none => BadRequest "Invalid listing ID"
    | some id =>
      match listingService id userID with
      | .error e =>
        if e = "listing not found" then NotFound "Listing not found"
        else if e = "access denied: you can only delete your own listings" then
          Forbidden "You can only delete your own listings"
        else if e = "invalid listing ID" then BadRequest e
        else InternalError "Failed to delete listing"
      | .ok () => SendSuccess 200 () "Listing deleted successfully"

/-- Method ListingHandler.GetMyListings. -/
def ListingHandler.GetMyListings
    (listingService : Int → ListingsFilter → Except String PaginatedListings)
    (userID : Option Int) (bound : Except String ListingsFilter) : Response PaginatedListings :=
  match userID with
  | none => Unauthorized "User not found in context"
  | some userID =>
    match bound with
    | .error e => BadRequest ("Invalid query parameters: " ++ e)
    | .ok filter =>
      match listingService userID filter with
      | .error e =>
        if e = "invalid user ID" ∨ e = "page must be greater than 0" ∨
            e = "limit must be between 1 and 100" then
          BadRequest e
        else InternalError "Failed to get user listings"
      | .ok listings => SendSuccess 200 listings ""

/-- Call c.ShouldBindJSON for models.RegisterRequest. The argument is the
decoded body (none: the JSON is malformed; a missing field is the empty string);
the binding rules are login required,min=3,max=50 and password required,min=6,
with lengths counted in characters. -/
def ShouldBindRegister (decoded : Option RegisterRequest) : Option RegisterRequest :=
  match decoded with
  | none => none
  | some req =>
    if req.Login ≠ "" ∧ 3 ≤ req.Login.length ∧ req.Login.length ≤ 50 ∧
        req.Password ≠ "" ∧ 6 ≤ req.Password.length then some req
    else none

/-! ## JSON bodies (encoding/json on the structs of models and responce.go) -/

/-- A JSON value; a time.Time is kept as its clock value (it is written as an
RFC 3339 string). -/
inductive JSON where
  | null
  | bool (b : Bool)
  | number (q : ℚ)
  | string (s : String)
  | time (t : Nat)
  | array (items : List JSON)
  | object (fields : List (String × JSON))

/-- Marshalling of models.User by its struct tags: id, login, created_at and
updated_at; the tag of PasswordHash is "-", which leaves the field out. -/
def marshalUser (u : User) : JSON :=
  .object [("id", .number u.ID), ("login", .string u.Login), ("created_at", .time u.CreatedAt),
    ("updated_at", .time u.UpdatedAt)]

/-- Marshalling of models.AuthResponse: user and token. -/
def marshalAuthResponse (a : AuthResponse) : JSON :=
  .object [("user", marshalUser a.User), ("token", .string a.Token)]

/-- Status and body that c.JSON writes for a response: an ErrorResponse has
error and, when not empty, message; a SuccessResponse has data, when it is not
nil, and message, when not empty (both fields are omitempty). -/
def marshalResponse {α : Type} (data : α → Option JSON) : Response α → Nat × JSON
  | .failure statusCode err message =>
    (statusCode,
      .object ([("error", .string err)] ++
        (if message = "" then [] else [("message", .string message)])))
  | .success statusCode d message =>
    (statusCode,
      .object ((match data d with | some j => [("data", j)] | none => []) ++
        (if message = "" then [] else [("message", .string message)])))

/-! ## pkg/middleware/authentication.go and internal/api/routes/routes.go -/

/-- Claims that utils.ValidateToken returns, restricted to the fields the middleware reads. -/
structure Claims where
  UserID : Int
  Login : String
deriving DecidableEq, Repr

/-- Function AuthMiddleware on the Authorization header (empty: no header):
the message of the 401 it aborts with, or the value it stores under user_id.
The argument ValidateToken is utils.ValidateToken (pkg/utils, not among the
sources); none stands for its error. -/
def AuthMiddleware (ValidateToken : String → String → Option Claims) (jwtSecret : String)
    (authHeader : String) : Except String CtxValue :=
  if authHeader = "" then .error "Authorization header required"
  else if authHeader.toList.take 7 ≠ "Bearer ".toList then .error "Bearer token required"
  else
    let token := String.mk (authHeader.toList.drop 7)
    match ValidateToken token jwtSecret with
    | none => .error "Invalid token"
    | some claims => .ok (.int claims.UserID)

/-- Endpoints that SetupRoutes registers under /api. -/
inductive Endpoint where
  | register
  | login
  | me
  | getListings
  | getListing
  | createListing
  | getMyListings
  | updateListing
  | deleteListing
deriving DecidableEq, Repr

/-- Whether SetupRoutes registers the endpoint in the group protected, the one
that uses AuthMiddleware: /auth/me, POST /listings/, /listings/my, PUT and
DELETE /listings/:id. The groups /auth and /listings use no middleware. -/
def usesAuthMiddleware : Endpoint → Bool
  | .me => true
  | .createListing => true
  | .getMyListings => true
  | .updateListing => true
  | .deleteListing => true
  | .register => false
  | .login => false
  | .getListings => false
  | .getListing => false

/-- Context value of user_id when the handler of an endpoint starts, or the
message of the 401 its middleware aborted with. -/
def contextFor (ValidateToken : String → String → Option Claims) (jwtSecret : String)
    (endpoint : Endpoint) (authHeader : String) : Except String (Option CtxValue) :=
  if usesAuthMiddleware endpoint then
    match AuthMiddleware ValidateToken jwtSecret authHeader with
    | .error message => .error message
    | .ok value => .ok (some value)
  else .ok none

/-- A request GET /api/listings/:id as the router serves it. -/
def serveGetListing (ValidateToken : String → String → Option Claims) (jwtSecret : String)
    (listingService : Int → Option Int → Except String Listing) (authHeader : String)
    (id : Option Int) : Response Listing :=
  match contextFor ValidateToken jwtSecret .getListing authHeader with
  | .error message => Unauthorized message
  | .ok context => ListingHandler.GetListing listingService (GetUserID context) id

/-- A request GET /api/listings/ as the router serves it. -/
def serveGetListings (ValidateToken : String → String → Option Claims) (jwtSecret : String)
    (listingService : ListingsFilter → Option Int → Except String PaginatedListings)
    (authHeader : String) (bound : Except String ListingsFilter) : Response PaginatedListings :=
  match contextFor ValidateToken jwtSecret .getListings authHeader with
  | .error message => Unauthorized message
  | .ok context => ListingHandler.GetListings listingService (GetUserID context) bound

/-- A request DELETE /api/listings/:id as the router serves it. -/
def serveDeleteListing (ValidateToken : String → String → Option Claims) (jwtSecret : String)
    (listingService : Int → Int → Except String Unit) (authHeader : String)
    (id : Option Int) : Response Unit :=
  match contextFor ValidateToken jwtSecret .deleteListing authHeader with
  | .error message => Unauthorized message
  | .ok context => ListingHandler.DeleteListing listingService (GetUserID context) id

/-! ## Specification-side notions -/

/-- Two characters that are the same letter up to case: they are equal, or one
is a capital Latin letter A to Z and the other is the small letter, which
stands 32 places after it. -/
def sameLetter (a b : Char) : Bool :=
  a == b || (a.isUpper && b.toNat == a.toNat + 32) || (b.isUpper && a.toNat == b.toNat + 32)

/-- Comparison of two texts place by place, not telling the two cases of a
letter apart. -/
def equalFold : List Char → List Char → Bool
  | [], [] => true
  | a :: as, b :: bs => sameLetter a b && equalFold as bs
  | _, _ => false

/-- Case-insensitive comparison of a scheme with a name, in the words of the
specification: same length, and in every place the same letter up to case. -/
def schemeIs (scheme name : String) : Prop := equalFold scheme.toList name.toList = true

/-- A row after an update request, in the words of the specification: a field
present in the request takes the supplied value, an absent one keeps its value,
updated_at becomes the current time, and id, user_id and created_at stay. -/
def applyRequest (req : UpdateListingRequest) (now : Nat) (r : ListingRow) : ListingRow :=
  { id := r.id,
    title := (match req.Title with | some t => t | none => r.title),
    description := (match req.Description with | some d => d | none => r.description),
    image_url := (match req.ImageURL with | some u => some u | none => r.image_url),
    price := (match req.Price with | some p => p | none => r.price),
    user_id := r.user_id,
    created_at := r.created_at,
    updated_at := now }

/-- Update request with its price as the column DECIMAL(10, 2) keeps it, or the
error of the column for a price that does not fit. -/
def storedRequest (req : UpdateListingRequest) : Except String UpdateListingRequest :=
  match req.Price with
  | none => .ok req
  | some p =>
    match decimal10_2 p with
    | .error e => .error e
    | .ok stored => .ok { req with Price := some stored }

/-- Price bounds that the filter supplies, in the words of the specification:
price >= min_price when it is present, price <= max_price when it is present. -/
def priceBounds (f : ListingsFilter) : List (PriceOp × ℚ) :=
  (match f.MinPrice with | some m => [(PriceOp.ge, m)] | none => []) ++
    (match f.MaxPrice with | some m => [(PriceOp.le, m)] | none => [])

/-- Columns of the fields present in an update request, in the order title,
description, image_url, price. -/
def presentColumns (req : UpdateListingRequest) : List Column :=
  (if req.Title.isSome then [Column.title] else []) ++
  (if req.Description.isSome then [Column.description] else []) ++
  (if req.ImageURL.isSome then [Column.image_url] else []) ++
  (if req.Price.isSome then [Column.price] else [])

/-- Values of the fields present in an update request, in the same order. -/
def presentValues (req : UpdateListingRequest) : List Arg :=
  (match req.Title with | some t => [Arg.str t] | none => []) ++
  (match req.Description with | some d => [Arg.str d] | none => []) ++
  (match req.ImageURL with | some u => [Arg.str u] | none => []) ++
  (match req.Price with | some p => [Arg.num p] | none => [])

/-! ## Sample data for evaluating the definitions -/

/-- Answers of url.Parse on three inputs (an https URL, an ftp URL, an http
URL without host); every other input counts as a parse error here. -/
def sampleParse (rawURL : String) : Option ParsedURL :=
  if rawURL = "HTTPS://example.com/a.jpg" then some { Scheme := "https", Host := "example.com" }
  else if rawURL = "ftp://example.com/a.jpg" then some { Scheme := "ftp", Host := "example.com" }
  else if rawURL = "http:///a.jpg" then some { Scheme := "http", Host := "" }
  else none

/-- Answers of a parser that keeps the scheme as it is written (url.Parse of
the standard library puts it in lower case itself), so that the comparison of
ValidateURL is what decides. -/
def keepCaseParse (rawURL : String) : Option ParsedURL :=
  if rawURL = "HTTPS://example.com/a.jpg" then some { Scheme := "HTTPS", Host := "example.com" }
  else if rawURL = "hTtP://example.com/a.jpg" then some { Scheme := "hTtP", Host := "example.com" }
  else if rawURL = "httpx://example.com/a.jpg" then
    some { Scheme := "httpx", Host := "example.com" }
  else sampleParse rawURL

/-- An environment in which every library call has a simple fixed answer. -/
def sampleEnv : Env :=
  { Letter := fun _ => false,
    Digit := fun _ => false,
    LowerCase := fun r => r,
    urlParse := sampleParse,
    bcryptGenerate := fun password => .ok ("$2a$10$" ++ password),
    bcryptCompare := fun hash password => hash == "$2a$10$" ++ password,
    GenerateToken := fun _ login _ => .ok ("token-of-" ++ login),
    pgTimestamp := fun t => (t + 500) / 1000 * 1000 }

/-- The sample environment with the parser that keeps the case of the scheme. -/
def keepCaseEnv : Env :=
  { sampleEnv with urlParse := keepCaseParse }

/-- A listing with id 1 that belongs to user 1. -/
def sampleRow : ListingRow :=
  { id := 1, title := "iPhone 15 Pro", description := "New", image_url := none,
    price := 120000, user_id := 1, created_at := 10, updated_at := 10 }

/-- A second listing, with id 2, of user 2. -/
def otherRow : ListingRow :=
  { id := 2, title := "Desk", description := "Oak", image_url := some "https://example.com/d.jpg",
    price := 50, user_id := 2, created_at := 20, updated_at := 20 }

/-- A database with two users and their two listings. -/
def sampleDB : DB :=
  { users :=
      [{ ID := 1, Login := "artificial00", PasswordHash := "$2a$10$password123",
         CreatedAt := 1, UpdatedAt := 1 },
       { ID := 2, Login := "second_user", PasswordHash := "$2a$10$qwerty1",
         CreatedAt := 2, UpdatedAt := 2 }],
    listings := [sampleRow, otherRow],
    users_id_seq := 2,
    listings_id_seq := 2 }

/-- A concurrent request that deletes listing 1 between two statements. -/
def concurrentDelete (db : DB) : DB :=
  { db with listings := db.listings.filter (fun r => r.id != 1) }

/-- A title of 128 characters, each of two bytes in UTF-8. -/
def accentedTitle : String := String.mk (List.replicate 128 'é')

/-- A valid request for a new listing without image. -/
def sampleCreate : CreateListingRequest :=
  { Title := "Desk", Description := "Oak", ImageURL := none, Price := 50 }

/-- A filter with the largest page a Go int can hold and the largest limit. -/
def hugePageFilter : ListingsFilter :=
  { MinPrice := none, MaxPrice := none, SortBy := "created_at", SortDir := "desc",
    Page := 9223372036854775807, Limit := 100 }

/-- A filter whose sort_by is not a column name but more SQL. -/
def injectionFilter : ListingsFilter :=
  { MinPrice := none, MaxPrice := none, SortBy := "id; DROP TABLE listings; --", SortDir := "",
    Page := 1, Limit := 20 }

/-- Listing number i + 1 of user 1, created at time i with price i + 1. -/
def numberedRow (i : Nat) : ListingRow :=
  { id := (i : Int) + 1, title := "Item", description := "Thing", image_url := none,
    price := (i : ℚ) + 1, user_id := 1, created_at := i, updated_at := i }

/-- A database with the two users and 25 listings of user 1. -/
def manyListings : DB :=
  { sampleDB with listings := (List.range 25).map numberedRow, listings_id_seq := 25 }

/-- The request page=2, limit=20 with everything else left empty. -/
def secondPage : ListingsFilter :=
  { MinPrice := none, MaxPrice := none, SortBy := "", SortDir := "", Page := 2, Limit := 20 }

/-- The request min_price=100, max_price=50 with everything else left empty. -/
def priceRangeFilter : ListingsFilter :=
  { MinPrice := some 100, MaxPrice := some 50, SortBy := "", SortDir := "", Page := 0,
    Limit := 0 }

/-- The sample environment with a token helper that fails. -/
def brokenTokenEnv : Env :=
  { sampleEnv with GenerateToken := fun _ _ _ => .error "signing key unavailable" }

/-- The request min_price=10, max_price=500, page 1, limit 20, sorted by price. -/
def boundedFilter : ListingsFilter :=
  { MinPrice := some 10, MaxPrice := some 500, SortBy := "price", SortDir := "asc", Page := 1,
    Limit := 20 }

/-- An update request with all four fields. -/
def fullRequest : UpdateListingRequest :=
  { Title := some "iPhone 15 Pro Updated", Description := some "Updated description",
    ImageURL := some "https://example.com/updated.jpg", Price := some 130000 }

/-- A token check that accepts the token "token-of-artificial00" as user 1. -/
def sampleValidateToken (token _secret : String) : Option Claims :=
  if token = "token-of-artificial00" then some { UserID := 1, Login := "artificial00" } else none

/-- An update request without any field. -/
def emptyRequest : UpdateListingRequest :=
  { Title := none, Description := none, ImageURL := none, Price := none }

/-- An update request that sets the price 19.999 alone. -/
def thirdDecimalRequest : UpdateListingRequest :=
  { emptyRequest with Price := some (mkRat 19999 1000) }

/-! ## Theorems -/

/-! ### Runes and byte lengths -/

theorem char_eq_iff_toNat (c d : Char) : c = d ↔ c.toNat = d.toNat := by
  constructor
  · intro h; rw [h]
  · intro h
    apply Char.ext
    apply UInt32.ext
    exact h

theorem loginRune_iff (c : Char) : loginRune c = true ↔ (c.isAlphanum = true ∨ c = '_') := by
  have h95 : c = '_' ↔ c.toNat = 95 := char_eq_iff_toNat c '_'
  simp only [Char.isAlphanum, Char.isAlpha, Char.isUpper, Char.isLower, Char.isDigit, loginRune,
    UInt32.le_def, BitVec.le_def, Bool.or_eq_true, Bool.and_eq_true, decide_eq_true_eq, ge_iff_le,
    beq_iff_eq, h95]
  change _ ↔ ((65 ≤ c.toNat ∧ c.toNat ≤ 90 ∨ 97 ≤ c.toNat ∧ c.toNat ≤ 122) ∨
    48 ≤ c.toNat ∧ c.toNat ≤ 57) ∨ c.toNat = 95
  omega

theorem loginRune_ascii (c : Char) (h : loginRune c = true) : RuneLen c = 1 := by
  simp only [loginRune, Bool.or_eq_true, Bool.and_eq_true, decide_eq_true_eq, beq_iff_eq] at h
  have : c.toNat < 0x80 := by omega
  simp [RuneLen, this]

theorem sum_RuneLen_of_loginRune (l : List Char) (h : ∀ c ∈ l, loginRune c = true) :
    (l.map RuneLen).sum = l.length := by
  induction l with
  | nil => rfl
  | cons a t ih =>
    have ha := loginRune_ascii a (h a (List.mem_cons_self a t))
    have ht := ih (fun c hc => h c (List.mem_cons_of_mem a hc))
    simp only [List.map_cons, List.sum_cons, List.length_cons, ha, ht]
    omega

theorem matchLoginPattern_iff (s : String) :
    matchLoginPattern s = true ↔ (s.toList ≠ [] ∧ ∀ c ∈ s.toList, loginRune c = true) := by
  unfold matchLoginPattern
  cases hs : s.toList with
  | nil => simp
  | cons a t => simp [List.all_eq_true]

/-! ### Validators -/

/-- C5: ValidateLogin accepts a string exactly when its length is between 3
and 50 and every character is an ASCII letter, an ASCII digit or the
underscore; it rejects ab and bad!name and accepts artificial00. -/
theorem ValidateLogin_iff :
    (∀ s : String, ValidateLogin s = true ↔
      (3 ≤ s.length ∧ s.length ≤ 50 ∧ ∀ c ∈ s.toList, c.isAlphanum = true ∨ c = '_')) ∧
    ValidateLogin "ab" = false ∧ ValidateLogin "bad!name" = false ∧
    ValidateLogin "artificial00" = true := by
  refine ⟨?_, by decide, by decide, by decide⟩
  intro s
  have hlen : s.length = s.toList.length := rfl
  constructor
  · intro h
    unfold ValidateLogin at h
    split at h
    · exact absurd h (by simp)
    · rename_i hr
      have hm := (matchLoginPattern_iff s).1 h
      have hsum := sum_RuneLen_of_loginRune s.toList hm.2
      simp only [Bool.or_eq_true, decide_eq_true_eq, not_or, not_lt] at hr
      unfold len at hr
      rw [hsum] at hr
      refine ⟨by omega, by omega, fun c hc => (loginRune_iff c).1 (hm.2 c hc)⟩
  · rintro ⟨h3, h50, hall⟩
    have hall2 : ∀ c ∈ s.toList, loginRune c = true := fun c hc => (loginRune_iff c).2 (hall c hc)
    have hsum := sum_RuneLen_of_loginRune s.toList hall2
    have hne : s.toList ≠ [] := by
      intro h0
      rw [hlen, h0] at h3
      simp at h3
    unfold ValidateLogin
    have hr : ¬ ((decide (len s < 3) || decide (len s > 50)) = true) := by
      simp only [Bool.or_eq_true, decide_eq_true_eq, not_or, not_lt]
      unfold len
      rw [hsum]
      omega
    rw [if_neg hr]
    exact (matchLoginPattern_iff s).2 ⟨hne, hall2⟩

theorem scanPassword_eq (E : Env) (l : List Char) (a b : Bool) :
    scanPassword E l (a, b) = (a || l.any (IsLetter E), b || l.any (IsDigit E)) := by
  induction l generalizing a b with
  | nil => simp [scanPassword]
  | cons c t ih =>
    simp only [scanPassword, ih, List.any_cons]
    cases IsLetter E c <;> cases IsDigit E c <;> cases a <;> cases b <;> simp

/-- What ValidatePassword computes: at least 6 bytes of UTF-8, some rune that
unicode.IsLetter accepts and some rune that unicode.IsDigit accepts. -/
theorem ValidatePassword_iff_bytes (E : Env) (s : String) :
    ValidatePassword E s = true ↔
      (6 ≤ len s ∧ (∃ c ∈ s.toList, IsLetter E c = true) ∧ ∃ c ∈ s.toList, IsDigit E c = true) := by
  unfold ValidatePassword
  by_cases h : len s < 6
  · simp [h]
  · simp only [h, if_false, scanPassword_eq, Bool.false_or, Bool.and_eq_true, List.any_eq_true]
    constructor
    · rintro ⟨h1, h2⟩
      exact ⟨by omega, h1, h2⟩
    · rintro ⟨_, h1, h2⟩
      exact ⟨h1, h2⟩

/-- C6: ValidatePassword measures the length in bytes, not in characters: the
four-character password a1éé (six bytes of UTF-8, a letter and a digit) is
accepted; abcdef is rejected and abc123 is accepted. -/
theorem ValidatePassword_short_accepted (E : Env) :
    ValidatePassword E "a1éé" = true ∧ "a1éé".length = 4 ∧ len "a1éé" = 6 ∧
    ValidatePassword E "abcdef" = false ∧ ValidatePassword E "abc123" = true := by
  refine ⟨rfl, by decide, by decide, rfl, rfl⟩

theorem isUpper_iff (c : Char) : c.isUpper = true ↔ 65 ≤ c.toNat ∧ c.toNat ≤ 90 := by
  simp only [Char.isUpper, UInt32.le_def, BitVec.le_def, Bool.and_eq_true, decide_eq_true_eq,
    ge_iff_le]
  rfl

theorem toNat_ofNat_add_32 (n : Nat) (h1 : 65 ≤ n) (h2 : n ≤ 90) :
    (Char.ofNat (n + 32)).toNat = n + 32 := by
  interval_cases n <;> rfl

theorem runeToLower_eq_iff (E : Env) (a c : Char) (hc : 97 ≤ c.toNat ∧ c.toNat ≤ 122)
    (hE : 0x7F < a.toNat → E.LowerCase a ≠ c) :
    runeToLower E a = c ↔ sameLetter a c = true := by
  have hcu : ¬ (65 ≤ c.toNat ∧ c.toNat ≤ 90) := by omega
  have hcu2 : c.isUpper = false := by
    cases h : c.isUpper with
    | false => rfl
    | true => exact absurd ((isUpper_iff c).1 h) hcu
  unfold runeToLower sameLetter
  simp only [hcu2, Bool.false_and, Bool.or_false, Bool.or_eq_true, Bool.and_eq_true,
    beq_iff_eq, decide_eq_true_eq, isUpper_iff]
  by_cases hascii : a.toNat ≤ 0x7F
  · rw [if_pos hascii]
    by_cases hup : 65 ≤ a.toNat ∧ a.toNat ≤ 90
    · have h3 : (0x41 ≤ a.toNat ∧ a.toNat ≤ 0x5A) := hup
      simp only [h3, and_self, if_true, true_and, char_eq_iff_toNat,
        toNat_ofNat_add_32 a.toNat hup.1 hup.2]
      omega
    · have h3 : ¬ (0x41 ≤ a.toNat ∧ a.toNat ≤ 0x5A) := hup
      simp only [h3, if_false, false_and, or_false]
  · rw [if_neg hascii]
    constructor
    · intro h; exact absurd h (hE (by omega))
    · rintro (h | ⟨h, _⟩)
      · rw [char_eq_iff_toNat] at h; omega
      · omega

theorem map_runeToLower_eq_iff (E : Env) (name : List Char)
    (hname : ∀ c ∈ name, 97 ≤ c.toNat ∧ c.toNat ≤ 122)
    (hE : ∀ r : Char, 0x7F < r.toNat → E.LowerCase r ∉ name) (l : List Char) :
    l.map (runeToLower E) = name ↔ equalFold l name = true := by
  induction l generalizing name with
  | nil => cases name <;> simp [equalFold]
  | cons a as ih =>
    cases name with
    | nil => simp [equalFold]
    | cons c cs =>
      have hc := hname c (List.mem_cons_self c cs)
      have hcs : ∀ d ∈ cs, 97 ≤ d.toNat ∧ d.toNat ≤ 122 :=
        fun d hd => hname d (List.mem_cons_of_mem c hd)
      have hEc : 0x7F < a.toNat → E.LowerCase a ≠ c := fun h heq =>
        hE a h (by rw [heq]; exact List.mem_cons_self c cs)
      have hEcs : ∀ r : Char, 0x7F < r.toNat → E.LowerCase r ∉ cs :=
        fun r h hm => hE r h (List.mem_cons_of_mem c hm)
      simp only [List.map_cons, List.cons.injEq, equalFold, Bool.and_eq_true,
        runeToLower_eq_iff E a c hc hEc, ih cs hcs hEcs]

theorem ToLower_eq_iff (E : Env) (name : String)
    (hname : ∀ c ∈ name.toList, 97 ≤ c.toNat ∧ c.toNat ≤ 122)
    (hE : ∀ r : Char, 0x7F < r.toNat → E.LowerCase r ∉ name.toList) (scheme : String) :
    ToLower E scheme = name ↔ schemeIs scheme name := by
  unfold ToLower schemeIs
  rw [← map_runeToLower_eq_iff E name.toList hname hE scheme.toList]
  exact String.ext_iff

/-- C7: ValidateURL accepts the empty string, and accepts a non-empty string
exactly when url.Parse succeeds on it with a scheme that is http or https up
to the case of its letters and a non-empty host. The comparison of the code goes
through strings.ToLower, whose table above ASCII is a parameter; the Unicode
table has no rune above ASCII whose lower case is one of the letters h, t, p,
s (only U+0130 and U+212A have an ASCII lower case, i and k). -/
theorem ValidateURL_iff (E : Env)
    (hE : ∀ r : Char, 0x7F < r.toNat → E.LowerCase r ∉ ['h', 't', 'p', 's']) :
    ValidateURL E "" = true ∧
    ∀ s : String, s ≠ "" →
      (ValidateURL E s = true ↔
        ∃ u, E.urlParse s = some u ∧
          (schemeIs u.Scheme "http" ∨ schemeIs u.Scheme "https") ∧ u.Host ≠ "") := by
  have hhttp : ∀ scheme, ToLower E scheme = "http" ↔ schemeIs scheme "http" :=
    ToLower_eq_iff E "http" (by decide) (fun r hr hm => hE r hr (by
      simp only [String.toList, List.mem_cons, List.mem_singleton, List.not_mem_nil,
        or_false] at hm ⊢
      tauto))
  have hhttps : ∀ scheme, ToLower E scheme = "https" ↔ schemeIs scheme "https" :=
    ToLower_eq_iff E "https" (by decide) (fun r hr hm => hE r hr (by
      simp only [String.toList, List.mem_cons, List.mem_singleton, List.not_mem_nil,
        or_false] at hm ⊢
      tauto))
  refine ⟨by simp [ValidateURL], ?_⟩
  intro s hs
  unfold ValidateURL
  rw [if_neg hs]
  cases hp : E.urlParse s with
  | none => simp
  | some u =>
    simp only [← hhttp, ← hhttps]
    by_cases h1 : ToLower E u.Scheme = "http" <;> by_cases h2 : ToLower E u.Scheme = "https" <;>
      by_cases h3 : u.Host = "" <;> simp [h1, h2, h3]

/-- C7 at concrete inputs, with a parser that keeps the case of the scheme: the
schemes HTTPS and hTtP with a host are accepted; the schemes ftp and httpx, an
http URL without host and a string that does not parse are rejected. -/
theorem ValidateURL_iff_witness :
    (∀ r : Char, 0x7F < r.toNat → keepCaseEnv.LowerCase r ∉ ['h', 't', 'p', 's']) ∧
    keepCaseEnv.urlParse "HTTPS://example.com/a.jpg" =
      some { Scheme := "HTTPS", Host := "example.com" } ∧
    ValidateURL keepCaseEnv "HTTPS://example.com/a.jpg" = true ∧
    ValidateURL keepCaseEnv "hTtP://example.com/a.jpg" = true ∧
    ValidateURL keepCaseEnv "httpx://example.com/a.jpg" = false ∧
    ValidateURL keepCaseEnv "ftp://example.com/a.jpg" = false ∧
    ValidateURL keepCaseEnv "http:///a.jpg" = false ∧
    ValidateURL keepCaseEnv "not a url" = false := by
  have hE : ∀ r : Char, 0x7F < r.toNat → keepCaseEnv.LowerCase r ∉ ['h', 't', 'p', 's'] := by
    intro r hr hm
    have hid : keepCaseEnv.LowerCase r = r := rfl
    rw [hid] at hm
    simp only [List.mem_cons, List.mem_singleton, List.not_mem_nil, or_false] at hm
    rcases hm with h | h | h | h <;> subst h <;> exact absurd hr (by decide)
  have h := (ValidateURL_iff keepCaseEnv hE).2
  have hno : ∀ (s : String) (u : ParsedURL), s ≠ "" → keepCaseParse s = some u →
      (¬ (schemeIs u.Scheme "http" ∨ schemeIs u.Scheme "https") ∨ u.Host = "") →
      ValidateURL keepCaseEnv s = false := by
    intro s u hs hu hbad
    cases hv : ValidateURL keepCaseEnv s with
    | false => rfl
    | true =>
      obtain ⟨v, hv1, hv2, hv3⟩ := (h s hs).1 hv
      have huv : some v = some u := hv1.symm.trans hu
      injection huv with huv
      subst huv
      rcases hbad with hb | hb
      · exact absurd hv2 hb
      · exact absurd hb hv3
  refine ⟨hE, rfl, (h _ (by decide)).2 ⟨_, rfl, Or.inr rfl, by decide⟩,
    (h _ (by decide)).2 ⟨_, rfl, Or.inl rfl, by decide⟩,
    hno _ _ (by decide) rfl (Or.inl (by unfold schemeIs; decide)),
    hno _ _ (by decide) rfl (Or.inl (by unfold schemeIs; decide)),
    hno _ _ (by decide) rfl (Or.inr rfl), ?_⟩
  cases hv : ValidateURL keepCaseEnv "not a url" with
  | false => rfl
  | true =>
    obtain ⟨u, hu, _, _⟩ := (h _ (by decide)).1 hv
    have : keepCaseParse "not a url" = some u := hu
    simp [keepCaseParse, sampleParse] at this

/-! ### Updating a listing -/

/-- C1 as stated fails: for listing 1 of user 1, the call of user 2 with an
empty title is answered with the validation error, not with access denied. -/
theorem UpdateListing_validates_before_ownership :
    queryOwner sampleDB 1 = .ok (some 1) ∧ (1 : Int) ≠ 2 ∧
    (∀ (E : Env) (now : Nat) (race : DB → DB),
      (ListingService.UpdateListing E now race sampleDB 1 2
        { emptyRequest with Title := some "" }).result = .error "title cannot be empty") ∧
    "title cannot be empty" ≠ "access denied: you can only edit your own listings" := by
  refine ⟨rfl, by decide, ?_, by decide⟩
  intro E now race
  rfl

/-- C1, amended: for a listing whose stored owner differs from the caller and
an id > 0, UpdateListing leaves the database unchanged; a request that passes
field validation (also one without fields) gets the access-denied error after
the single ownership query; a request that fails field validation gets the
validation error before any query. -/
theorem UpdateListing_not_owner (E : Env) (now : Nat) (race : DB → DB) (db : DB)
    (id userID owner : Int) (req : UpdateListingRequest)
    (hid : 0 < id) (hown : queryOwner db id = .ok (some owner)) (hne : owner ≠ userID) :
    (ListingService.UpdateListing E now race db id userID req).db = db ∧
    (validateUpdateListingRequest E req = none →
      (ListingService.UpdateListing E now race db id userID req).result =
          .error "access denied: you can only edit your own listings" ∧
        (ListingService.UpdateListing E now race db id userID req).queries =
          [.selectOwner id]) ∧
    (∀ e, validateUpdateListingRequest E req = some e →
      (ListingService.UpdateListing E now race db id userID req).result = .error e ∧
        (ListingService.UpdateListing E now race db id userID req).queries = []) := by
  have hid2 : ¬ id ≤ 0 := by omega
  have hrepo : ListingRepository.UpdateListing E now race db id userID req =
      { result := .error "access denied: not owner", db := db, queries := [.selectOwner id] } := by
    unfold ListingRepository.UpdateListing
    rw [hown]
    simp [hne]
  unfold ListingService.UpdateListing
  rw [if_neg hid2]
  cases hv : validateUpdateListingRequest E req with
  | none => simp [hrepo]
  | some e => simp

/-- C1, amended, at a concrete input: user 2 sends a valid new title for
listing 1 of user 1. -/
theorem UpdateListing_not_owner_witness :
    (ListingService.UpdateListing sampleEnv 99 concurrentDelete sampleDB 1 2
        { emptyRequest with Title := some "Mine now" }).db = sampleDB ∧
    (ListingService.UpdateListing sampleEnv 99 concurrentDelete sampleDB 1 2
        { emptyRequest with Title := some "Mine now" }).result =
      .error "access denied: you can only edit your own listings" := by
  have h := UpdateListing_not_owner sampleEnv 99 concurrentDelete sampleDB 1 2 1
    { emptyRequest with Title := some "Mine now" } (by decide) rfl (by decide)
  exact ⟨h.1, (h.2.1 (by decide)).1⟩

theorem buildSet_empty : buildSet emptyRequest = { setParts := [], args := [], argIndex := 1 } :=
  rfl

/-- C2: for the owner and a request without fields the repository reports
"no fields to update", the service wraps that message, so its error is not the
text the handler maps to 400, and the handler answers 500; the database is
unchanged and only the ownership query was sent. -/
theorem UpdateListing_no_fields (E : Env) (now : Nat) (race : DB → DB) (db : DB)
    (id userID : Int) (hid : 0 < id) (hown : queryOwner db id = .ok (some userID)) :
    (ListingRepository.UpdateListing E now race db id userID emptyRequest).result =
      .error "no fields to update" ∧
    (ListingService.UpdateListing E now race db id userID emptyRequest).result =
      .error "failed to update listing: no fields to update" ∧
    (ListingService.UpdateListing E now race db id userID emptyRequest).db = db ∧
    (ListingService.UpdateListing E now race db id userID emptyRequest).queries =
      [.selectOwner id] ∧
    ListingHandler.UpdateListing
        (fun i u r => (ListingService.UpdateListing E now race db i u r).result)
        (some userID) (some id) (.ok emptyRequest) =
      InternalError "Failed to update listing" := by
  have hid2 : ¬ id ≤ 0 := by omega
  have hrepo : ListingRepository.UpdateListing E now race db id userID emptyRequest =
      { result := .error "no fields to update", db := db, queries := [.selectOwner id] } := by
    unfold ListingRepository.UpdateListing
    rw [hown, buildSet_empty]
    simp
  have hval : validateUpdateListingRequest E emptyRequest = none := rfl
  have hsvc : ListingService.UpdateListing E now race db id userID emptyRequest =
      { result := .error "failed to update listing: no fields to update", db := db,
        queries := [.selectOwner id] } := by
    unfold ListingService.UpdateListing
    rw [if_neg hid2, hval, hrepo]
    rfl
  refine ⟨by rw [hrepo], by rw [hsvc], by rw [hsvc], by rw [hsvc], ?_⟩
  unfold ListingHandler.UpdateListing
  simp only [hsvc]
  rfl

/-- C2 at a concrete input: user 1 sends an empty update for the own listing 1. -/
theorem UpdateListing_no_fields_witness :
    (ListingService.UpdateListing sampleEnv 99 id sampleDB 1 1 emptyRequest).result =
      .error "failed to update listing: no fields to update" ∧
    "failed to update listing: no fields to update" ≠ "no fields to update" ∧
    ListingHandler.UpdateListing
        (fun i u r => (ListingService.UpdateListing sampleEnv 99 id sampleDB i u r).result)
        (some 1) (some 1) (.ok emptyRequest) =
      .failure 500 "internal_error" "Failed to update listing" := by
  have h := UpdateListing_no_fields sampleEnv 99 id sampleDB 1 1 (by decide) rfl
  exact ⟨h.2.1, by decide, h.2.2.2.2⟩

/-! ### The column type DECIMAL(10, 2) -/

theorem decimal10_2_ok (q p : ℚ) (h : decimal10_2 q = .ok p) :
    (∃ cents : Int, p = cents / 100 ∧ |cents| < 10000000000) ∧ |p - q| ≤ 1 / 200 := by
  unfold decimal10_2 at h
  simp only [] at h
  split at h
  · simp at h
  · rename_i hlt
    simp only [Except.ok.injEq] at h
    have hd : (0 : ℚ) < q.den := by exact_mod_cast q.den_pos
    have hdn : 0 < 2 * q.den := by have := q.den_pos; omega
    have hq : q = q.num / q.den := (Rat.num_div_den q).symm
    set c : ℕ := (q.num.natAbs * 200 + q.den) / (2 * q.den) with hc
    have h1 : 2 * q.den * c ≤ q.num.natAbs * 200 + q.den := Nat.mul_div_le _ _
    have h2 : q.num.natAbs * 200 + q.den < 2 * q.den * c + 2 * q.den := by
      have := Nat.lt_mul_div_succ (q.num.natAbs * 200 + q.den) hdn
      rw [Nat.mul_succ] at this
      exact this
    have h1q : (2 : ℚ) * q.den * c ≤ (q.num.natAbs : ℚ) * 200 + q.den := by exact_mod_cast h1
    have h2q : (q.num.natAbs : ℚ) * 200 + q.den < 2 * q.den * c + 2 * q.den := by
      exact_mod_cast h2
    have hclt : (c : Int) < 10000000000 := by omega
    have hqn : (q.num : ℚ) = q * q.den := by
      rw [eq_comm, ← eq_div_iff hd.ne']; exact hq
    have hc2 : (q.num.natAbs : ℚ) = |(q.num : ℚ)| := by
      rw [Nat.cast_natAbs, Int.cast_abs]
    by_cases hneg : q.num < 0
    · rw [if_pos hneg] at h
      have hp : p = (-(c : Int) : ℤ) / 100 := by
        rw [← h, Rat.mkRat_eq_div]; push_cast; ring
      refine ⟨⟨-(c : Int), hp, by rw [abs_neg, abs_of_nonneg (by positivity)]; exact hclt⟩, ?_⟩
      rw [hp, abs_le]
      rw [hc2, abs_of_neg (by exact_mod_cast hneg), hqn] at h1q h2q
      push_cast
      constructor
      · by_contra hcon
        push_neg at hcon
        have := mul_lt_mul_of_pos_right hcon (by positivity : (0 : ℚ) < 200 * q.den)
        nlinarith
      · by_contra hcon
        push_neg at hcon
        have := mul_lt_mul_of_pos_right hcon (by positivity : (0 : ℚ) < 200 * q.den)
        nlinarith
    · rw [if_neg hneg] at h
      have hp : p = ((c : Int) : ℤ) / 100 := by
        rw [← h, Rat.mkRat_eq_div]; push_cast; ring
      refine ⟨⟨(c : Int), hp, by rw [abs_of_nonneg (by positivity)]; exact hclt⟩, ?_⟩
      rw [hp, abs_le]
      rw [hc2, abs_of_nonneg (by exact_mod_cast (not_lt.1 hneg)), hqn] at h1q h2q
      push_cast
      constructor
      · by_contra hcon
        push_neg at hcon
        have := mul_lt_mul_of_pos_right hcon (by positivity : (0 : ℚ) < 200 * q.den)
        nlinarith
      · by_contra hcon
        push_neg at hcon
        have := mul_lt_mul_of_pos_right hcon (by positivity : (0 : ℚ) < 200 * q.den)
        nlinarith

theorem decimal10_2_exact (q p : ℚ) (cents : Int) (hq : q = cents / 100)
    (h : decimal10_2 q = .ok p) : p = q := by
  obtain ⟨⟨c, hc, _⟩, habs⟩ := decimal10_2_ok q p h
  rw [hc, hq, abs_le] at habs
  have h1 : ((c : ℚ) - cents) * 2 ≤ 1 := by linarith [habs.2]
  have h2 : (-1 : ℚ) ≤ ((c : ℚ) - cents) * 2 := by linarith [habs.1]
  have h3 : (c - cents) * 2 ≤ 1 := by exact_mod_cast h1
  have h4 : -1 ≤ (c - cents) * 2 := by exact_mod_cast h2
  have : c = cents := by omega
  rw [hc, hq, this]

theorem applySet_buildSet (E : Env) (req : UpdateListingRequest) (now : Nat) (id : Int)
    (r : ListingRow) :
    applySet E ((buildSet req).args ++ [Arg.time now] ++ [Arg.int id])
      ((buildSet req).setParts ++ [⟨Column.updated_at, (buildSet req).argIndex⟩]) r =
      (storedRequest req).map (fun s => applyRequest s (E.pgTimestamp now) r) := by
  obtain ⟨t, d, u, p⟩ := req
  cases p with
  | none => cases t <;> cases d <;> cases u <;> rfl
  | some q =>
    cases hq : decimal10_2 q <;> cases t <;> cases d <;> cases u <;>
      simp [storedRequest, buildSet, addField, applySet, placeholder, assign, hq, Except.map,
        applyRequest]

theorem placeholder_buildSet (req : UpdateListingRequest) (now : Nat) (id : Int) :
    placeholder ((buildSet req).args ++ [Arg.time now] ++ [Arg.int id])
      ((buildSet req).argIndex + 1) = some (Arg.int id) := by
  obtain ⟨t, d, u, p⟩ := req
  cases t <;> cases d <;> cases u <;> cases p <;> rfl

theorem updateRows_eq_map (E : Env) (args : List Arg) (setParts : List SetPart) (id : Int)
    (f : ListingRow → ListingRow) (hf : ∀ r, applySet E args setParts r = .ok (f r))
    (rows : List ListingRow) :
    updateRows E args setParts id rows =
      .ok (rows.map (fun r => if r.id = id then f r else r)) := by
  induction rows with
  | nil => rfl
  | cons r rs ih =>
    simp only [updateRows, ih, hf, List.map_cons]
    by_cases h : r.id = id <;> simp [h]

theorem updateRows_error (E : Env) (args : List Arg) (setParts : List SetPart) (id : Int)
    (e : String) (hf : ∀ r, applySet E args setParts r = .error e) (rows : List ListingRow) :
    updateRows E args setParts id rows =
      if rows.any (fun r => r.id == id) then .error e else .ok rows := by
  induction rows with
  | nil => rfl
  | cons r rs ih =>
    simp only [updateRows, ih, hf, List.any_cons]
    by_cases h : r.id = id <;> by_cases h2 : rs.any (fun r => r.id == id) = true <;>
      simp [h, h2]

theorem find?_map_update (f : ListingRow → ListingRow) (hf : ∀ r, (f r).id = r.id) (id : Int)
    (rows : List ListingRow) :
    (rows.map (fun r => if r.id = id then f r else r)).find? (fun r => r.id == id) =
      (rows.find? (fun r => r.id == id)).map f := by
  induction rows with
  | nil => rfl
  | cons r rs ih =>
    by_cases h : r.id = id
    · simp [List.find?_cons, h, hf]
    · simp [List.find?_cons, h, ih]

theorem execUpdate_buildSet (E : Env) (req : UpdateListingRequest) (now : Nat) (id : Int)
    (rows : List ListingRow) :
    execUpdate E rows ((buildSet req).setParts ++ [⟨Column.updated_at, (buildSet req).argIndex⟩])
        ((buildSet req).argIndex + 1) ((buildSet req).args ++ [Arg.time now] ++ [Arg.int id]) =
      match storedRequest req with
      | .ok s =>
        .ok (rows.map (fun r => if r.id = id then applyRequest s (E.pgTimestamp now) r else r),
          (rows.find? (fun r => r.id == id)).map (applyRequest s (E.pgTimestamp now)))
      | .error e => if rows.any (fun r => r.id == id) then .error e else .ok (rows, none) := by
  unfold execUpdate
  rw [placeholder_buildSet]
  simp only []
  cases hs : storedRequest req with
  | ok s =>
    rw [updateRows_eq_map E _ _ id (applyRequest s (E.pgTimestamp now))
      (fun r => by rw [applySet_buildSet, hs]; rfl)]
    simp only []
    rw [find?_map_update (applyRequest s (E.pgTimestamp now)) (fun _ => rfl)]
  | error e =>
    rw [updateRows_error E _ _ id e (fun r => by rw [applySet_buildSet, hs]; rfl)]
    by_cases h : rows.any (fun r => r.id == id) = true
    · simp [h]
    · have hnone : rows.find? (fun r => r.id == id) = none := by
        rw [List.find?_eq_none]
        intro r hr hrid
        exact h (List.any_eq_true.2 ⟨r, hr, hrid⟩)
      simp [h, hnone]

theorem repo_UpdateListing_ok (E : Env) (now : Nat) (race : DB → DB) (db : DB)
    (id userID : Int) (req : UpdateListingRequest) (listing : Listing)
    (h : (ListingRepository.UpdateListing E now race db id userID req).result = .ok listing) :
    queryOwner db id = .ok (some userID) ∧
    ∃ s old, storedRequest req = .ok s ∧
      (race db).listings.find? (fun r => r.id == id) = some old ∧
      listing = { scanListing (applyRequest s (E.pgTimestamp now) old) with IsOwner := true } ∧
      (ListingRepository.UpdateListing E now race db id userID req).db =
        { race db with
          listings := (race db).listings.map
            (fun r => if r.id = id then applyRequest s (E.pgTimestamp now) r else r) } := by
  unfold ListingRepository.UpdateListing at h ⊢
  cases hq : queryOwner db id with
  | error e => rw [hq] at h; simp at h
  | ok found =>
    cases found with
    | none => rw [hq] at h; simp at h
    | some owner =>
      rw [hq] at h
      simp only []
      simp only [] at h
      by_cases ho : owner = userID
      · subst ho
        simp only [ne_eq, not_true_eq_false, if_false] at h ⊢
        by_cases hl : (buildSet req).setParts.length = 0
        · rw [if_pos hl] at h; simp at h
        · rw [if_neg hl] at h ⊢
          rw [execUpdate_buildSet] at h ⊢
          cases hs : storedRequest req with
          | error e =>
            rw [hs] at h
            simp only [] at h
            by_cases hany : (race db).listings.any (fun r => r.id == id) = true
            · rw [if_pos hany] at h
              simp at h
            · rw [if_neg hany] at h
              simp at h
          | ok s =>
            rw [hs] at h
            simp only [] at h ⊢
            cases hf : (race db).listings.find? (fun r => r.id == id) with
            | none => simp [hf] at h
            | some old =>
              simp only [hf, Option.map_some', Except.ok.injEq] at h ⊢
              exact ⟨trivial, s, old, rfl, rfl, h.symm, rfl⟩
      · simp [ho] at h

theorem service_UpdateListing_ok (E : Env) (now : Nat) (race : DB → DB) (db : DB)
    (id userID : Int) (req : UpdateListingRequest) (listing : Listing)
    (h : (ListingService.UpdateListing E now race db id userID req).result = .ok listing) :
    (ListingRepository.UpdateListing E now race db id userID req).result = .ok listing ∧
    (ListingService.UpdateListing E now race db id userID req).db =
      (ListingRepository.UpdateListing E now race db id userID req).db := by
  unfold ListingService.UpdateListing at h ⊢
  by_cases hid : id ≤ 0
  · simp [hid] at h
  · rw [if_neg hid] at h ⊢
    cases hv : validateUpdateListingRequest E req with
    | some e => rw [hv] at h; simp at h
    | none =>
      rw [hv] at h
      simp only [] at h ⊢
      cases hr : (ListingRepository.UpdateListing E now race db id userID req).result with
      | error e =>
        rw [hr] at h
        simp only [] at h
        split at h <;> try split at h
        all_goals simp at h
      | ok l =>
        rw [hr] at h
        simp only [Except.ok.injEq] at h
        subst h
        exact ⟨rfl, rfl⟩

theorem storedRequest_ok (req s : UpdateListingRequest) (h : storedRequest req = .ok s) :
    s.Title = req.Title ∧ s.Description = req.Description ∧ s.ImageURL = req.ImageURL ∧
    (req.Price = none → s.Price = none) ∧
    (∀ p, req.Price = some p → ∃ stored, decimal10_2 p = .ok stored ∧ s.Price = some stored) := by
  unfold storedRequest at h
  cases hp : req.Price with
  | none =>
    rw [hp] at h
    simp only [Except.ok.injEq] at h
    subst h
    simp [hp]
  | some p =>
    rw [hp] at h
    simp only [] at h
    cases hd : decimal10_2 p with
    | error e => rw [hd] at h; simp at h
    | ok stored =>
      rw [hd] at h
      simp only [Except.ok.injEq] at h
      subst h
      simp [hd]

/-- C4 as stated fails: user 1 sets the price of the own listing 1 to 19.999 at
the clock reading 1700000000123456789 (nanoseconds); the request passes
validation and the update succeeds, but the listing holds the price 20, which
is what the column DECIMAL(10, 2) keeps, not the supplied value, and updated_at
holds the reading in whole microseconds, not the time of the call. -/
theorem UpdateListing_rounds_price :
    validateUpdateListingRequest sampleEnv thirdDecimalRequest = none ∧
    thirdDecimalRequest.Price = some (mkRat 19999 1000) ∧
    (ListingService.UpdateListing sampleEnv 1700000000123456789 id sampleDB 1 1
        thirdDecimalRequest).result =
      .ok { ID := 1, Title := "iPhone 15 Pro", Description := "New", ImageURL := none,
            Price := 20, UserID := 1, UserLogin := "", IsOwner := true, CreatedAt := 10,
            UpdatedAt := 1700000000123457000 } ∧
    (20 : ℚ) ≠ mkRat 19999 1000 ∧ (1700000000123457000 : Nat) ≠ 1700000000123456789 := by
  refine ⟨rfl, rfl, rfl, by decide, by decide⟩

/-- C4, amended: when UpdateListing succeeds, the caller owned the listing at
the ownership check; the returned listing and the stored row come from the row
old that the UPDATE found: a present title, description or image_url holds the
supplied value; a present price holds the supplied value as the column
DECIMAL(10, 2) keeps it, a whole number of cents at most half a cent away, so a
price with at most two decimals holds the supplied value; an absent field holds
the value of old; id, user_id and created_at are those of old; updated_at is
the current time as the TIMESTAMP column keeps it; is_owner is true; every
other row of the table is unchanged. -/
theorem UpdateListing_success (E : Env) (now : Nat) (race : DB → DB) (db : DB)
    (id userID : Int) (req : UpdateListingRequest) (listing : Listing)
    (h : (ListingService.UpdateListing E now race db id userID req).result = .ok listing) :
    queryOwner db id = .ok (some userID) ∧
    ∃ old, (race db).listings.find? (fun r => r.id == id) = some old ∧
      (∀ t, req.Title = some t → listing.Title = t) ∧
      (req.Title = none → listing.Title = old.title) ∧
      (∀ d, req.Description = some d → listing.Description = d) ∧
      (req.Description = none → listing.Description = old.description) ∧
      (∀ u, req.ImageURL = some u → listing.ImageURL = some u) ∧
      (req.ImageURL = none → listing.ImageURL = old.image_url) ∧
      (∀ p, req.Price = some p →
        decimal10_2 p = .ok listing.Price ∧ (∃ cents : Int, listing.Price = cents / 100) ∧
          |listing.Price - p| ≤ 1 / 200 ∧ (∀ cents : Int, p = cents / 100 → listing.Price = p)) ∧
      (req.Price = none → listing.Price = old.price) ∧
      listing.ID = id ∧ old.id = id ∧ listing.UserID = old.user_id ∧
      listing.CreatedAt = old.created_at ∧
      listing.UpdatedAt = E.pgTimestamp now ∧ listing.IsOwner = true ∧
      (race db = db → listing.UserID = userID) ∧
      (∃ s, storedRequest req = .ok s ∧
        (ListingService.UpdateListing E now race db id userID req).db.listings =
          (race db).listings.map
            (fun r => if r.id = id then applyRequest s (E.pgTimestamp now) r else r) ∧
        (ListingService.UpdateListing E now race db id userID req).db.listings.find?
          (fun r => r.id == id) = some (applyRequest s (E.pgTimestamp now) old)) ∧
      (ListingService.UpdateListing E now race db id userID req).db.users = (race db).users := by
  obtain ⟨hrepo, hdb⟩ := service_UpdateListing_ok E now race db id userID req listing h
  obtain ⟨hown, s, old, hs, hold, hl, hdb2⟩ :=
    repo_UpdateListing_ok E now race db id userID req listing hrepo
  obtain ⟨hst, hsd, hsu, hsn, hsp⟩ := storedRequest_ok req s hs
  have hoid : old.id = id := by simpa using List.find?_some hold
  refine ⟨hown, old, hold, ?_⟩
  rw [hdb, hdb2, hl]
  refine ⟨?_, ?_, ?_, ?_, ?_, ?_, ?_, ?_, hoid, hoid, rfl, rfl, rfl, rfl, ?_, ⟨s, hs, rfl, ?_⟩,
    rfl⟩
  · intro t ht; simp [scanListing, applyRequest, hst, ht]
  · intro ht; simp [scanListing, applyRequest, hst, ht]
  · intro d hd; simp [scanListing, applyRequest, hsd, hd]
  · intro hd; simp [scanListing, applyRequest, hsd, hd]
  · intro u hu; simp [scanListing, applyRequest, hsu, hu]
  · intro hu; simp [scanListing, applyRequest, hsu, hu]
  · intro q hq
    obtain ⟨stored, hdec, hsq⟩ := hsp q hq
    have hprice : ({ scanListing (applyRequest s (E.pgTimestamp now) old) with
        IsOwner := true } : Listing).Price = stored := by
      simp [scanListing, applyRequest, hsq]
    rw [hprice]
    obtain ⟨⟨cents, hc, _⟩, habs⟩ := decimal10_2_ok q stored hdec
    exact ⟨hdec, ⟨cents, hc⟩, habs, fun c hqc => decimal10_2_exact q stored c hqc hdec⟩
  · intro hq; simp [scanListing, applyRequest, hsn hq]
  · intro hrace
    rw [hrace] at hold
    unfold queryOwner at hown
    split at hown
    · rw [hold] at hown
      simpa [scanListing, applyRequest] using hown
    · simp at hown
  · simp only []
    rw [find?_map_update (applyRequest s (E.pgTimestamp now)) (fun _ => rfl), hold]
    rfl

/-- C4, amended, at a concrete input: user 1 changes the title and the price of
listing 1 at the clock reading 99000; description, image, id, owner and
creation time stay, and the price, which has no decimals, is the supplied one. -/
theorem UpdateListing_success_witness :
    (ListingService.UpdateListing sampleEnv 99000 id sampleDB 1 1
        { emptyRequest with Title := some "iPhone 15 Pro Updated", Price := some 130000 }).result =
      .ok { ID := 1, Title := "iPhone 15 Pro Updated", Description := "New", ImageURL := none,
            Price := 130000, UserID := 1, UserLogin := "", IsOwner := true, CreatedAt := 10,
            UpdatedAt := 99000 } ∧
    (ListingService.UpdateListing sampleEnv 99000 id sampleDB 1 1
        { emptyRequest with Title := some "iPhone 15 Pro Updated",
                            Price := some 130000 }).db.listings =
      [{ sampleRow with title := "iPhone 15 Pro Updated", price := 130000, updated_at := 99000 },
        otherRow] := by
  have hres : (ListingService.UpdateListing sampleEnv 99000 id sampleDB 1 1
        { emptyRequest with Title := some "iPhone 15 Pro Updated", Price := some 130000 }).result =
      .ok { ID := 1, Title := "iPhone 15 Pro Updated", Description := "New", ImageURL := none,
            Price := 130000, UserID := 1, UserLogin := "", IsOwner := true, CreatedAt := 10,
            UpdatedAt := 99000 } := by
    rfl
  obtain ⟨_, old, _, hrest⟩ := UpdateListing_success sampleEnv 99000 id sampleDB 1 1
    { emptyRequest with Title := some "iPhone 15 Pro Updated", Price := some 130000 } _ hres
  obtain ⟨s, hs, hlist, _⟩ := hrest.2.2.2.2.2.2.2.2.2.2.2.2.2.2.2.1
  have hs2 : (Except.ok s : Except String UpdateListingRequest) =
      .ok ⟨some "iPhone 15 Pro Updated", none, none, some 130000⟩ := hs.symm.trans rfl
  injection hs2 with hs3
  refine ⟨hres, ?_⟩
  rw [hlist, hs3]
  rfl

/-! ### Deleting a listing -/

/-- C3: for the id 2147483648, which the path of a request can carry and no
row of listings can have (the column id is SERIAL), DeleteListing does not
answer not found: the ownership query fails on the value, the repository and
the service wrap the error of the driver, nothing is changed, and the handler
answers 500 where a missing listing gets 404. -/
theorem DeleteListing_out_of_range_id (race : DB → DB) (db : DB) (userID : Int) :
    (0 : Int) < 2147483648 ∧
    (∀ r ∈ sampleDB.listings, r.id ≠ 2147483648) ∧
    (ListingService.DeleteListing race db 2147483648 userID).result =
      .error ("failed to delete listing: failed to check listing ownership: " ++
        "pq: value \"2147483648\" is out of range for type integer") ∧
    (ListingService.DeleteListing race db 2147483648 userID).result ≠
      .error "listing not found" ∧
    (ListingService.DeleteListing race db 2147483648 userID).db = db ∧
    (ListingService.DeleteListing race db 2147483648 userID).queries =
      [.selectOwner 2147483648] ∧
    ListingHandler.DeleteListing
        (fun i u => (ListingService.DeleteListing race db i u).result) (some userID)
        (some 2147483648) =
      .failure 500 "internal_error" "Failed to delete listing" ∧
    ListingHandler.DeleteListing
        (fun i u => (ListingService.DeleteListing race db i u).result) (some userID)
        (some 2147483648) ≠
      .failure 404 "not_found" "Listing not found" := by
  have hres : ListingService.DeleteListing race db 2147483648 userID =
      { result := .error ("failed to delete listing: failed to check listing ownership: " ++
          "pq: value \"2147483648\" is out of range for type integer"),
        db := db, queries := [.selectOwner 2147483648] } := rfl
  have hh : ListingHandler.DeleteListing
        (fun i u => (ListingService.DeleteListing race db i u).result) (some userID)
        (some 2147483648) =
      .failure 500 "internal_error" "Failed to delete listing" := by
    unfold ListingHandler.DeleteListing
    simp only [hres]
    rfl
  refine ⟨by decide, by decide, by rw [hres], ?_, by rw [hres], by rw [hres], hh, ?_⟩
  · rw [hres]
    simp only [ne_eq, Except.error.injEq]
    decide
  · rw [hh]
    simp

/-- DeleteListing for the ids the column can hold: an id <= 0 gets the
invalid-id error without a statement; a missing row within int4 gets not found;
a row of another owner gets access denied, the database unchanged; for the
owner the DELETE runs on the database as it is then, removes the rows with that
id and keeps every other row, and gives not found exactly when it affected no
row. -/
theorem DeleteListing_in_range (race : DB → DB) (db : DB) (id userID : Int) :
    (id ≤ 0 →
      (ListingService.DeleteListing race db id userID).result = .error "invalid listing ID" ∧
      (ListingService.DeleteListing race db id userID).db = db ∧
      (ListingService.DeleteListing race db id userID).queries = []) ∧
    (0 < id → id ≤ 2147483647 → (∀ r ∈ db.listings, r.id ≠ id) →
      (ListingService.DeleteListing race db id userID).result = .error "listing not found" ∧
      (ListingService.DeleteListing race db id userID).db = db) ∧
    (0 < id → ∀ owner, queryOwner db id = .ok (some owner) → owner ≠ userID →
      (ListingService.DeleteListing race db id userID).result =
        .error "access denied: you can only delete your own listings" ∧
      (ListingService.DeleteListing race db id userID).db = db ∧
      (ListingService.DeleteListing race db id userID).queries = [.selectOwner id]) ∧
    (0 < id → queryOwner db id = .ok (some userID) →
      (ListingService.DeleteListing race db id userID).db.listings =
        (race db).listings.filter (fun r => r.id != id) ∧
      (ListingService.DeleteListing race db id userID).db.users = (race db).users ∧
      (∀ r, r ∈ (ListingService.DeleteListing race db id userID).db.listings ↔
        (r ∈ (race db).listings ∧ r.id ≠ id)) ∧
      ((race db).listings.countP (fun r => r.id == id) = 0 →
        (ListingService.DeleteListing race db id userID).result = .error "listing not found") ∧
      ((race db).listings.countP (fun r => r.id == id) ≠ 0 →
        (ListingService.DeleteListing race db id userID).result = .ok ()) ∧
      (race db = db →
        (ListingService.DeleteListing race db id userID).result = .ok ())) := by
  refine ⟨?_, ?_, ?_, ?_⟩
  · intro hid
    simp [ListingService.DeleteListing, hid]
  · intro hid hmax hrows
    have hid2 : ¬ id ≤ 0 := by omega
    have hown : queryOwner db id = .ok none := by
      unfold queryOwner inInt4
      rw [List.find?_eq_none.2 (fun r hr => by simpa using hrows r hr)]
      have h1 : (-2147483648 : Int) ≤ id := by omega
      simp [h1, hmax]
    simp [ListingService.DeleteListing, ListingRepository.DeleteListing, hid2, hown]
  · intro hid owner hown hne
    have hid2 : ¬ id ≤ 0 := by omega
    simp [ListingService.DeleteListing, ListingRepository.DeleteListing, hid2, hown, hne]
  · intro hid hown
    have hid2 : ¬ id ≤ 0 := by omega
    have hfound : db.listings.countP (fun r => r.id == id) ≠ 0 := by
      intro h0
      rw [List.countP_eq_zero] at h0
      unfold queryOwner at hown
      split at hown
      · cases hf : db.listings.find? (fun r => r.id == id) with
        | none => rw [hf] at hown; simp at hown
        | some r =>
          have hp : (r.id == id) = true := by simpa using List.find?_some hf
          exact h0 r (List.mem_of_find?_eq_some hf) hp
      · simp at hown
    by_cases hc : (race db).listings.countP (fun r => r.id == id) = 0
    · have hres : ListingService.DeleteListing race db id userID =
          { result := .error "listing not found",
            db := { race db with listings := (race db).listings.filter (fun r => r.id != id) },
            queries := [.selectOwner id, .deleteListing id] } := by
        simp [ListingService.DeleteListing, ListingRepository.DeleteListing, hid2, hown,
          execDelete, hc]
      rw [hres]
      refine ⟨rfl, rfl, ?_, fun _ => rfl, fun h => absurd hc h, ?_⟩
      · intro r
        simp [List.mem_filter]
      · intro hrace
        rw [hrace] at hc
        exact absurd hc hfound
    · have hres : ListingService.DeleteListing race db id userID =
          { result := .ok (),
            db := { race db with listings := (race db).listings.filter (fun r => r.id != id) },
            queries := [.selectOwner id, .deleteListing id] } := by
        simp [ListingService.DeleteListing, ListingRepository.DeleteListing, hid2, hown,
          execDelete, hc]
      rw [hres]
      refine ⟨rfl, rfl, ?_, fun h => absurd h hc, fun _ => rfl, fun _ => rfl⟩
      intro r
      simp [List.mem_filter]

/-- DeleteListing at concrete inputs: an id of zero; a missing row; the call of
a user who is not the owner; the call of the owner; and the call of the owner
while a concurrent request deletes the row after the ownership check. -/
theorem DeleteListing_in_range_examples :
    (ListingService.DeleteListing id sampleDB 0 1).result = .error "invalid listing ID" ∧
    (ListingService.DeleteListing id sampleDB 7 1).result = .error "listing not found" ∧
    (ListingService.DeleteListing id sampleDB 1 2).result =
      .error "access denied: you can only delete your own listings" ∧
    (ListingService.DeleteListing id sampleDB 1 1).result = .ok () ∧
    (ListingService.DeleteListing id sampleDB 1 1).db.listings = [otherRow] ∧
    (ListingService.DeleteListing concurrentDelete sampleDB 1 1).result =
      .error "listing not found" := by
  have h0 := (DeleteListing_in_range id sampleDB 0 1).1 (by decide)
  have h7 := (DeleteListing_in_range id sampleDB 7 1).2.1 (by decide) (by decide) (by decide)
  have h2 := (DeleteListing_in_range id sampleDB 1 2).2.2.1 (by decide) 1 rfl (by decide)
  have h1 := (DeleteListing_in_range id sampleDB 1 1).2.2.2 (by decide) rfl
  have hr := (DeleteListing_in_range concurrentDelete sampleDB 1 1).2.2.2 (by decide) rfl
  exact ⟨h0.1, h7.1, h2.1, h1.2.2.2.2.2 rfl, by rw [h1.1]; decide, hr.2.2.2.1 (by decide)⟩

/-! ### Registration and login -/

/-- C8: Register checks the login first and the password second, before any
statement: an invalid login gives the invalid-login error whatever the
password, a valid login with a weak password gives the weak-password error, and
in both cases no statement is sent and the database is unchanged. -/
theorem Register_validation_first (E : Env) (jwtSecret : String) (now : Nat) (race : DB → DB)
    (db : DB) (req : RegisterRequest) :
    (ValidateLogin req.Login = false →
      (AuthService.Register E jwtSecret now race db req).result =
          .error "invalid login format" ∧
        (AuthService.Register E jwtSecret now race db req).queries = [] ∧
        (AuthService.Register E jwtSecret now race db req).db = db) ∧
    (ValidateLogin req.Login = true → ValidatePassword E req.Password = false →
      (AuthService.Register E jwtSecret now race db req).result =
          .error "password must be at least 6 characters long and contain letters and digits" ∧
        (AuthService.Register E jwtSecret now race db req).queries = [] ∧
        (AuthService.Register E jwtSecret now race db req).db = db) := by
  constructor
  · intro hl
    simp [AuthService.Register, hl]
  · intro hl hp
    simp [AuthService.Register, hl, hp]

/-- C8 at concrete inputs: a login with a forbidden character and a strong
password; a valid login and a password without a digit. -/
theorem Register_validation_first_witness :
    (AuthService.Register sampleEnv "secret" 99 id sampleDB
        { Login := "bad!name", Password := "password123" }).result =
      .error "invalid login format" ∧
    (AuthService.Register sampleEnv "secret" 99 id sampleDB
        { Login := "artificial00", Password := "abcdef" }).result =
      .error "password must be at least 6 characters long and contain letters and digits" ∧
    (AuthService.Register sampleEnv "secret" 99 id sampleDB
        { Login := "artificial00", Password := "abcdef" }).queries = [] := by
  have h1 := (Register_validation_first sampleEnv "secret" 99 id sampleDB
    { Login := "bad!name", Password := "password123" }).1 (by decide)
  have h2 := (Register_validation_first sampleEnv "secret" 99 id sampleDB
    { Login := "artificial00", Password := "abcdef" }).2 (by decide) (by decide)
  exact ⟨h1.1, h2.1, h2.2.1⟩

theorem any_login_iff (users : List User) (login : String) :
    users.any (fun u => u.Login == login) = true ↔ ∃ u ∈ users, u.Login = login := by
  simp [List.any_eq_true]

theorem Register_existing (E : Env) (jwtSecret : String) (now : Nat) (race : DB → DB)
    (db : DB) (req : RegisterRequest) (hl : ValidateLogin req.Login = true)
    (hp : ValidatePassword E req.Password = true)
    (hex : db.users.any (fun u => u.Login == req.Login) = true) :
    AuthService.Register E jwtSecret now race db req =
      { result := .error "user already exists", db := db,
        queries := [.userExists req.Login] } := by
  simp [AuthService.Register, hl, hp, UserRepository.UserExists, hex]

theorem Register_ok (E : Env) (jwtSecret : String) (now : Nat) (race : DB → DB)
    (db : DB) (req : RegisterRequest) (resp : AuthResponse)
    (h : (AuthService.Register E jwtSecret now race db req).result = .ok resp) :
    (race db).users.any (fun u => u.Login == req.Login) = false ∧
    resp.User.Login = req.Login ∧
    (AuthService.Register E jwtSecret now race db req).db.users =
      (race db).users ++ [resp.User] := by
  unfold AuthService.Register at h ⊢
  by_cases hl : ValidateLogin req.Login = true
  · by_cases hp : ValidatePassword E req.Password = true
    · by_cases hex : db.users.any (fun u => u.Login == req.Login) = true
      · simp [hl, hp, UserRepository.UserExists, hex] at h
      · cases hg : E.bcryptGenerate req.Password with
        | error e => simp [hl, hp, UserRepository.UserExists, hex, hg] at h
        | ok passwordHash =>
          by_cases hrace : (race db).users.any (fun u => u.Login == req.Login) = true
          · simp [hl, hp, UserRepository.UserExists, hex, hg, UserRepository.CreateUser,
              hrace] at h
          · cases ht : E.GenerateToken ((race db).users_id_seq + 1) req.Login jwtSecret with
            | error e =>
              simp [hl, hp, UserRepository.UserExists, hex, hg, UserRepository.CreateUser,
                hrace, ht] at h
            | ok token =>
              simp only [hl, hp, UserRepository.UserExists, hex, hg, UserRepository.CreateUser,
                hrace, ht, Bool.not_true, Bool.false_eq_true, if_false, Except.ok.injEq] at h ⊢
              subst h
              exact ⟨by simp [hrace], rfl, rfl⟩
    · simp [hl, hp] at h
  · simp [hl] at h

theorem countP_login_zero (users : List User) (login : String)
    (h : users.any (fun u => u.Login == login) = false) :
    users.countP (fun u => u.Login == login) = 0 := by
  rw [List.countP_eq_zero]
  intro u hu hlogin
  have : users.any (fun u => u.Login == login) = true := List.any_eq_true.2 ⟨u, hu, hlogin⟩
  rw [h] at this
  exact absurd this (by simp)

/-- C9: for a well-formed login and password, Register on a login that is
already in the table users returns "user already exists", sends only the
existence query and leaves the database unchanged; and after a successful
Register the table holds exactly one account with that login, on which every
further Register with a well-formed password fails with "user already exists"
and changes nothing. -/
theorem Register_duplicate (E : Env) (jwtSecret : String) (now : Nat) (race : DB → DB) (db : DB)
    (req : RegisterRequest) (hl : ValidateLogin req.Login = true)
    (hp : ValidatePassword E req.Password = true) :
    ((∃ u ∈ db.users, u.Login = req.Login) →
      (AuthService.Register E jwtSecret now race db req).result = .error "user already exists" ∧
      (AuthService.Register E jwtSecret now race db req).db = db ∧
      (AuthService.Register E jwtSecret now race db req).queries = [.userExists req.Login]) ∧
    (∀ resp, (AuthService.Register E jwtSecret now race db req).result = .ok resp →
      resp.User.Login = req.Login ∧
      resp.User ∈ (AuthService.Register E jwtSecret now race db req).db.users ∧
      (AuthService.Register E jwtSecret now race db req).db.users.countP
        (fun u => u.Login == req.Login) = 1 ∧
      ∀ (E2 : Env) (secret2 : String) (now2 : Nat) (race2 : DB → DB) (password2 : String),
        ValidatePassword E2 password2 = true →
        (AuthService.Register E2 secret2 now2 race2
            (AuthService.Register E jwtSecret now race db req).db
            { Login := req.Login, Password := password2 }).result =
          .error "user already exists" ∧
        (AuthService.Register E2 secret2 now2 race2
            (AuthService.Register E jwtSecret now race db req).db
            { Login := req.Login, Password := password2 }).db =
          (AuthService.Register E jwtSecret now race db req).db) := by
  constructor
  · intro hex
    rw [Register_existing E jwtSecret now race db req hl hp ((any_login_iff _ _).2 hex)]
    exact ⟨rfl, rfl, rfl⟩
  · intro resp hok
    obtain ⟨hfree, hlogin, husers⟩ := Register_ok E jwtSecret now race db req resp hok
    have hmem : resp.User ∈ (AuthService.Register E jwtSecret now race db req).db.users := by
      rw [husers]
      simp
    refine ⟨hlogin, hmem, ?_, ?_⟩
    · rw [husers, List.countP_append, countP_login_zero _ _ hfree]
      simp [List.countP_cons, hlogin]
    · intro E2 secret2 now2 race2 password2 hp2
      have hex : (AuthService.Register E jwtSecret now race db req).db.users.any
          (fun u => u.Login == req.Login) = true :=
        (any_login_iff _ _).2 ⟨resp.User, hmem, hlogin⟩
      rw [Register_existing E2 secret2 now2 race2 _ { Login := req.Login, Password := password2 }
        hl hp2 hex]
      exact ⟨rfl, rfl⟩

/-- C9 at concrete inputs: artificial00 is registered already, so a second
registration of that login is refused and the database stays as it is; new_user
is registered once, and the attempt to register new_user again is refused. -/
theorem Register_duplicate_witness :
    (AuthService.Register sampleEnv "secret" 99 id sampleDB
        { Login := "artificial00", Password := "newpass1" }).result =
      .error "user already exists" ∧
    (AuthService.Register sampleEnv "secret" 99 id sampleDB
        { Login := "artificial00", Password := "newpass1" }).db = sampleDB ∧
    (AuthService.Register sampleEnv "secret" 99 id sampleDB
        { Login := "new_user", Password := "password123" }).result =
      .ok { User := { ID := 3, Login := "new_user", PasswordHash := "$2a$10$password123",
                      CreatedAt := 99, UpdatedAt := 99 },
            Token := "token-of-new_user" } ∧
    (AuthService.Register sampleEnv "secret" 99 id sampleDB
        { Login := "new_user", Password := "password123" }).db.users.countP
      (fun u => u.Login == "new_user") = 1 ∧
    (AuthService.Register sampleEnv "secret" 100 id
        (AuthService.Register sampleEnv "secret" 99 id sampleDB
          { Login := "new_user", Password := "password123" }).db
        { Login := "new_user", Password := "other456" }).result =
      .error "user already exists" := by
  have h := (Register_duplicate sampleEnv "secret" 99 id sampleDB
    { Login := "artificial00", Password := "newpass1" } (by decide) (by decide)).1
    ⟨_, List.mem_cons_self _ _, rfl⟩
  have hok : (AuthService.Register sampleEnv "secret" 99 id sampleDB
        { Login := "new_user", Password := "password123" }).result =
      .ok { User := { ID := 3, Login := "new_user", PasswordHash := "$2a$10$password123",
                      CreatedAt := 99, UpdatedAt := 99 },
            Token := "token-of-new_user" } := by rfl
  have h2 := (Register_duplicate sampleEnv "secret" 99 id sampleDB
    { Login := "new_user", Password := "password123" } (by decide) (by decide)).2 _ hok
  exact ⟨h.1, h.2.1, hok, h2.2.2.1,
    (h2.2.2.2 sampleEnv "secret" 100 id "other456" (by decide)).1⟩

/-- C10: Login returns the one error "invalid credentials" both when no
account has the login and when the account exists and the password does not
match its hash, and the Login handler answers every error of the service with
the same response: 401, error unauthorized, message "Invalid login or
password". -/
theorem Login_does_not_reveal (E : Env) (jwtSecret : String) (db : DB) (req : LoginRequest) :
    ((∀ u ∈ db.users, u.Login ≠ req.Login) →
      (AuthService.Login E jwtSecret db req).result = .error "invalid credentials") ∧
    (∀ user, db.users.find? (fun u => u.Login == req.Login) = some user →
      E.bcryptCompare user.PasswordHash req.Password = false →
      (AuthService.Login E jwtSecret db req).result = .error "invalid credentials") ∧
    (∀ (authService : LoginRequest → Except String AuthResponse) (e : String),
      authService req = .error e →
      AuthHandler.Login authService (some req) =
        .failure 401 "unauthorized" "Invalid login or password") ∧
    (∀ e, (AuthService.Login E jwtSecret db req).result = .error e →
      AuthHandler.Login (fun r => (AuthService.Login E jwtSecret db r).result) (some req) =
        .failure 401 "unauthorized" "Invalid login or password") := by
  have hhandler : ∀ (authService : LoginRequest → Except String AuthResponse) (e : String),
      authService req = .error e →
      AuthHandler.Login authService (some req) =
        .failure 401 "unauthorized" "Invalid login or password" := by
    intro authService e he
    simp [AuthHandler.Login, he, Unauthorized, SendError]
  refine ⟨?_, ?_, hhandler, ?_⟩
  · intro hnone
    have hfind : db.users.find? (fun u => u.Login == req.Login) = none := by
      rw [List.find?_eq_none]
      intro u hu
      simpa using hnone u hu
    simp [AuthService.Login, UserRepository.GetUserByLogin, hfind]
  · intro user hfind hcmp
    simp [AuthService.Login, UserRepository.GetUserByLogin, hfind, hcmp]
  · intro e he
    exact hhandler _ e he

/-- C10 at concrete inputs: an unknown login and a wrong password for a known
login give the same service error and the same response. -/
theorem Login_does_not_reveal_witness :
    (AuthService.Login sampleEnv "secret" sampleDB
        { Login := "nobody", Password := "password123" }).result =
      .error "invalid credentials" ∧
    (AuthService.Login sampleEnv "secret" sampleDB
        { Login := "artificial00", Password := "wrong-password" }).result =
      .error "invalid credentials" ∧
    AuthHandler.Login (fun r => (AuthService.Login sampleEnv "secret" sampleDB r).result)
        (some { Login := "nobody", Password := "password123" }) =
      AuthHandler.Login (fun r => (AuthService.Login sampleEnv "secret" sampleDB r).result)
        (some { Login := "artificial00", Password := "wrong-password" }) := by
  have h1 := Login_does_not_reveal sampleEnv "secret" sampleDB
    { Login := "nobody", Password := "password123" }
  have h2 := Login_does_not_reveal sampleEnv "secret" sampleDB
    { Login := "artificial00", Password := "wrong-password" }
  have r1 := h1.1 (by decide)
  have r2 := h2.2.1 _ rfl (by decide)
  refine ⟨r1, r2, ?_⟩
  rw [h1.2.2.2 _ r1, h2.2.2.2 _ r2]

/-! ### Filters and pagination arithmetic -/

/-- C15: SetDefaults replaces exactly the zero-valued fields by their defaults
(empty sort_by by created_at, empty sort_dir by desc, page 0 by 1, limit 0 by
20), leaves every other field and both price bounds as they are, and applying it
twice is the same as applying it once. -/
theorem SetDefaults_spec (f : ListingsFilter) :
    (SetDefaults f).SortBy = (if f.SortBy = "" then "created_at" else f.SortBy) ∧
    (SetDefaults f).SortDir = (if f.SortDir = "" then "desc" else f.SortDir) ∧
    (SetDefaults f).Page = (if f.Page = 0 then 1 else f.Page) ∧
    (SetDefaults f).Limit = (if f.Limit = 0 then 20 else f.Limit) ∧
    (SetDefaults f).MinPrice = f.MinPrice ∧
    (SetDefaults f).MaxPrice = f.MaxPrice ∧
    SetDefaults (SetDefaults f) = SetDefaults f := by
  obtain ⟨lo, hi, sb, sd, pg, lim⟩ := f
  unfold SetDefaults
  by_cases h1 : sb = "" <;> by_cases h2 : sd = "" <;> by_cases h3 : pg = 0 <;>
    by_cases h4 : lim = 0 <;> simp [h1, h2, h3, h4]

theorem validateListingsFilter_none_iff (g : ListingsFilter) :
    validateListingsFilter g = none ↔
      ((∀ m, g.MinPrice = some m → 0 ≤ m) ∧ (∀ m, g.MaxPrice = some m → 0 ≤ m) ∧
        (∀ lo hi, g.MinPrice = some lo → g.MaxPrice = some hi → lo ≤ hi) ∧
        1 ≤ g.Page ∧ 1 ≤ g.Limit ∧ g.Limit ≤ 100) := by
  obtain ⟨lo, hi, sb, sd, pg, lim⟩ := g
  unfold validateListingsFilter
  cases lo <;> cases hi <;> simp only [] <;> repeat' split
  all_goals simp_all
  all_goals omega

theorem validateListingsFilter_messages (g : ListingsFilter) (e : String)
    (h : validateListingsFilter g = some e) :
    e ∈ ["min_price cannot be negative", "max_price cannot be negative",
      "min_price cannot be greater than max_price", "page must be greater than 0",
      "limit must be between 1 and 100"] := by
  unfold validateListingsFilter at h
  repeat' split at h
  all_goals simp_all

theorem ne_append_of_head (a b : Char) (s t x : String) (hs : s.data.head? = some a)
    (ht : t.data.head? = some b) (hab : a ≠ b) : s ≠ t ++ x := by
  intro h
  have hd : s.data = t.data ++ x.data := by rw [h, String.data_append]
  cases htd : t.data with
  | nil => rw [htd] at ht; simp at ht
  | cons c cs =>
    rw [htd] at ht hd
    rw [hd] at hs
    simp only [List.cons_append, List.head?_cons, Option.some.injEq] at hs ht
    exact hab (hs.symm.trans ht)

/-- C13: after the defaults, GetListings rejects a filter with a validation
error exactly when min_price is present and negative, or max_price is present
and negative, or both are present and min_price > max_price, or page < 1, or
limit is outside 1..100; a rejected filter sends no statement and leaves the
database as it is, an accepted one reaches the store; min_price 100 with
max_price 50 is rejected. -/
theorem GetListings_rejects_iff (race : DB → DB) (db : DB) (f : ListingsFilter)
    (currentUserID : Option Int) :
    ((∃ e, validateListingsFilter (SetDefaults f) = some e) ↔
      ((∃ m, (SetDefaults f).MinPrice = some m ∧ m < 0) ∨
        (∃ m, (SetDefaults f).MaxPrice = some m ∧ m < 0) ∨
        (∃ lo hi, (SetDefaults f).MinPrice = some lo ∧ (SetDefaults f).MaxPrice = some hi ∧
          lo > hi) ∨
        (SetDefaults f).Page < 1 ∨ (SetDefaults f).Limit < 1 ∨ (SetDefaults f).Limit > 100)) ∧
    (∀ e, validateListingsFilter (SetDefaults f) = some e →
      (ListingService.GetListings race db f currentUserID).result = .error e ∧
      (ListingService.GetListings race db f currentUserID).queries = [] ∧
      (ListingService.GetListings race db f currentUserID).db = db ∧
      e ∈ ["min_price cannot be negative", "max_price cannot be negative",
        "min_price cannot be greater than max_price", "page must be greater than 0",
        "limit must be between 1 and 100"]) ∧
    (validateListingsFilter (SetDefaults f) = none →
      (ListingService.GetListings race db f currentUserID).queries ≠ [] ∧
      ∀ e ∈ ["min_price cannot be negative", "max_price cannot be negative",
        "min_price cannot be greater than max_price", "page must be greater than 0",
        "limit must be between 1 and 100"],
        (ListingService.GetListings race db f currentUserID).result ≠ .error e) ∧
    (ListingService.GetListings race db
        { MinPrice := some 100, MaxPrice := some 50, SortBy := "", SortDir := "", Page := 0,
          Limit := 0 } currentUserID).result =
      .error "min_price cannot be greater than max_price" ∧
    (ListingService.GetListings race db
        { MinPrice := some 100, MaxPrice := some 50, SortBy := "", SortDir := "", Page := 0,
          Limit := 0 } currentUserID).queries = [] := by
  refine ⟨?_, ?_, ?_, ?_, ?_⟩
  · have hn := validateListingsFilter_none_iff (SetDefaults f)
    constructor
    · rintro ⟨e, he⟩
      by_contra hcon
      have : validateListingsFilter (SetDefaults f) = none := by
        rw [hn]
        simp only [not_or, not_exists, not_and, not_lt, gt_iff_lt] at hcon
        obtain ⟨h1, h2, h3, h4, h5, h6⟩ := hcon
        exact ⟨h1, h2, fun lo hi hlo hhi => h3 lo hi hlo hhi, h4, h5, h6⟩
      rw [this] at he
      exact absurd he (by simp)
    · intro hcond
      cases hv : validateListingsFilter (SetDefaults f) with
      | some e => exact ⟨e, rfl⟩
      | none =>
        exfalso
        obtain ⟨h1, h2, h3, h4, h5, h6⟩ := hn.1 hv
        rcases hcond with ⟨m, hm, hneg⟩ | ⟨m, hm, hneg⟩ | ⟨lo, hi, hlo, hhi, hgt⟩ | hp | hl | hl
        · exact absurd (h1 m hm) (not_le.2 hneg)
        · exact absurd (h2 m hm) (not_le.2 hneg)
        · exact absurd (h3 lo hi hlo hhi) (not_le.2 hgt)
        · omega
        · omega
        · omega
  · intro e he
    refine ⟨?_, ?_, ?_, validateListingsFilter_messages _ e he⟩ <;>
      simp [ListingService.GetListings, he]
  · intro hv
    have hq : (ListingService.GetListings race db f currentUserID).queries =
        (ListingRepository.GetListings race db (SetDefaults f) currentUserID).queries := by
      simp only [ListingService.GetListings, hv]
      split <;> rfl
    have hrepo : (ListingRepository.GetListings race db (SetDefaults f) currentUserID).queries
        ≠ [] := by
      unfold ListingRepository.GetListings
      simp only []
      repeat' split
      all_goals simp
    refine ⟨by rw [hq]; exact hrepo, ?_⟩
    intro e he hres
    simp only [ListingService.GetListings, hv] at hres
    split at hres
    · rename_i e2 _
      simp only [Except.error.injEq] at hres
      have hne : e ≠ "failed to get listings: " ++ e2 := by
        simp only [List.mem_cons, List.mem_singleton, List.not_mem_nil, or_false] at he
        rcases he with h | h | h | h | h <;> subst h
        · exact ne_append_of_head 'm' 'f' _ _ _ rfl rfl (by decide)
        · exact ne_append_of_head 'm' 'f' _ _ _ rfl rfl (by decide)
        · exact ne_append_of_head 'm' 'f' _ _ _ rfl rfl (by decide)
        · exact ne_append_of_head 'p' 'f' _ _ _ rfl rfl (by decide)
        · exact ne_append_of_head 'l' 'f' _ _ _ rfl rfl (by decide)
      exact hne hres.symm
    · simp at hres
  · rfl
  · rfl

/-! ### Creating a listing -/

/-- C11: CreateListing validates in a fixed order and the first failing rule
decides the error: empty title, title longer than 255 (bytes), empty
description, price <= 0, then for a present non-empty image_url the URL format
and a length over 500; a rejected request sends no statement, a request that
passes every rule sends the INSERT, and the six messages are distinct. -/
theorem CreateListing_validation_order (E : Env) (now : Nat) (db : DB) (userID : Int)
    (req : CreateListingRequest) :
    (req.Title = "" → validateCreateListingRequest E req = some "title is required") ∧
    (req.Title ≠ "" → len req.Title > 255 →
      validateCreateListingRequest E req = some "title must be less than 255 characters") ∧
    (req.Title ≠ "" → len req.Title ≤ 255 → req.Description = "" →
      validateCreateListingRequest E req = some "description is required") ∧
    (req.Title ≠ "" → len req.Title ≤ 255 → req.Description ≠ "" → req.Price ≤ 0 →
      validateCreateListingRequest E req = some "price must be greater than 0") ∧
    (req.Title ≠ "" → len req.Title ≤ 255 → req.Description ≠ "" → 0 < req.Price →
      ∀ u, req.ImageURL = some u → u ≠ "" → ValidateURL E u = false →
      validateCreateListingRequest E req = some "invalid image URL format") ∧
    (req.Title ≠ "" → len req.Title ≤ 255 → req.Description ≠ "" → 0 < req.Price →
      ∀ u, req.ImageURL = some u → u ≠ "" → ValidateURL E u = true → len u > 500 →
      validateCreateListingRequest E req = some "image URL must be less than 500 characters") ∧
    (validateCreateListingRequest E req = none ↔
      (req.Title ≠ "" ∧ len req.Title ≤ 255 ∧ req.Description ≠ "" ∧ 0 < req.Price ∧
        ∀ u, req.ImageURL = some u → u ≠ "" → (ValidateURL E u = true ∧ len u ≤ 500))) ∧
    (∀ e, validateCreateListingRequest E req = some e →
      (ListingService.CreateListing E now db userID req).result = .error e ∧
      (ListingService.CreateListing E now db userID req).queries = [] ∧
      (ListingService.CreateListing E now db userID req).db = db) ∧
    (validateCreateListingRequest E req = none →
      (ListingService.CreateListing E now db userID req).queries =
        [.insertListing req.Title req.Description req.ImageURL req.Price userID]) ∧
    ["title is required", "title must be less than 255 characters", "description is required",
      "price must be greater than 0", "invalid image URL format",
      "image URL must be less than 500 characters"].Nodup := by
  refine ⟨?_, ?_, ?_, ?_, ?_, ?_, ?_, ?_, ?_, by decide⟩
  · intro h
    simp [validateCreateListingRequest, h]
  · intro h1 h2
    simp [validateCreateListingRequest, h1, h2]
  · intro h1 h2 h3
    simp [validateCreateListingRequest, h1, Nat.not_lt.2 h2, h3]
  · intro h1 h2 h3 h4
    simp [validateCreateListingRequest, h1, Nat.not_lt.2 h2, h3, h4]
  · intro h1 h2 h3 h4 u hu hne hv
    simp [validateCreateListingRequest, h1, Nat.not_lt.2 h2, h3, not_le.2 h4, hu, hne, hv]
  · intro h1 h2 h3 h4 u hu hne hv hl
    simp [validateCreateListingRequest, h1, Nat.not_lt.2 h2, h3, not_le.2 h4, hu, hne, hv, hl]
  · simp only [validateCreateListingRequest]
    by_cases h1 : req.Title = ""
    · simp [h1]
    · by_cases h2 : len req.Title > 255
      · simp [h1, h2]
      · by_cases h3 : req.Description = ""
        · simp [h1, h2, h3]
        · by_cases h4 : req.Price ≤ 0
          · simp [h1, h2, h3, h4]
          · cases hi : req.ImageURL with
            | none => simp [h1, h3, Nat.not_lt.1 h2, not_le.1 h4, h4, h2]
            | some u =>
              by_cases h5 : u = ""
              · simp [h1, h3, Nat.not_lt.1 h2, not_le.1 h4, h4, h2, h5]
              · by_cases h6 : ValidateURL E u = true
                · by_cases h7 : len u > 500
                  · simp [h1, h3, Nat.not_lt.1 h2, not_le.1 h4, h4, h2, h5, h6, h7]
                  · simp [h1, h3, Nat.not_lt.1 h2, not_le.1 h4, h4, h2, h5, h6, h7,
                      Nat.not_lt.1 h7]
                · simp [h1, h3, Nat.not_lt.1 h2, not_le.1 h4, h4, h2, h5, h6]
  · intro e he
    simp [ListingService.CreateListing, he]
  · intro hv
    have hrepo : (ListingRepository.CreateListing now db userID req).queries =
        [.insertListing req.Title req.Description req.ImageURL req.Price userID] := by
      unfold ListingRepository.CreateListing
      simp only []
      split <;> rfl
    simp only [ListingService.CreateListing, hv]
    split <;> exact hrepo

/-- C11 at concrete inputs: a request with an empty title and a non-positive
price is answered with the title error, the first rule; a valid request of user
1 reaches the store and comes back as listing 3. -/
theorem CreateListing_validation_order_witness :
    (ListingService.CreateListing sampleEnv 99 sampleDB 1
        { Title := "", Description := "", ImageURL := none, Price := 0 }).result =
      .error "title is required" ∧
    (ListingService.CreateListing sampleEnv 99 sampleDB 1 sampleCreate).queries =
      [.insertListing "Desk" "Oak" none 50 1] ∧
    (ListingService.CreateListing sampleEnv 99 sampleDB 1 sampleCreate).result =
      .ok { ID := 3, Title := "Desk", Description := "Oak", ImageURL := none, Price := 50,
            UserID := 1, UserLogin := "", IsOwner := false, CreatedAt := 99, UpdatedAt := 99 } := by
  have h1 := CreateListing_validation_order sampleEnv 99 sampleDB 1
    { Title := "", Description := "", ImageURL := none, Price := 0 }
  have h2 := CreateListing_validation_order sampleEnv 99 sampleDB 1 sampleCreate
  exact ⟨(h1.2.2.2.2.2.2.2.1 _ (h1.1 rfl)).1, h2.2.2.2.2.2.2.2.2.1 (by decide), by rfl⟩

/-- C12: the title length is measured in bytes: a title of 128 characters of
two bytes each, with a non-empty description, a positive price and no image, is
rejected by CreateListing and by the validation of UpdateListing with the
message that speaks of 255 characters. -/
theorem title_length_in_bytes (E : Env) (now : Nat) (db : DB) (userID : Int) :
    accentedTitle.length = 128 ∧ len accentedTitle = 256 ∧
    validateCreateListingRequest E
        { Title := accentedTitle, Description := "Oak", ImageURL := none, Price := 50 } =
      some "title must be less than 255 characters" ∧
    (ListingService.CreateListing E now db userID
        { Title := accentedTitle, Description := "Oak", ImageURL := none, Price := 50 }).result =
      .error "title must be less than 255 characters" ∧
    validateUpdateListingRequest E { emptyRequest with Title := some accentedTitle } =
      some "title must be less than 255 characters" := by
  have hrune : RuneLen 'é' = 2 := by decide
  have hlen : len accentedTitle = 256 := by
    simp [len, accentedTitle, List.map_replicate, List.sum_replicate, hrune]
  have hne : accentedTitle ≠ "" := by decide
  have hc : validateCreateListingRequest E
      { Title := accentedTitle, Description := "Oak", ImageURL := none, Price := 50 } =
      some "title must be less than 255 characters" := by
    simp [validateCreateListingRequest, hne, hlen]
  refine ⟨by rfl, hlen, hc, ?_, ?_⟩
  · simp [ListingService.CreateListing, hc]
  · simp [validateUpdateListingRequest, emptyRequest, hne, hlen]

theorem wrapInt64_of_range (x : Int) (h1 : -9223372036854775808 ≤ x)
    (h2 : x ≤ 9223372036854775807) : wrapInt64 x = x := by
  unfold wrapInt64
  omega

/-- What GetOffset computes when the product fits a Go int. -/
theorem GetOffset_exact (f : ListingsFilter) (hp : 1 ≤ f.Page)
    (hp2 : f.Page - 1 ≤ 9223372036854775807) (hl : 0 ≤ f.Limit)
    (hfit : (f.Page - 1) * f.Limit ≤ 9223372036854775807) :
    GetOffset f = (f.Page - 1) * f.Limit ∧ 0 ≤ GetOffset f := by
  have hnn : 0 ≤ (f.Page - 1) * f.Limit := Int.mul_nonneg (by omega) hl
  unfold GetOffset
  rw [wrapInt64_of_range (f.Page - 1) (by omega) hp2,
    wrapInt64_of_range _ (by omega) hfit]
  exact ⟨rfl, hnn⟩

/-- C16: a filter with page 2^63 - 1 and limit 100 passes the binding rules and
validateListingsFilter, and GetOffset returns -200 for it, while (page-1)×limit
is 922337203685477580600: the product overflows the Go int. -/
theorem GetOffset_overflows :
    bindingAccepts hugePageFilter = true ∧
    validateListingsFilter (SetDefaults hugePageFilter) = none ∧
    SetDefaults hugePageFilter = hugePageFilter ∧
    GetOffset hugePageFilter = -200 ∧
    (hugePageFilter.Page - 1) * hugePageFilter.Limit = 922337203685477580600 := by
  refine ⟨by decide, by decide, by decide, by decide, by decide⟩

/-! ### Reading listings -/

theorem repo_GetListings_ok (race : DB → DB) (db : DB) (g : ListingsFilter)
    (currentUserID : Option Int) (pg : PaginatedListings)
    (h : (ListingRepository.GetListings race db g currentUserID).result = .ok pg) :
    ∃ total rows,
      execCount db (buildWhere g).conditions (buildWhere g).args = .ok total ∧
      execSelect (race db) (buildWhere g).conditions (orderByClause g.SortBy g.SortDir)
        (buildWhere g).argIndex ((buildWhere g).argIndex + 1)
        ((buildWhere g).args ++ [.int g.Limit, .int (GetOffset g)]) = .ok rows ∧
      g.Limit ≠ 0 ∧
      pg = { Data := rows.map (scanJoined currentUserID), Total := total, Page := g.Page,
             Limit := g.Limit, TotalPages := totalPages total g.Limit } := by
  unfold ListingRepository.GetListings at h
  simp only [] at h
  cases hc : execCount db (buildWhere g).conditions (buildWhere g).args with
  | error e => simp [hc] at h
  | ok total =>
    simp only [hc] at h
    split at h
    · simp at h
    · rename_i rows hs
      by_cases hl : g.Limit = 0
      · simp [hl] at h
      · simp only [hl, if_false, Except.ok.injEq] at h
        exact ⟨total, rows, rfl, hs, hl, h.symm⟩

theorem service_GetListings_ok (race : DB → DB) (db : DB) (f : ListingsFilter)
    (currentUserID : Option Int) (pg : PaginatedListings)
    (h : (ListingService.GetListings race db f currentUserID).result = .ok pg) :
    validateListingsFilter (SetDefaults f) = none ∧
    (ListingRepository.GetListings race db (SetDefaults f) currentUserID).result = .ok pg := by
  unfold ListingService.GetListings at h
  simp only [] at h
  cases hv : validateListingsFilter (SetDefaults f) with
  | some e => simp [hv] at h
  | none =>
    refine ⟨rfl, ?_⟩
    simp only [hv] at h
    cases hr : (ListingRepository.GetListings race db (SetDefaults f) currentUserID).result with
    | error e => simp [hr] at h
    | ok pg2 =>
      simp only [hr, Except.ok.injEq] at h
      rw [h]

theorem repo_GetUserListings_ok (race : DB → DB) (db : DB) (userID : Int) (g : ListingsFilter)
    (pg : PaginatedListings)
    (h : (ListingRepository.GetUserListings race db userID g).result = .ok pg) :
    ∃ rows,
      execSelectUser (race db) (orderByClause g.SortBy g.SortDir) userID g.Limit
        (GetOffset g) = .ok rows ∧
      g.Limit ≠ 0 ∧
      pg = { Data := rows.map (fun p => { scanJoined none p with IsOwner := true }),
             Total := ((db.listings.filter (fun r => r.user_id == userID)).length : Int),
             Page := g.Page, Limit := g.Limit,
             TotalPages := totalPages
               ((db.listings.filter (fun r => r.user_id == userID)).length : Int) g.Limit } := by
  unfold ListingRepository.GetUserListings at h
  simp only [] at h
  split at h
  · simp at h
  · rename_i rows hs
    by_cases hl : g.Limit = 0
    · simp [hl] at h
    · simp only [hl, if_false, Except.ok.injEq] at h
      exact ⟨rows, hs, hl, h.symm⟩

theorem service_GetUserListings_ok (race : DB → DB) (db : DB) (userID : Int)
    (f : ListingsFilter) (pg : PaginatedListings)
    (h : (ListingService.GetUserListings race db userID f).result = .ok pg) :
    0 < userID ∧ validateListingsFilter (SetDefaults f) = none ∧
    (ListingRepository.GetUserListings race db userID (SetDefaults f)).result = .ok pg := by
  unfold ListingService.GetUserListings at h
  by_cases hu : userID ≤ 0
  · simp [hu] at h
  · simp only [hu, if_false] at h
    cases hv : validateListingsFilter (SetDefaults f) with
    | some e => simp [hv] at h
    | none =>
      refine ⟨by omega, rfl, ?_⟩
      simp only [hv] at h
      cases hr : (ListingRepository.GetUserListings race db userID (SetDefaults f)).result with
      | error e => simp [hr] at h
      | ok pg2 =>
        simp only [hr, Except.ok.injEq] at h
        rw [h]

theorem totalPages_eq (total limit : Int) (h0 : 0 ≤ total)
    (hmax : total ≤ 9223372036854775707) (hl : 1 ≤ limit) (hl2 : limit ≤ 100) :
    totalPages total limit = (total + limit - 1) / limit := by
  unfold totalPages
  rw [wrapInt64_of_range (total + limit) (by omega) (by omega),
    wrapInt64_of_range (total + limit - 1) (by omega) (by omega),
    Int.tdiv_eq_ediv (by omega) (by omega)]

theorem execCount_nonneg (db : DB) (conditions : List Condition) (args : List Arg) (total : Int)
    (h : execCount db conditions args = .ok total) : 0 ≤ total := by
  unfold execCount at h
  split at h
  · simp at h
  · simp only [Except.ok.injEq] at h
    rw [← h]
    exact Int.natCast_nonneg _

/-- C17: for a total from 0 up to 2^63 - 101 (every count for which total +
limit - 1 fits a Go int) and a limit from 1 to 100, the expression (total +
limit - 1) / limit equals ceil(total/limit): it is the least integer n with
n×limit >= total, and it is 0 exactly when total is 0; GetListings and
GetUserListings return that expression of their total and limit as
total_pages, with total >= 0 and limit in 1..100. -/
theorem totalPages_is_ceil (total limit : Int) (h0 : 0 ≤ total)
    (hmax : total ≤ 9223372036854775707) (hl : 1 ≤ limit) (hl2 : limit ≤ 100) :
    totalPages total limit = ⌈(total : ℚ) / (limit : ℚ)⌉ ∧
    total ≤ totalPages total limit * limit ∧
    (∀ n : Int, total ≤ n * limit → totalPages total limit ≤ n) ∧
    (totalPages total limit = 0 ↔ total = 0) ∧
    (∀ (race : DB → DB) (db : DB) (f : ListingsFilter) (currentUserID : Option Int)
      (pg : PaginatedListings),
      (ListingService.GetListings race db f currentUserID).result = .ok pg →
      pg.TotalPages = totalPages pg.Total pg.Limit ∧ 0 ≤ pg.Total ∧ 1 ≤ pg.Limit ∧
        pg.Limit ≤ 100) ∧
    (∀ (race : DB → DB) (db : DB) (userID : Int) (f : ListingsFilter) (pg : PaginatedListings),
      (ListingService.GetUserListings race db userID f).result = .ok pg →
      pg.TotalPages = totalPages pg.Total pg.Limit ∧ 0 ≤ pg.Total ∧ 1 ≤ pg.Limit ∧
        pg.Limit ≤ 100) := by
  have hpos : 0 < limit := by omega
  have hle : (total + limit - 1) / limit * limit ≤ total + limit - 1 :=
    Int.ediv_mul_le _ (by omega)
  have hlt : total + limit - 1 < ((total + limit - 1) / limit + 1) * limit :=
    Int.lt_ediv_add_one_mul_self _ hpos
  have hup : total ≤ (total + limit - 1) / limit * limit := by nlinarith
  have hleast : ∀ n : Int, total ≤ n * limit → (total + limit - 1) / limit ≤ n := by
    intro n hn
    by_contra hcon
    have h1 : n + 1 ≤ (total + limit - 1) / limit := by omega
    have h2 : (n + 1) * limit ≤ (total + limit - 1) / limit * limit :=
      Int.mul_le_mul_of_nonneg_right h1 (by omega)
    nlinarith
  rw [totalPages_eq total limit h0 hmax hl hl2]
  refine ⟨?_, hup, hleast, ?_, ?_, ?_⟩
  · symm
    rw [Int.ceil_eq_iff]
    have hq : (0 : ℚ) < (limit : ℚ) := by exact_mod_cast hpos
    constructor
    · rw [lt_div_iff₀ hq]
      have : ((total + limit - 1) / limit - 1) * limit < total := by nlinarith
      exact_mod_cast this
    · rw [div_le_iff₀ hq]
      exact_mod_cast hup
  · constructor
    · intro hz
      rw [hz] at hup
      omega
    · intro hz
      subst hz
      have := hleast 0 (by simp)
      have h3 : 0 ≤ (0 + limit - 1) / limit := Int.ediv_nonneg (by omega) (by omega)
      omega
  · intro race db f currentUserID pg hok
    obtain ⟨hv, hrepo⟩ := service_GetListings_ok race db f currentUserID pg hok
    obtain ⟨tot, rows, hc, _, _, hpg⟩ := repo_GetListings_ok race db _ currentUserID pg hrepo
    obtain ⟨_, _, _, _, hl1, hl100⟩ := (validateListingsFilter_none_iff _).1 hv
    subst hpg
    exact ⟨rfl, execCount_nonneg _ _ _ _ hc, hl1, hl100⟩
  · intro race db userID f pg hok
    obtain ⟨_, hv, hrepo⟩ := service_GetUserListings_ok race db userID f pg hok
    obtain ⟨rows, _, _, hpg⟩ := repo_GetUserListings_ok race db userID _ pg hrepo
    obtain ⟨_, _, _, _, hl1, hl100⟩ := (validateListingsFilter_none_iff _).1 hv
    subst hpg
    exact ⟨rfl, Int.natCast_nonneg _, hl1, hl100⟩

/-- C17 at concrete inputs: 25 listings in pages of 20 make 2 pages, one
listing more than two full pages makes 3, and no listing makes none. -/
theorem totalPages_is_ceil_witness :
    totalPages 25 20 = 2 ∧ totalPages 41 20 = 3 ∧ totalPages 40 20 = 2 ∧
    totalPages 0 20 = 0 ∧ (25 : Int) ≤ totalPages 25 20 * 20 ∧
    totalPages 25 20 = ⌈((25 : Int) : ℚ) / ((20 : Int) : ℚ)⌉ := by
  have h := totalPages_is_ceil 25 20 (by decide) (by decide) (by decide) (by decide)
  exact ⟨by decide, by decide, by decide, by decide, h.2.1, h.1⟩

theorem mem_joinUsers (users : List User) (rows : List ListingRow) (p : ListingRow × String) :
    p ∈ joinUsers users rows ↔
      (p.1 ∈ rows ∧ ∃ u ∈ users, u.ID = p.1.user_id ∧ u.Login = p.2) := by
  induction rows with
  | nil => simp [joinUsers]
  | cons l ls ih =>
    simp only [joinUsers, List.mem_append, List.mem_map, List.mem_filter, beq_iff_eq, ih,
      List.mem_cons]
    constructor
    · rintro (⟨u, ⟨hu, hid⟩, rfl⟩ | ⟨hmem, hex⟩)
      · exact ⟨Or.inl rfl, u, hu, hid, rfl⟩
      · exact ⟨Or.inr hmem, hex⟩
    · rintro ⟨hmem | hmem, u, hu, hid, hlogin⟩
      · left
        refine ⟨u, ⟨hu, by rw [hid, hmem]⟩, ?_⟩
        rw [← hmem, hlogin]
      · exact Or.inr ⟨hmem, u, hu, hid, hlogin⟩

theorem joinUsers_find_none (users : List User) (rows : List ListingRow) (id : Int)
    (h : ∀ r ∈ rows, r.id ≠ id) :
    (joinUsers users rows).find? (fun p => p.1.id == id) = none := by
  rw [List.find?_eq_none]
  intro p hp
  have hmem := ((mem_joinUsers users rows p).1 hp).1
  simpa using h p.1 hmem

/-- C19: for the id 2147483648, which the path of a request can carry and no
row of listings can have (the column id is SERIAL), GetListingByID does not
answer not found: the query fails on the value, the repository and the service
wrap the error of the driver, so the result is the internal error and the
handler answers 500 where a missing listing gets 404. -/
theorem GetListingByID_out_of_range_id (db : DB) (currentUserID : Option Int) :
    (0 : Int) < 2147483648 ∧
    (∀ r ∈ sampleDB.listings, r.id ≠ 2147483648) ∧
    (ListingService.GetListingByID db 2147483648 currentUserID).result =
      .error ("failed to get listing: failed to get listing: " ++
        "pq: value \"2147483648\" is out of range for type integer") ∧
    (ListingService.GetListingByID db 2147483648 currentUserID).result ≠
      .error "listing not found" ∧
    (ListingService.GetListingByID db 2147483648 currentUserID).queries =
      [.selectListingByID 2147483648] ∧
    ListingHandler.GetListing (fun i u => (ListingService.GetListingByID db i u).result)
        currentUserID (some 2147483648) =
      .failure 500 "internal_error" "Failed to get listing" ∧
    ListingHandler.GetListing (fun i u => (ListingService.GetListingByID db i u).result)
        currentUserID (some 2147483648) ≠
      .failure 404 "not_found" "Listing not found" := by
  have hres : ListingService.GetListingByID db 2147483648 currentUserID =
      { result := .error ("failed to get listing: failed to get listing: " ++
          "pq: value \"2147483648\" is out of range for type integer"),
        db := db, queries := [.selectListingByID 2147483648] } := rfl
  have hh : ListingHandler.GetListing
        (fun i u => (ListingService.GetListingByID db i u).result) currentUserID
        (some 2147483648) =
      .failure 500 "internal_error" "Failed to get listing" := by
    unfold ListingHandler.GetListing
    simp only [hres]
    rfl
  refine ⟨by decide, by decide, by rw [hres], ?_, by rw [hres], hh, ?_⟩
  · rw [hres]
    simp only [ne_eq, Except.error.injEq]
    decide
  · rw [hh]
    simp

/-- GetListingByID for the ids the column can hold: every id <= 0 gets the
invalid-id error without a statement, every id > 0 within int4 that no row has
gets the not-found error, and the two messages differ from each other and from
every message of the internal error, which starts with "failed to get listing: ". -/
theorem GetListingByID_in_range (db : DB) (id : Int) (currentUserID : Option Int) :
    (id ≤ 0 →
      (ListingService.GetListingByID db id currentUserID).result =
        .error "invalid listing ID" ∧
      (ListingService.GetListingByID db id currentUserID).queries = [] ∧
      (ListingService.GetListingByID db id currentUserID).db = db) ∧
    (0 < id → id ≤ 2147483647 → (∀ r ∈ db.listings, r.id ≠ id) →
      (ListingService.GetListingByID db id currentUserID).result =
        .error "listing not found" ∧
      (ListingService.GetListingByID db id currentUserID).queries = [.selectListingByID id]) ∧
    "invalid listing ID" ≠ "listing not found" ∧
    (∀ e : String, "invalid listing ID" ≠ "failed to get listing: " ++ e ∧
      "listing not found" ≠ "failed to get listing: " ++ e) := by
  refine ⟨?_, ?_, by decide, ?_⟩
  · intro hid
    simp [ListingService.GetListingByID, hid]
  · intro hid hmax hrows
    have hid2 : ¬ id ≤ 0 := by omega
    have h1 : (-2147483648 : Int) ≤ id := by omega
    have hq : queryListingByID db id = .ok none := by
      unfold queryListingByID inInt4
      rw [joinUsers_find_none db.users db.listings id hrows]
      simp [h1, hmax]
    simp [ListingService.GetListingByID, ListingRepository.GetListingByID, hid2, hq]
  · intro e
    exact ⟨ne_append_of_head 'i' 'f' _ _ _ rfl rfl (by decide),
      ne_append_of_head 'l' 'f' _ _ _ rfl rfl (by decide)⟩

/-- GetListingByID at concrete inputs: id -1 is an invalid id, id 999999 is not
found, id 1 is found. -/
theorem GetListingByID_in_range_examples :
    (ListingService.GetListingByID sampleDB (-1) none).result = .error "invalid listing ID" ∧
    (ListingService.GetListingByID sampleDB (-1) none).queries = [] ∧
    (ListingService.GetListingByID sampleDB 999999 none).result = .error "listing not found" ∧
    (ListingService.GetListingByID sampleDB 1 none).result =
      .ok { ID := 1, Title := "iPhone 15 Pro", Description := "New", ImageURL := none,
            Price := 120000, UserID := 1, UserLogin := "artificial00", IsOwner := false,
            CreatedAt := 10, UpdatedAt := 10 } := by
  have h1 := (GetListingByID_in_range sampleDB (-1) none).1 (by decide)
  have h2 := (GetListingByID_in_range sampleDB 999999 none).2.1 (by decide) (by decide)
    (by decide)
  exact ⟨h1.1, h1.2.1, h2.1, by rfl⟩

theorem scanJoined_IsOwner (currentUserID : Option Int) (p : ListingRow × String) :
    (scanJoined currentUserID p).UserID = p.1.user_id ∧
    ((scanJoined currentUserID p).IsOwner = true ↔ currentUserID = some p.1.user_id) := by
  unfold scanJoined
  by_cases h : currentUserID = some p.1.user_id
  · simp [scanListing, h]
  · simp [scanListing, h]

/-- C20: every listing that GetListingByID or GetListings returns has is_owner
true exactly when a caller id is present and equals the owner id of the
listing; without a caller id every returned listing has is_owner false. -/
theorem IsOwner_iff (race : DB → DB) (db : DB) (f : ListingsFilter) (id : Int)
    (currentUserID : Option Int) :
    (∀ l, (ListingService.GetListingByID db id currentUserID).result = .ok l →
      (l.IsOwner = true ↔ currentUserID = some l.UserID)) ∧
    (∀ pg, (ListingService.GetListings race db f currentUserID).result = .ok pg →
      ∀ l ∈ pg.Data, (l.IsOwner = true ↔ currentUserID = some l.UserID)) ∧
    (∀ l, (ListingService.GetListingByID db id none).result = .ok l → l.IsOwner = false) ∧
    (∀ pg, (ListingService.GetListings race db f none).result = .ok pg →
      ∀ l ∈ pg.Data, l.IsOwner = false) := by
  have hbyid : ∀ (cu : Option Int) (l : Listing),
      (ListingService.GetListingByID db id cu).result = .ok l →
      (l.IsOwner = true ↔ cu = some l.UserID) := by
    intro cu l h
    unfold ListingService.GetListingByID ListingRepository.GetListingByID at h
    by_cases hid : id ≤ 0
    · simp [hid] at h
    · simp only [hid, if_false] at h
      cases hf : queryListingByID db id with
      | error e =>
        simp only [hf] at h
        split at h <;> simp at h
      | ok found =>
        cases found with
        | none => simp [hf] at h
        | some p =>
          simp only [hf, Except.ok.injEq] at h
          rw [← h, (scanJoined_IsOwner cu p).1]
          exact (scanJoined_IsOwner cu p).2
  have hlist : ∀ (cu : Option Int) (pg : PaginatedListings),
      (ListingService.GetListings race db f cu).result = .ok pg →
      ∀ l ∈ pg.Data, (l.IsOwner = true ↔ cu = some l.UserID) := by
    intro cu pg h l hl
    obtain ⟨_, hrepo⟩ := service_GetListings_ok race db f cu pg h
    obtain ⟨tot, rows, _, _, _, hpg⟩ := repo_GetListings_ok race db _ cu pg hrepo
    subst hpg
    obtain ⟨p, _, rfl⟩ := List.mem_map.1 hl
    rw [(scanJoined_IsOwner cu p).1]
    exact (scanJoined_IsOwner cu p).2
  refine ⟨hbyid currentUserID, hlist currentUserID, ?_, ?_⟩
  · intro l h
    have := hbyid none l h
    cases hO : l.IsOwner with
    | false => rfl
    | true => exact absurd (this.1 hO) (by simp)
  · intro pg h l hl
    have := hlist none pg h l hl
    cases hO : l.IsOwner with
    | false => rfl
    | true => exact absurd (this.1 hO) (by simp)

/-! ### The statements of GetListings -/

theorem bindingAccepts_sort (f : ListingsFilter) (h : bindingAccepts f = true) :
    ((SetDefaults f).SortBy = "created_at" ∨ (SetDefaults f).SortBy = "price") ∧
    ((SetDefaults f).SortDir = "asc" ∨ (SetDefaults f).SortDir = "desc") := by
  have hsb : (SetDefaults f).SortBy = (if f.SortBy = "" then "created_at" else f.SortBy) := by
    unfold SetDefaults
    by_cases h1 : f.SortBy = "" <;> by_cases h2 : f.SortDir = "" <;> by_cases h3 : f.Page = 0 <;>
      by_cases h4 : f.Limit = 0 <;> simp [h1, h2, h3, h4]
  have hsd : (SetDefaults f).SortDir = (if f.SortDir = "" then "desc" else f.SortDir) := by
    unfold SetDefaults
    by_cases h1 : f.SortBy = "" <;> by_cases h2 : f.SortDir = "" <;> by_cases h3 : f.Page = 0 <;>
      by_cases h4 : f.Limit = 0 <;> simp [h1, h2, h3, h4]
  rw [hsb, hsd]
  simp only [bindingAccepts, Bool.and_eq_true, Bool.or_eq_true, beq_iff_eq] at h
  obtain ⟨⟨⟨⟨_, h1⟩, h2⟩, _⟩, _⟩ := h
  constructor
  · rcases h1 with (h1 | h1) | h1 <;> simp [h1]
  · rcases h2 with (h2 | h2) | h2 <;> simp [h2]

theorem orderByClause_enum (sortBy sortDir : String)
    (hsb : sortBy = "created_at" ∨ sortBy = "price") (hsd : sortDir = "asc" ∨ sortDir = "desc") :
    orderByClause sortBy sortDir ∈
      ["ORDER BY l.created_at asc", "ORDER BY l.created_at desc", "ORDER BY l.price asc",
        "ORDER BY l.price desc"] := by
  rcases hsb with h | h <;> rcases hsd with h2 | h2 <;> subst h <;> subst h2 <;> decide

theorem repo_GetListings_queries (race : DB → DB) (db : DB) (g : ListingsFilter)
    (currentUserID : Option Int) (c : List Condition) (o : String) (li oi : Nat)
    (a : List Arg)
    (h : Stmt.selectListings c o li oi a ∈
      (ListingRepository.GetListings race db g currentUserID).queries) :
    o = orderByClause g.SortBy g.SortDir := by
  unfold ListingRepository.GetListings at h
  simp only [] at h
  repeat' split at h
  all_goals simp at h
  all_goals exact h.2.1

theorem repo_GetUserListings_queries (race : DB → DB) (db : DB) (userID : Int)
    (g : ListingsFilter) (o : String) (u l off : Int)
    (h : Stmt.selectUserListings o u l off ∈
      (ListingRepository.GetUserListings race db userID g).queries) :
    o = orderByClause g.SortBy g.SortDir := by
  unfold ListingRepository.GetUserListings at h
  simp only [] at h
  repeat' split at h
  all_goals simp at h
  all_goals exact h.1

theorem service_GetListings_queries (race : DB → DB) (db : DB) (f : ListingsFilter)
    (currentUserID : Option Int) (q : Stmt)
    (h : q ∈ (ListingService.GetListings race db f currentUserID).queries) :
    q ∈ (ListingRepository.GetListings race db (SetDefaults f) currentUserID).queries := by
  unfold ListingService.GetListings at h
  simp only [] at h
  split at h
  · simp at h
  · split at h <;> exact h

theorem service_GetUserListings_queries (race : DB → DB) (db : DB) (userID : Int)
    (f : ListingsFilter) (q : Stmt)
    (h : q ∈ (ListingService.GetUserListings race db userID f).queries) :
    q ∈ (ListingRepository.GetUserListings race db userID (SetDefaults f)).queries := by
  unfold ListingService.GetUserListings at h
  split at h
  · simp at h
  · simp only [] at h
    split at h
    · simp at h
    · split at h <;> exact h

/-- C14 as stated fails: ListingService accepts a filter whose sort_by is
"id; DROP TABLE listings; --" (validateListingsFilter does not look at the sort
fields), and GetListings and GetUserListings send a SELECT whose ORDER BY
clause contains that text. -/
theorem service_interpolates_raw_sort_text :
    validateListingsFilter (SetDefaults injectionFilter) = none ∧
    (ListingService.GetListings id sampleDB injectionFilter none).queries =
      [.countListings [] [],
        .selectListings [] "ORDER BY l.id; DROP TABLE listings; -- desc" 1 2
          [.int 20, .int 0]] ∧
    (ListingService.GetUserListings id sampleDB 1 injectionFilter).queries =
      [.countUserListings 1,
        .selectUserListings "ORDER BY l.id; DROP TABLE listings; -- desc" 1 20 0] := by
  refine ⟨by decide, by rfl, by rfl⟩

/-- C14, amended: GetListings and GetUserListings interpolate into ORDER BY
exactly the sort_by and sort_dir of the filter after the defaults; for a filter
that the binding rules of ListingsFilter accept these are created_at or price
and asc or desc, so the clause is one of four fixed texts. -/
theorem orderBy_is_enum_for_bound_filters (race : DB → DB) (db : DB) (f : ListingsFilter)
    (currentUserID : Option Int) (userID : Int) :
    (∀ c o li oi a, Stmt.selectListings c o li oi a ∈
        (ListingService.GetListings race db f currentUserID).queries →
      o = orderByClause (SetDefaults f).SortBy (SetDefaults f).SortDir) ∧
    (∀ o u l off, Stmt.selectUserListings o u l off ∈
        (ListingService.GetUserListings race db userID f).queries →
      o = orderByClause (SetDefaults f).SortBy (SetDefaults f).SortDir) ∧
    (bindingAccepts f = true →
      ((SetDefaults f).SortBy = "created_at" ∨ (SetDefaults f).SortBy = "price") ∧
      ((SetDefaults f).SortDir = "asc" ∨ (SetDefaults f).SortDir = "desc") ∧
      (∀ c o li oi a, Stmt.selectListings c o li oi a ∈
          (ListingService.GetListings race db f currentUserID).queries →
        o ∈ ["ORDER BY l.created_at asc", "ORDER BY l.created_at desc",
          "ORDER BY l.price asc", "ORDER BY l.price desc"]) ∧
      (∀ o u l off, Stmt.selectUserListings o u l off ∈
          (ListingService.GetUserListings race db userID f).queries →
        o ∈ ["ORDER BY l.created_at asc", "ORDER BY l.created_at desc",
          "ORDER BY l.price asc", "ORDER BY l.price desc"])) := by
  have h1 : ∀ c o li oi a, Stmt.selectListings c o li oi a ∈
        (ListingService.GetListings race db f currentUserID).queries →
      o = orderByClause (SetDefaults f).SortBy (SetDefaults f).SortDir := by
    intro c o li oi a h
    exact repo_GetListings_queries race db _ currentUserID c o li oi a
      (service_GetListings_queries race db f currentUserID _ h)
  have h2 : ∀ o u l off, Stmt.selectUserListings o u l off ∈
        (ListingService.GetUserListings race db userID f).queries →
      o = orderByClause (SetDefaults f).SortBy (SetDefaults f).SortDir := by
    intro o u l off h
    exact repo_GetUserListings_queries race db userID _ o u l off
      (service_GetUserListings_queries race db userID f _ h)
  refine ⟨h1, h2, ?_⟩
  intro hb
  obtain ⟨hsb, hsd⟩ := bindingAccepts_sort f hb
  refine ⟨hsb, hsd, ?_, ?_⟩
  · intro c o li oi a h
    rw [h1 c o li oi a h]
    exact orderByClause_enum _ _ hsb hsd
  · intro o u l off h
    rw [h2 o u l off h]
    exact orderByClause_enum _ _ hsb hsd

/-- C14, amended, at a concrete input: the bound request sort_by=price,
sort_dir=asc makes both methods send ORDER BY l.price asc. -/
theorem orderBy_is_enum_for_bound_filters_witness :
    (ListingService.GetListings id sampleDB
        { secondPage with SortBy := "price", SortDir := "asc", Page := 1 } none).queries =
      [.countListings [] [],
        .selectListings [] "ORDER BY l.price asc" 1 2 [.int 20, .int 0]] ∧
    "ORDER BY l.price asc" ∈ ["ORDER BY l.created_at asc", "ORDER BY l.created_at desc",
      "ORDER BY l.price asc", "ORDER BY l.price desc"] := by
  have hq : (ListingService.GetListings id sampleDB
        { secondPage with SortBy := "price", SortDir := "asc", Page := 1 } none).queries =
      [.countListings [] [],
        .selectListings [] "ORDER BY l.price asc" 1 2 [.int 20, .int 0]] := by rfl
  have h := (orderBy_is_enum_for_bound_filters id sampleDB
    { secondPage with SortBy := "price", SortDir := "asc", Page := 1 } none 1).2.2 (by decide)
  exact ⟨hq, h.2.2.1 [] _ 1 2 [.int 20, .int 0] (by rw [hq]; simp)⟩

/-! ### The page that GetListings returns -/

theorem bindConditions_count (g : ListingsFilter) :
    bindConditions (buildWhere g).args (buildWhere g).conditions = some (priceBounds g) := by
  obtain ⟨lo, hi, sb, sd, pg, lim⟩ := g
  cases lo <;> cases hi <;> rfl

theorem bindConditions_select (g : ListingsFilter) (limit offset : Int) :
    bindConditions ((buildWhere g).args ++ [.int limit, .int offset]) (buildWhere g).conditions =
      some (priceBounds g) := by
  obtain ⟨lo, hi, sb, sd, pg, lim⟩ := g
  cases lo <;> cases hi <;> rfl

theorem placeholder_limit_offset (g : ListingsFilter) (limit offset : Int) :
    placeholder ((buildWhere g).args ++ [.int limit, .int offset]) (buildWhere g).argIndex =
      some (.int limit) ∧
    placeholder ((buildWhere g).args ++ [.int limit, .int offset]) ((buildWhere g).argIndex + 1) =
      some (.int offset) := by
  obtain ⟨lo, hi, sb, sd, pg, lim⟩ := g
  cases lo <;> cases hi <;> exact ⟨rfl, rfl⟩

theorem insertRow_perm (le : ListingRow → ListingRow → Bool) (a : ListingRow × String)
    (l : List (ListingRow × String)) : (insertRow le a l).Perm (a :: l) := by
  induction l with
  | nil => exact List.Perm.refl _
  | cons b bs ih =>
    unfold insertRow
    split
    · exact List.Perm.refl _
    · exact (List.Perm.cons b ih).trans (List.Perm.swap a b bs)

theorem sortRows_perm (le : ListingRow → ListingRow → Bool) (l : List (ListingRow × String)) :
    (sortRows le l).Perm l := by
  induction l with
  | nil => exact List.Perm.refl _
  | cons a as ih =>
    unfold sortRows
    exact (insertRow_perm le a _).trans (List.Perm.cons a ih)

theorem orderRows_enum (sortBy sortDir : String) (rows : List (ListingRow × String))
    (hsb : sortBy = "created_at" ∨ sortBy = "price") (hsd : sortDir = "asc" ∨ sortDir = "desc") :
    ∃ ordered, orderRows (orderByClause sortBy sortDir) rows = .ok ordered ∧
      ordered.Perm rows := by
  rcases hsb with h | h <;> rcases hsd with h2 | h2 <;> subst h <;> subst h2
  · exact ⟨_, rfl, sortRows_perm _ _⟩
  · exact ⟨_, rfl, sortRows_perm _ _⟩
  · exact ⟨_, rfl, sortRows_perm _ _⟩
  · exact ⟨_, rfl, sortRows_perm _ _⟩

theorem repo_GetListings_eq (race : DB → DB) (db : DB) (g : ListingsFilter)
    (currentUserID : Option Int) (ordered : List (ListingRow × String))
    (hord : orderRows (orderByClause g.SortBy g.SortDir) (matching (race db) (priceBounds g)) =
      .ok ordered)
    (hl : 1 ≤ g.Limit) (hoff : 0 ≤ GetOffset g) :
    (ListingRepository.GetListings race db g currentUserID).result =
      .ok { Data := ((ordered.drop (GetOffset g).toNat).take g.Limit.toNat).map
              (scanJoined currentUserID),
            Total := ((matching db (priceBounds g)).length : Int),
            Page := g.Page, Limit := g.Limit,
            TotalPages := totalPages ((matching db (priceBounds g)).length : Int) g.Limit } := by
  have hl0 : ¬ g.Limit < 0 := by omega
  have hl1 : g.Limit ≠ 0 := by omega
  have ho0 : ¬ GetOffset g < 0 := by omega
  unfold ListingRepository.GetListings
  simp only [execCount, bindConditions_count, execSelect, bindConditions_select,
    (placeholder_limit_offset g g.Limit (GetOffset g)).1,
    (placeholder_limit_offset g g.Limit (GetOffset g)).2, hord, limitOffset, hl0, ho0, hl1,
    if_false]

/-- C18: page 2^63 - 1 with limit 100 is a valid page and limit (it passes the
binding rules and the validation), yet GetListings on a store with two listings
returns an error and the handler answers 500, where total 2 and no items are
due: the offset overflowed to -200 and the SELECT is refused. -/
theorem GetListings_fails_on_huge_page :
    bindingAccepts hugePageFilter = true ∧
    validateListingsFilter (SetDefaults hugePageFilter) = none ∧
    (matching sampleDB (priceBounds (SetDefaults hugePageFilter))).length = 2 ∧
    GetOffset (SetDefaults hugePageFilter) = -200 ∧
    (ListingService.GetListings id sampleDB hugePageFilter none).result =
      .error "failed to get listings: failed to get listings: pq: OFFSET must not be negative" ∧
    ListingHandler.GetListings
        (fun f u => (ListingService.GetListings id sampleDB f u).result) none
        (.ok hugePageFilter) =
      .failure 500 "internal_error" "Failed to get listings" := by
  refine ⟨by decide, by decide, by decide, by decide, by rfl, by rfl⟩

/-- Pages of GetListings away from the overflow of the offset: for a filter that
passes validation after the defaults, with sort_by and sort_dir among the enum
values and (page-1)×limit within the Go int, GetListings returns total = the number of matching listings at the count
query, echoes page and limit, and returns as data the listings from position
(page-1)×limit on, at most limit of them, of the ordered matching sequence, so
the data length is min(limit, N - (page-1)×limit) cut at 0 for N matching
listings at the select query. -/
theorem GetListings_page (race : DB → DB) (db : DB) (f g : ListingsFilter)
    (currentUserID : Option Int) (hg : g = SetDefaults f)
    (hv : validateListingsFilter g = none)
    (hsb : g.SortBy = "created_at" ∨ g.SortBy = "price")
    (hsd : g.SortDir = "asc" ∨ g.SortDir = "desc")
    (hfit : (g.Page - 1) * g.Limit ≤ 9223372036854775807) :
    ∃ ordered pg,
      orderRows (orderByClause g.SortBy g.SortDir) (matching (race db) (priceBounds g)) =
        .ok ordered ∧
      ordered.Perm (matching (race db) (priceBounds g)) ∧
      (ListingService.GetListings race db f currentUserID).result = .ok pg ∧
      pg.Total = ((matching db (priceBounds g)).length : Int) ∧
      pg.Page = g.Page ∧ pg.Limit = g.Limit ∧
      pg.TotalPages = totalPages pg.Total pg.Limit ∧
      pg.Data = ((ordered.drop ((g.Page - 1) * g.Limit).toNat).take g.Limit.toNat).map
        (scanJoined currentUserID) ∧
      pg.Data.length = min g.Limit.toNat
        ((matching (race db) (priceBounds g)).length - ((g.Page - 1) * g.Limit).toNat) := by
  obtain ⟨_, _, _, hp1, hl1, hl100⟩ := (validateListingsFilter_none_iff g).1 hv
  have hp2 : g.Page - 1 ≤ 9223372036854775807 := by nlinarith
  obtain ⟨hoff, hoff0⟩ := GetOffset_exact g hp1 hp2 (by omega) hfit
  obtain ⟨ordered, hord, hperm⟩ :=
    orderRows_enum g.SortBy g.SortDir (matching (race db) (priceBounds g)) hsb hsd
  have hrepo := repo_GetListings_eq race db g currentUserID ordered hord hl1 hoff0
  rw [hoff] at hrepo
  refine ⟨ordered,
    { Data := ((ordered.drop ((g.Page - 1) * g.Limit).toNat).take g.Limit.toNat).map
        (scanJoined currentUserID),
      Total := ((matching db (priceBounds g)).length : Int), Page := g.Page, Limit := g.Limit,
      TotalPages := totalPages ((matching db (priceBounds g)).length : Int) g.Limit },
    hord, hperm, ?_, rfl, rfl, rfl, rfl, rfl, ?_⟩
  · unfold ListingService.GetListings
    simp only [← hg, hv, hrepo]
  · simp only [List.length_map, List.length_take, List.length_drop, hperm.length_eq]

/-- The example of the specification: 25 listings, page=2 and limit=20 give
the 5 oldest listings (the default order is created_at desc), total 25 and 2
pages. -/
theorem GetListings_page_witness :
    ∃ pg, (ListingService.GetListings id manyListings secondPage none).result = .ok pg ∧
      pg.Data.length = 5 ∧ pg.Total = 25 ∧ pg.TotalPages = 2 ∧ pg.Page = 2 ∧ pg.Limit = 20 ∧
      pg.Data.map (fun l => l.ID) = [5, 4, 3, 2, 1] := by
  obtain ⟨ordered, pg, _, _, hres, htot, hpage, hlim, htp, _, hlen⟩ :=
    GetListings_page id manyListings secondPage (SetDefaults secondPage) none rfl
      (by decide) (by decide) (by decide) (by decide)
  have hN : (matching manyListings (priceBounds (SetDefaults secondPage))).length = 25 := by
    decide
  have hexp : (ListingService.GetListings id manyListings secondPage none).result =
      .ok { Data := [4, 3, 2, 1, 0].map (fun i => scanJoined none (numberedRow i, "artificial00")),
            Total := 25, Page := 2, Limit := 20, TotalPages := 2 } := by
    rfl
  have hpg : pg = { Data := [4, 3, 2, 1, 0].map
                      (fun i => scanJoined none (numberedRow i, "artificial00")),
                    Total := 25, Page := 2, Limit := 20, TotalPages := 2 } := by
    rw [hres] at hexp
    exact Except.ok.inj hexp
  refine ⟨pg, hres, ?_, ?_, ?_, ?_, ?_, ?_⟩
  · rw [hlen]
    simp only [id, hN]
    decide
  · rw [htot, hN]
    rfl
  · rw [hpg]
  · rw [hpage]
    rfl
  · rw [hlim]
    rfl
  · rw [hpg]
    decide

/-- C20 at concrete inputs: for caller 1 the listing of user 1 is flagged and
the listing of user 2 is not; without a caller no listing is flagged. -/
theorem IsOwner_iff_witness :
    (ListingService.GetListingByID sampleDB 1 (some 1)).result.toOption.map
      (fun l => l.IsOwner) = some true ∧
    (ListingService.GetListingByID sampleDB 2 (some 1)).result.toOption.map
      (fun l => l.IsOwner) = some false ∧
    (ListingService.GetListings id sampleDB secondPage (some 1)).result.toOption.map
      (fun pg => pg.Data.map (fun l => (l.ID, l.IsOwner))) = some [] ∧
    (ListingService.GetListings id sampleDB { secondPage with Page := 1 } (some 1)).result.toOption.map
      (fun pg => pg.Data.map (fun l => (l.ID, l.IsOwner))) = some [(2, false), (1, true)] ∧
    (ListingService.GetListings id sampleDB { secondPage with Page := 1 } none).result.toOption.map
      (fun pg => pg.Data.map (fun l => (l.ID, l.IsOwner))) = some [(2, false), (1, false)] := by
  have h := IsOwner_iff id sampleDB { secondPage with Page := 1 } 1 (some 1)
  have h1 : (ListingService.GetListingByID sampleDB 1 (some 1)).result =
      .ok (scanJoined (some 1) (sampleRow, "artificial00")) := by rfl
  have hown := (h.1 _ h1).2 (by decide)
  refine ⟨?_, by rfl, by rfl, by rfl, by rfl⟩
  rw [h1]
  simp only [Except.toOption, Option.map_some', hown]

/-! ### Handlers: the unrecognised service errors -/

theorem Register_handler_other (authService : RegisterRequest → Except String AuthResponse)
    (req : RegisterRequest) (e : String) (h : authService req = .error e)
    (hn : e ∉ ["user already exists", "invalid login format",
      "password must be at least 6 characters long and contain letters and digits"]) :
    AuthHandler.Register authService (some req) =
      .failure 500 "internal_error" "Registration failed" := by
  simp only [List.mem_cons, List.mem_singleton, List.not_mem_nil, not_or, or_false] at hn
  obtain ⟨h1, h2, h3⟩ := hn
  simp [AuthHandler.Register, h, h1, h2, h3, InternalError, SendError]

theorem CreateListing_handler_other
    (listingService : Int → CreateListingRequest → Except String Listing) (userID : Int)
    (req : CreateListingRequest) (e : String) (h : listingService userID req = .error e)
    (hn : e ∉ ["title is required", "description is required", "price must be greater than 0",
      "invalid image URL format", "title must be less than 255 characters",
      "image URL must be less than 500 characters"]) :
    ListingHandler.CreateListing listingService (some userID) (.ok req) =
      .failure 500 "internal_error" "Failed to create listing" := by
  simp only [List.mem_cons, List.mem_singleton, List.not_mem_nil, not_or, or_false] at hn
  obtain ⟨h1, h2, h3, h4, h5, h6⟩ := hn
  simp [ListingHandler.CreateListing, h, h1, h2, h3, h4, h5, h6, InternalError, SendError]

theorem GetListings_handler_other
    (listingService : ListingsFilter → Option Int → Except String PaginatedListings)
    (userID : Option Int) (filter : ListingsFilter) (e : String)
    (h : listingService filter userID = .error e)
    (hn : e ∉ ["min_price cannot be negative", "max_price cannot be negative",
      "min_price cannot be greater than max_price", "page must be greater than 0",
      "limit must be between 1 and 100"]) :
    ListingHandler.GetListings listingService userID (.ok filter) =
      .failure 500 "internal_error" "Failed to get listings" := by
  simp only [List.mem_cons, List.mem_singleton, List.not_mem_nil, not_or, or_false] at hn
  obtain ⟨h1, h2, h3, h4, h5⟩ := hn
  simp [ListingHandler.GetListings, h, h1, h2, h3, h4, h5, InternalError, SendError]

theorem GetListing_handler_other (listingService : Int → Option Int → Except String Listing)
    (userID : Option Int) (id : Int) (e : String) (h : listingService id userID = .error e)
    (hn : e ∉ ["listing not found", "invalid listing ID"]) :
    ListingHandler.GetListing listingService userID (some id) =
      .failure 500 "internal_error" "Failed to get listing" := by
  simp only [List.mem_cons, List.mem_singleton, List.not_mem_nil, not_or, or_false] at hn
  obtain ⟨h1, h2⟩ := hn
  simp [ListingHandler.GetListing, h, h1, h2, InternalError, SendError]

theorem UpdateListing_handler_other
    (listingService : Int → Int → UpdateListingRequest → Except String Listing)
    (userID id : Int) (req : UpdateListingRequest) (e : String)
    (h : listingService id userID req = .error e)
    (hn : e ∉ ["listing not found", "access denied: you can only edit your own listings",
      "invalid listing ID", "title cannot be empty", "description cannot be empty",
      "price must be greater than 0", "invalid image URL format",
      "title must be less than 255 characters", "image URL must be less than 500 characters",
      "no fields to update"]) :
    ListingHandler.UpdateListing listingService (some userID) (some id) (.ok req) =
      .failure 500 "internal_error" "Failed to update listing" := by
  simp only [List.mem_cons, List.mem_singleton, List.not_mem_nil, not_or, or_false] at hn
  obtain ⟨h1, h2, h3, h4, h5, h6, h7, h8, h9, h10⟩ := hn
  simp [ListingHandler.UpdateListing, h, h1, h2, h3, h4, h5, h6, h7, h8, h9, h10,
    InternalError, SendError]

theorem DeleteListing_handler_other (listingService : Int → Int → Except String Unit)
    (userID id : Int) (e : String) (h : listingService id userID = .error e)
    (hn : e ∉ ["listing not found", "access denied: you can only delete your own listings",
      "invalid listing ID"]) :
    ListingHandler.DeleteListing listingService (some userID) (some id) =
      .failure 500 "internal_error" "Failed to delete listing" := by
  simp only [List.mem_cons, List.mem_singleton, List.not_mem_nil, not_or, or_false] at hn
  obtain ⟨h1, h2, h3⟩ := hn
  simp [ListingHandler.DeleteListing, h, h1, h2, h3, InternalError, SendError]

theorem GetMyListings_handler_other
    (listingService : Int → ListingsFilter → Except String PaginatedListings)
    (userID : Int) (filter : ListingsFilter) (e : String)
    (h : listingService userID filter = .error e)
    (hn : e ∉ ["invalid user ID", "page must be greater than 0",
      "limit must be between 1 and 100"]) :
    ListingHandler.GetMyListings listingService (some userID) (.ok filter) =
      .failure 500 "internal_error" "Failed to get user listings" := by
  simp only [List.mem_cons, List.mem_singleton, List.not_mem_nil, not_or, or_false] at hn
  obtain ⟨h1, h2, h3⟩ := hn
  simp [ListingHandler.GetMyListings, h, h1, h2, h3, InternalError, SendError]

theorem validateCreate_messages (E : Env) (req : CreateListingRequest) (e : String)
    (h : validateCreateListingRequest E req = some e) :
    e ∈ ["title is required", "description is required", "price must be greater than 0",
      "invalid image URL format", "title must be less than 255 characters",
      "image URL must be less than 500 characters"] := by
  unfold validateCreateListingRequest at h
  repeat' split at h
  all_goals simp_all

theorem validateUpdate_messages (E : Env) (req : UpdateListingRequest) (e : String)
    (h : validateUpdateListingRequest E req = some e) :
    e ∈ ["title cannot be empty", "description cannot be empty", "price must be greater than 0",
      "invalid image URL format", "title must be less than 255 characters",
      "image URL must be less than 500 characters"] := by
  unfold validateUpdateListingRequest at h
  cases ht : req.Title with
  | none =>
    simp only [ht] at h
    repeat' split at h
    all_goals simp_all
  | some t =>
    simp only [ht] at h
    by_cases h1 : t = ""
    · simp_all
    · by_cases h2 : len t > 255
      · simp_all
      · simp only [h1, h2, if_false] at h
        repeat' split at h
        all_goals simp_all

/-! ### Handlers: the validation errors -/

theorem CreateListing_handler_400
    (listingService : Int → CreateListingRequest → Except String Listing) (userID : Int)
    (req : CreateListingRequest) (e : String) (h : listingService userID req = .error e)
    (hm : e ∈ ["title is required", "description is required", "price must be greater than 0",
      "invalid image URL format", "title must be less than 255 characters",
      "image URL must be less than 500 characters"]) :
    ListingHandler.CreateListing listingService (some userID) (.ok req) =
      .failure 400 "bad_request" e := by
  simp only [List.mem_cons, List.mem_singleton, List.not_mem_nil, or_false] at hm
  rcases hm with h1 | h1 | h1 | h1 | h1 | h1 <;> subst h1 <;>
    simp [ListingHandler.CreateListing, h, BadRequest, SendError]

theorem GetListings_handler_400
    (listingService : ListingsFilter → Option Int → Except String PaginatedListings)
    (userID : Option Int) (filter : ListingsFilter) (e : String)
    (h : listingService filter userID = .error e)
    (hm : e ∈ ["min_price cannot be negative", "max_price cannot be negative",
      "min_price cannot be greater than max_price", "page must be greater than 0",
      "limit must be between 1 and 100"]) :
    ListingHandler.GetListings listingService userID (.ok filter) =
      .failure 400 "bad_request" e := by
  simp only [List.mem_cons, List.mem_singleton, List.not_mem_nil, or_false] at hm
  rcases hm with h1 | h1 | h1 | h1 | h1 <;> subst h1 <;>
    simp [ListingHandler.GetListings, h, BadRequest, SendError]

theorem UpdateListing_handler_400
    (listingService : Int → Int → UpdateListingRequest → Except String Listing)
    (userID id : Int) (req : UpdateListingRequest) (e : String)
    (h : listingService id userID req = .error e)
    (hm : e ∈ ["invalid listing ID", "title cannot be empty", "description cannot be empty",
      "price must be greater than 0", "invalid image URL format",
      "title must be less than 255 characters", "image URL must be less than 500 characters",
      "no fields to update"]) :
    ListingHandler.UpdateListing listingService (some userID) (some id) (.ok req) =
      .failure 400 "bad_request" e := by
  simp only [List.mem_cons, List.mem_singleton, List.not_mem_nil, or_false] at hm
  rcases hm with h1 | h1 | h1 | h1 | h1 | h1 | h1 | h1 <;> subst h1 <;>
    simp [ListingHandler.UpdateListing, h, BadRequest, SendError]

/-- C22: every validation error of ListingService is answered with 400
bad_request and the message itself: the messages of validateCreateListingRequest
by the CreateListing handler, those of validateListingsFilter by the GetListings
handler, the invalid-id error by the GetListing and UpdateListing handlers, and
the messages of validateUpdateListingRequest by the UpdateListing handler. -/
theorem validation_errors_are_400 (E : Env) (now : Nat) (race : DB → DB) (db : DB) :
    (∀ (userID : Int) (req : CreateListingRequest) (e : String),
      validateCreateListingRequest E req = some e →
      ListingHandler.CreateListing (fun u r => (ListingService.CreateListing E now db u r).result)
        (some userID) (.ok req) = .failure 400 "bad_request" e) ∧
    (∀ (userID : Option Int) (f : ListingsFilter) (e : String),
      validateListingsFilter (SetDefaults f) = some e →
      ListingHandler.GetListings (fun g u => (ListingService.GetListings race db g u).result)
        userID (.ok f) = .failure 400 "bad_request" e) ∧
    (∀ (userID : Option Int) (id : Int), id ≤ 0 →
      ListingHandler.GetListing (fun i u => (ListingService.GetListingByID db i u).result)
        userID (some id) = .failure 400 "bad_request" "invalid listing ID") ∧
    (∀ (userID id : Int) (req : UpdateListingRequest), id ≤ 0 →
      ListingHandler.UpdateListing
        (fun i u r => (ListingService.UpdateListing E now race db i u r).result)
        (some userID) (some id) (.ok req) = .failure 400 "bad_request" "invalid listing ID") ∧
    (∀ (userID id : Int) (req : UpdateListingRequest) (e : String), 0 < id →
      validateUpdateListingRequest E req = some e →
      ListingHandler.UpdateListing
        (fun i u r => (ListingService.UpdateListing E now race db i u r).result)
        (some userID) (some id) (.ok req) = .failure 400 "bad_request" e) := by
  refine ⟨?_, ?_, ?_, ?_, ?_⟩
  · intro userID req e he
    apply CreateListing_handler_400
    · simp [ListingService.CreateListing, he]
    · exact validateCreate_messages E req e he
  · intro userID f e he
    apply GetListings_handler_400
    · simp [ListingService.GetListings, he]
    · exact validateListingsFilter_messages _ e he
  · intro userID id hid
    simp [ListingHandler.GetListing, ListingService.GetListingByID, hid, BadRequest, SendError]
  · intro userID id req hid
    apply UpdateListing_handler_400
    · simp [ListingService.UpdateListing, hid]
    · simp
  · intro userID id req e hid he
    have hid2 : ¬ id ≤ 0 := by omega
    apply UpdateListing_handler_400
    · simp [ListingService.UpdateListing, hid2, he]
    · have hm := validateUpdate_messages E req e he
      simp only [List.mem_cons, List.mem_singleton, List.not_mem_nil, or_false] at hm ⊢
      tauto

/-- C22 at concrete inputs: an empty title on create, min_price above
max_price on the list, id 0 on get and an empty title on update all give 400. -/
theorem validation_errors_are_400_witness :
    ListingHandler.CreateListing
        (fun u r => (ListingService.CreateListing sampleEnv 99 sampleDB u r).result)
        (some 1) (.ok { sampleCreate with Title := "" }) =
      .failure 400 "bad_request" "title is required" ∧
    ListingHandler.GetListings
        (fun g u => (ListingService.GetListings id sampleDB g u).result)
        none (.ok priceRangeFilter) =
      .failure 400 "bad_request" "min_price cannot be greater than max_price" ∧
    ListingHandler.GetListing (fun i u => (ListingService.GetListingByID sampleDB i u).result)
        none (some 0) = .failure 400 "bad_request" "invalid listing ID" ∧
    ListingHandler.UpdateListing
        (fun i u r => (ListingService.UpdateListing sampleEnv 99 id sampleDB i u r).result)
        (some 1) (some 1) (.ok { emptyRequest with Title := some "" }) =
      .failure 400 "bad_request" "title cannot be empty" := by
  have h := validation_errors_are_400 sampleEnv 99 id sampleDB
  exact ⟨h.1 1 _ _ (by decide), h.2.1 none _ _ (by decide), h.2.2.1 none 0 (by decide),
    h.2.2.2.2 1 1 _ _ (by decide) (by decide)⟩

/-- C23: the request min_price=100, max_price=50 passes the binding rules;
GetUserListings answers it with the validation error "min_price cannot be
greater than max_price", and the GetMyListings handler, whose list of 400
messages has only the invalid user id and the page and limit messages, answers
500, where the GetListings handler answers the same message with 400. -/
theorem GetMyListings_price_error_is_500 (race : DB → DB) (db : DB) :
    bindingAccepts priceRangeFilter = true ∧
    (ListingService.GetUserListings race db 1 priceRangeFilter).result =
      .error "min_price cannot be greater than max_price" ∧
    ListingHandler.GetMyListings
        (fun u f => (ListingService.GetUserListings race db u f).result)
        (some 1) (.ok priceRangeFilter) =
      .failure 500 "internal_error" "Failed to get user listings" ∧
    ListingHandler.GetListings
        (fun f u => (ListingService.GetListings race db f u).result)
        (some 1) (.ok priceRangeFilter) =
      .failure 400 "bad_request" "min_price cannot be greater than max_price" ∧
    (∀ (listingService : Int → ListingsFilter → Except String PaginatedListings)
      (f : ListingsFilter) (e : String), listingService 1 f = .error e →
      e ∈ ["min_price cannot be negative", "max_price cannot be negative",
        "min_price cannot be greater than max_price"] →
      ListingHandler.GetMyListings listingService (some 1) (.ok f) =
        .failure 500 "internal_error" "Failed to get user listings") := by
  refine ⟨by decide, by rfl, by rfl, by rfl, ?_⟩
  intro listingService f e he hm
  apply GetMyListings_handler_other listingService 1 f e he
  simp only [List.mem_cons, List.mem_singleton, List.not_mem_nil, or_false] at hm ⊢
  rcases hm with h | h | h <;> subst h <;> decide

/-! ### Handlers: the status tables -/

/-- C24 as stated fails: the UpdateListing handler answers the service error
"title cannot be empty", which is none of "listing not found", the
access-denied error and "invalid listing ID", with 400 and not with 500. -/
theorem UpdateListing_handler_validation_is_400 :
    (ListingService.UpdateListing sampleEnv 99 id sampleDB 1 1
        { emptyRequest with Title := some "" }).result = .error "title cannot be empty" ∧
    ListingHandler.UpdateListing
        (fun i u r => (ListingService.UpdateListing sampleEnv 99 id sampleDB i u r).result)
        (some 1) (some 1) (.ok { emptyRequest with Title := some "" }) =
      .failure 400 "bad_request" "title cannot be empty" ∧
    "title cannot be empty" ∉ ["listing not found",
      "access denied: you can only edit your own listings", "invalid listing ID"] := by
  refine ⟨by rfl, by rfl, by decide⟩

/-- C24, amended: the three handlers map outcomes by fixed tables. GetListing:
a non-numeric id gives 400 "Invalid listing ID" whatever the service is,
"listing not found" gives 404, "invalid listing ID" gives 400, every other
service error gives 500. DeleteListing and UpdateListing: no user id gives 401
whatever the service is, then a non-numeric id gives 400, "listing not found"
gives 404, the access-denied error of the method gives 403, "invalid listing
ID" gives 400; UpdateListing also answers its seven field and no-fields
messages with 400; every other service error gives 500. -/
theorem listing_handlers_status_table :
    (∀ (svc : Int → Option Int → Except String Listing) (u : Option Int),
      ListingHandler.GetListing svc u none = .failure 400 "bad_request" "Invalid listing ID") ∧
    (∀ (svc : Int → Option Int → Except String Listing) (u : Option Int) (id : Int),
      (svc id u = .error "listing not found" →
        ListingHandler.GetListing svc u (some id) =
          .failure 404 "not_found" "Listing not found") ∧
      (svc id u = .error "invalid listing ID" →
        ListingHandler.GetListing svc u (some id) =
          .failure 400 "bad_request" "invalid listing ID") ∧
      (∀ e, svc id u = .error e → e ∉ ["listing not found", "invalid listing ID"] →
        ListingHandler.GetListing svc u (some id) =
          .failure 500 "internal_error" "Failed to get listing")) ∧
    (∀ (svc : Int → Int → Except String Unit) (id : Option Int),
      ListingHandler.DeleteListing svc none id =
        .failure 401 "unauthorized" "User not found in context") ∧
    (∀ (svc : Int → Int → Except String Unit) (u : Int),
      ListingHandler.DeleteListing svc (some u) none =
        .failure 400 "bad_request" "Invalid listing ID") ∧
    (∀ (svc : Int → Int → Except String Unit) (u id : Int),
      (svc id u = .error "listing not found" →
        ListingHandler.DeleteListing svc (some u) (some id) =
          .failure 404 "not_found" "Listing not found") ∧
      (svc id u = .error "access denied: you can only delete your own listings" →
        ListingHandler.DeleteListing svc (some u) (some id) =
          .failure 403 "forbidden" "You can only delete your own listings") ∧
      (svc id u = .error "invalid listing ID" →
        ListingHandler.DeleteListing svc (some u) (some id) =
          .failure 400 "bad_request" "invalid listing ID") ∧
      (∀ e, svc id u = .error e →
        e ∉ ["listing not found", "access denied: you can only delete your own listings",
          "invalid listing ID"] →
        ListingHandler.DeleteListing svc (some u) (some id) =
          .failure 500 "internal_error" "Failed to delete listing")) ∧
    (∀ (svc : Int → Int → UpdateListingRequest → Except String Listing) (id : Option Int)
      (bound : Except String UpdateListingRequest),
      ListingHandler.UpdateListing svc none id bound =
        .failure 401 "unauthorized" "User not found in context") ∧
    (∀ (svc : Int → Int → UpdateListingRequest → Except String Listing) (u : Int)
      (bound : Except String UpdateListingRequest),
      ListingHandler.UpdateListing svc (some u) none bound =
        .failure 400 "bad_request" "Invalid listing ID") ∧
    (∀ (svc : Int → Int → UpdateListingRequest → Except String Listing) (u id : Int)
      (req : UpdateListingRequest),
      (svc id u req = .error "listing not found" →
        ListingHandler.UpdateListing svc (some u) (some id) (.ok req) =
          .failure 404 "not_found" "Listing not found") ∧
      (svc id u req = .error "access denied: you can only edit your own listings" →
        ListingHandler.UpdateListing svc (some u) (some id) (.ok req) =
          .failure 403 "forbidden" "You can only edit your own listings") ∧
      (∀ e, svc id u req = .error e →
        e ∈ ["invalid listing ID", "title cannot be empty", "description cannot be empty",
          "price must be greater than 0", "invalid image URL format",
          "title must be less than 255 characters",
          "image URL must be less than 500 characters", "no fields to update"] →
        ListingHandler.UpdateListing svc (some u) (some id) (.ok req) =
          .failure 400 "bad_request" e) ∧
      (∀ e, svc id u req = .error e →
        e ∉ ["listing not found", "access denied: you can only edit your own listings",
          "invalid listing ID", "title cannot be empty", "description cannot be empty",
          "price must be greater than 0", "invalid image URL format",
          "title must be less than 255 characters",
          "image URL must be less than 500 characters", "no fields to update"] →
        ListingHandler.UpdateListing svc (some u) (some id) (.ok req) =
          .failure 500 "internal_error" "Failed to update listing")) := by
  refine ⟨?_, ?_, ?_, ?_, ?_, ?_, ?_, ?_⟩
  · intro svc u
    rfl
  · intro svc u id
    refine ⟨?_, ?_, fun e he hn => GetListing_handler_other svc u id e he hn⟩
    · intro h
      simp [ListingHandler.GetListing, h, NotFound, SendError]
    · intro h
      simp [ListingHandler.GetListing, h, BadRequest, SendError]
  · intro svc id
    rfl
  · intro svc u
    rfl
  · intro svc u id
    refine ⟨?_, ?_, ?_, fun e he hn => DeleteListing_handler_other svc u id e he hn⟩
    · intro h
      simp [ListingHandler.DeleteListing, h, NotFound, SendError]
    · intro h
      simp [ListingHandler.DeleteListing, h, Forbidden, SendError]
    · intro h
      simp [ListingHandler.DeleteListing, h, BadRequest, SendError]
  · intro svc id bound
    rfl
  · intro svc u bound
    rfl
  · intro svc u id req
    refine ⟨?_, ?_, fun e he hm => UpdateListing_handler_400 svc u id req e he hm,
      fun e he hn => UpdateListing_handler_other svc u id req e he hn⟩
    · intro h
      simp [ListingHandler.UpdateListing, h, NotFound, SendError]
    · intro h
      simp [ListingHandler.UpdateListing, h, Forbidden, SendError]

/-- C24, amended, at concrete inputs with the real services: an unknown id
gives 404, the delete and the update of user 2 on the listing of user 1 give
403, and a request without user id gives 401. -/
theorem listing_handlers_status_table_witness :
    ListingHandler.GetListing (fun i u => (ListingService.GetListingByID sampleDB i u).result)
        none (some 999999) = .failure 404 "not_found" "Listing not found" ∧
    ListingHandler.DeleteListing (fun i u => (ListingService.DeleteListing id sampleDB i u).result)
        (some 2) (some 1) = .failure 403 "forbidden" "You can only delete your own listings" ∧
    ListingHandler.UpdateListing
        (fun i u r => (ListingService.UpdateListing sampleEnv 99 id sampleDB i u r).result)
        (some 2) (some 1) (.ok { emptyRequest with Title := some "Mine now" }) =
      .failure 403 "forbidden" "You can only edit your own listings" ∧
    ListingHandler.DeleteListing (fun i u => (ListingService.DeleteListing id sampleDB i u).result)
        none (some 1) = .failure 401 "unauthorized" "User not found in context" := by
  have h := listing_handlers_status_table
  exact ⟨(h.2.1 _ none 999999).1 (by rfl), (h.2.2.2.2.1 _ 2 1).2.1 (by rfl),
    (h.2.2.2.2.2.2.2 _ 2 1 _).2.1 (by rfl), h.2.2.1 _ (some 1)⟩

/-- C25: the Register handler answers a body that is malformed or lacks the
login or the password with 400 "Invalid request format" whatever the service
is, answers "user already exists" with 409, the invalid-login and the
weak-password errors with 400, every other service error with 500
"Registration failed", and a success with 201 carrying the user and the token. -/
theorem Register_handler_table :
    ShouldBindRegister none = none ∧
    (∀ req : RegisterRequest, req.Login = "" ∨ req.Password = "" →
      ShouldBindRegister (some req) = none) ∧
    (∀ svc : RegisterRequest → Except String AuthResponse,
      AuthHandler.Register svc none = .failure 400 "bad_request" "Invalid request format") ∧
    (∀ (svc : RegisterRequest → Except String AuthResponse) (req : RegisterRequest),
      (svc req = .error "user already exists" →
        AuthHandler.Register svc (some req) =
          .failure 409 "conflict" "User with this login already exists") ∧
      (svc req = .error "invalid login format" →
        AuthHandler.Register svc (some req) =
          .failure 400 "bad_request"
            "Login must be 3-50 characters long and contain only letters, numbers, and underscores") ∧
      (svc req =
          .error "password must be at least 6 characters long and contain letters and digits" →
        AuthHandler.Register svc (some req) =
          .failure 400 "bad_request"
            "password must be at least 6 characters long and contain letters and digits") ∧
      (∀ e, svc req = .error e →
        e ∉ ["user already exists", "invalid login format",
          "password must be at least 6 characters long and contain letters and digits"] →
        AuthHandler.Register svc (some req) =
          .failure 500 "internal_error" "Registration failed") ∧
      (∀ response, svc req = .ok response →
        AuthHandler.Register svc (some req) =
          .success 201 response "User registered successfully")) := by
  refine ⟨rfl, ?_, fun svc => rfl, ?_⟩
  · intro req h
    rcases h with h | h <;> simp [ShouldBindRegister, h]
  · intro svc req
    refine ⟨?_, ?_, ?_, fun e he hn => Register_handler_other svc req e he hn, ?_⟩
    · intro h
      simp [AuthHandler.Register, h, Conflict, SendError]
    · intro h
      simp [AuthHandler.Register, h, BadRequest, SendError]
    · intro h
      simp [AuthHandler.Register, h, BadRequest, SendError]
    · intro response h
      simp [AuthHandler.Register, h, SendSuccess]

/-- C25 at concrete inputs with the real service: a body without password is
refused by the binding, a second registration of artificial00 gives 409, and a
new login gives 201 with the user and the token. -/
theorem Register_handler_table_witness :
    AuthHandler.Register
        (fun r => (AuthService.Register sampleEnv "secret" 99 id sampleDB r).result)
        (ShouldBindRegister (some { Login := "artificial00", Password := "" })) =
      .failure 400 "bad_request" "Invalid request format" ∧
    AuthHandler.Register
        (fun r => (AuthService.Register sampleEnv "secret" 99 id sampleDB r).result)
        (ShouldBindRegister (some { Login := "artificial00", Password := "password123" })) =
      .failure 409 "conflict" "User with this login already exists" ∧
    AuthHandler.Register
        (fun r => (AuthService.Register sampleEnv "secret" 99 id sampleDB r).result)
        (ShouldBindRegister (some { Login := "new_user", Password := "password123" })) =
      .success 201
        { User := { ID := 3, Login := "new_user", PasswordHash := "$2a$10$password123",
                    CreatedAt := 99, UpdatedAt := 99 },
          Token := "token-of-new_user" }
        "User registered successfully" := by
  have h := Register_handler_table
  have hb : ShouldBindRegister (some { Login := "artificial00", Password := "" }) = none :=
    h.2.1 _ (Or.inr rfl)
  have hb2 : ShouldBindRegister (some { Login := "artificial00", Password := "password123" }) =
      some { Login := "artificial00", Password := "password123" } := by decide
  have hb3 : ShouldBindRegister (some { Login := "new_user", Password := "password123" }) =
      some { Login := "new_user", Password := "password123" } := by decide
  rw [hb, hb2, hb3]
  exact ⟨h.2.2.1 _, (h.2.2.2 _ _).1 (by rfl), (h.2.2.2 _ _).2.2.2.2 _ (by rfl)⟩

/-! ### Handlers: internal failures -/

/-- C27 as stated fails: when the token helper fails, AuthService.Login returns
an internal error ("failed to generate token: ..."), and the Login handler
answers it with status 401, not 500. -/
theorem Login_handler_internal_error_is_401 :
    (AuthService.Login brokenTokenEnv "secret" sampleDB
        { Login := "artificial00", Password := "password123" }).result =
      .error "failed to generate token: signing key unavailable" ∧
    AuthHandler.Login (fun r => (AuthService.Login brokenTokenEnv "secret" sampleDB r).result)
        (some { Login := "artificial00", Password := "password123" }) =
      .failure 401 "unauthorized" "Invalid login or password" ∧
    (401 : Nat) ≠ 500 := by
  refine ⟨by rfl, by rfl, by decide⟩

/-- C27, amended: no handler puts the text of an unrecognised service error
into its response. For Register, Me, CreateListing, GetListings, GetListing,
UpdateListing, DeleteListing and GetMyListings every service error that is not
one of the recognised client errors of the handler gives status 500 with the
fixed message of the handler; the Login handler answers every service error
with its fixed 401 response. -/
theorem internal_errors_do_not_leak :
    (∀ (svc : RegisterRequest → Except String AuthResponse) (req : RegisterRequest) (e : String),
      svc req = .error e →
      e ∉ ["user already exists", "invalid login format",
        "password must be at least 6 characters long and contain letters and digits"] →
      AuthHandler.Register svc (some req) =
        .failure 500 "internal_error" "Registration failed") ∧
    (∀ (svc : LoginRequest → Except String AuthResponse) (req : LoginRequest) (e : String),
      svc req = .error e →
      AuthHandler.Login svc (some req) =
        .failure 401 "unauthorized" "Invalid login or password") ∧
    (∀ (svc : Int → Except String User) (userID : Int) (e : String),
      svc userID = .error e →
      AuthHandler.Me svc (some (.int userID)) =
        .failure 500 "internal_error" "Failed to get user info") ∧
    (∀ (svc : Int → CreateListingRequest → Except String Listing) (u : Int)
      (req : CreateListingRequest) (e : String), svc u req = .error e →
      e ∉ ["title is required", "description is required", "price must be greater than 0",
        "invalid image URL format", "title must be less than 255 characters",
        "image URL must be less than 500 characters"] →
      ListingHandler.CreateListing svc (some u) (.ok req) =
        .failure 500 "internal_error" "Failed to create listing") ∧
    (∀ (svc : ListingsFilter → Option Int → Except String PaginatedListings) (u : Option Int)
      (f : ListingsFilter) (e : String), svc f u = .error e →
      e ∉ ["min_price cannot be negative", "max_price cannot be negative",
        "min_price cannot be greater than max_price", "page must be greater than 0",
        "limit must be between 1 and 100"] →
      ListingHandler.GetListings svc u (.ok f) =
        .failure 500 "internal_error" "Failed to get listings") ∧
    (∀ (svc : Int → Option Int → Except String Listing) (u : Option Int) (id : Int) (e : String),
      svc id u = .error e → e ∉ ["listing not found", "invalid listing ID"] →
      ListingHandler.GetListing svc u (some id) =
        .failure 500 "internal_error" "Failed to get listing") ∧
    (∀ (svc : Int → Int → UpdateListingRequest → Except String Listing) (u id : Int)
      (req : UpdateListingRequest) (e : String), svc id u req = .error e →
      e ∉ ["listing not found", "access denied: you can only edit your own listings",
        "invalid listing ID", "title cannot be empty", "description cannot be empty",
        "price must be greater than 0", "invalid image URL format",
        "title must be less than 255 characters", "image URL must be less than 500 characters",
        "no fields to update"] →
      ListingHandler.UpdateListing svc (some u) (some id) (.ok req) =
        .failure 500 "internal_error" "Failed to update listing") ∧
    (∀ (svc : Int → Int → Except String Unit) (u id : Int) (e : String),
      svc id u = .error e →
      e ∉ ["listing not found", "access denied: you can only delete your own listings",
        "invalid listing ID"] →
      ListingHandler.DeleteListing svc (some u) (some id) =
        .failure 500 "internal_error" "Failed to delete listing") ∧
    (∀ (svc : Int → ListingsFilter → Except String PaginatedListings) (u : Int)
      (f : ListingsFilter) (e : String), svc u f = .error e →
      e ∉ ["invalid user ID", "page must be greater than 0",
        "limit must be between 1 and 100"] →
      ListingHandler.GetMyListings svc (some u) (.ok f) =
        .failure 500 "internal_error" "Failed to get user listings") := by
  refine ⟨Register_handler_other, ?_, ?_, CreateListing_handler_other,
    GetListings_handler_other, GetListing_handler_other, UpdateListing_handler_other,
    DeleteListing_handler_other, GetMyListings_handler_other⟩
  · intro svc req e he
    simp [AuthHandler.Login, he, Unauthorized, SendError]
  · intro svc userID e he
    simp [AuthHandler.Me, he, InternalError, SendError]

/-- C27, amended, at concrete inputs: two different failures of the store give
the same response of the UpdateListing handler, status 500 with its fixed
message. -/
theorem internal_errors_do_not_leak_witness :
    ListingHandler.UpdateListing (fun _ _ _ => .error "database connection failed")
        (some 1) (some 1) (.ok emptyRequest) =
      ListingHandler.UpdateListing (fun _ _ _ => .error "pq: deadlock detected")
        (some 1) (some 1) (.ok emptyRequest) ∧
    ListingHandler.UpdateListing (fun _ _ _ => .error "database connection failed")
        (some 1) (some 1) (.ok emptyRequest) =
      .failure 500 "internal_error" "Failed to update listing" := by
  have h := internal_errors_do_not_leak.2.2.2.2.2.2.1
  have h1 := h (fun _ _ _ => .error "database connection failed") 1 1 emptyRequest _ rfl
    (by decide)
  have h2 := h (fun _ _ _ => .error "pq: deadlock detected") 1 1 emptyRequest _ rfl (by decide)
  exact ⟨h1.trans h2.symm, h1⟩

/-! ### The listings of one user -/

theorem orderRows_perm (orderBy : String) (rows ordered : List (ListingRow × String))
    (h : orderRows orderBy rows = .ok ordered) : ordered.Perm rows := by
  unfold orderRows at h
  repeat' split at h
  all_goals first
    | (simp only [Except.ok.injEq] at h; rw [← h]; exact sortRows_perm _ _)
    | simp at h

theorem execSelectUser_ok (db : DB) (orderBy : String) (userID limit offset : Int)
    (rows : List (ListingRow × String))
    (h : execSelectUser db orderBy userID limit offset = .ok rows) :
    ∃ ordered,
      orderRows orderBy
        ((joinUsers db.users db.listings).filter (fun p => p.1.user_id == userID)) =
        .ok ordered ∧
      0 ≤ limit ∧ 0 ≤ offset ∧ rows = (ordered.drop offset.toNat).take limit.toNat := by
  unfold execSelectUser at h
  split at h
  · simp at h
  · rename_i ordered hord
    unfold limitOffset at h
    by_cases hl : limit < 0
    · simp [hl] at h
    · by_cases ho : offset < 0
      · simp [hl, ho] at h
      · simp only [hl, ho, if_false, Except.ok.injEq] at h
        exact ⟨ordered, hord, by omega, by omega, h.symm⟩

theorem SetDefaults_prices (f : ListingsFilter) (lo hi : Option ℚ) :
    SetDefaults { f with MinPrice := lo, MaxPrice := hi } =
      { SetDefaults f with MinPrice := lo, MaxPrice := hi } := by
  unfold SetDefaults
  by_cases h1 : f.SortBy = "" <;> by_cases h2 : f.SortDir = "" <;> by_cases h3 : f.Page = 0 <;>
    by_cases h4 : f.Limit = 0 <;> simp [h1, h2, h3, h4]

theorem repo_GetUserListings_prices (race : DB → DB) (db : DB) (userID : Int)
    (g : ListingsFilter) (lo hi : Option ℚ) :
    ListingRepository.GetUserListings race db userID { g with MinPrice := lo, MaxPrice := hi } =
      ListingRepository.GetUserListings race db userID g := rfl

theorem repo_GetUserListings_eq (race : DB → DB) (db : DB) (userID : Int) (g : ListingsFilter)
    (ordered : List (ListingRow × String))
    (hord : orderRows (orderByClause g.SortBy g.SortDir)
      ((joinUsers (race db).users (race db).listings).filter
        (fun p => p.1.user_id == userID)) = .ok ordered)
    (hl : 1 ≤ g.Limit) (hoff : 0 ≤ GetOffset g) :
    (ListingRepository.GetUserListings race db userID g).result =
      .ok { Data := ((ordered.drop (GetOffset g).toNat).take g.Limit.toNat).map
              (fun p => { scanJoined none p with IsOwner := true }),
            Total := ((db.listings.filter (fun r => r.user_id == userID)).length : Int),
            Page := g.Page, Limit := g.Limit,
            TotalPages := totalPages
              ((db.listings.filter (fun r => r.user_id == userID)).length : Int) g.Limit } := by
  have hl0 : ¬ g.Limit < 0 := by omega
  have hl1 : g.Limit ≠ 0 := by omega
  have ho0 : ¬ GetOffset g < 0 := by omega
  unfold ListingRepository.GetUserListings
  simp only [execSelectUser, hord, limitOffset, hl0, ho0, hl1, if_false]

/-- C21: GetUserListings refuses a user id <= 0, applies the defaults and the
validation of GetListings (a filter that GetListings rejects is rejected with
the same message before any statement), and on success returns only listings
of that owner, each with is_owner true, total = the number of listings of the
owner, the page and limit after defaults, total_pages by the same expression,
and as data the rows from offset GetOffset on, at most limit of them, of the
ordered listings of the owner; min_price and max_price take no part in its
statements or its result; and it does succeed for enum sort fields and an
offset within the Go int. -/
theorem GetUserListings_spec (race : DB → DB) (db : DB) (userID : Int) (f : ListingsFilter) :
    (userID ≤ 0 →
      (ListingService.GetUserListings race db userID f).result = .error "invalid user ID" ∧
      (ListingService.GetUserListings race db userID f).queries = []) ∧
    (0 < userID → ∀ e, validateListingsFilter (SetDefaults f) = some e →
      (ListingService.GetUserListings race db userID f).result = .error e ∧
      (ListingService.GetUserListings race db userID f).queries = [] ∧
      ∀ cu, (ListingService.GetListings race db f cu).result = .error e) ∧
    (∀ pg, (ListingService.GetUserListings race db userID f).result = .ok pg →
      (∀ l ∈ pg.Data, l.UserID = userID ∧ l.IsOwner = true) ∧
      pg.Total = ((db.listings.filter (fun r => r.user_id == userID)).length : Int) ∧
      pg.Page = (SetDefaults f).Page ∧ pg.Limit = (SetDefaults f).Limit ∧
      pg.TotalPages = totalPages pg.Total pg.Limit ∧
      ∃ ordered,
        ordered.Perm ((joinUsers (race db).users (race db).listings).filter
          (fun p => p.1.user_id == userID)) ∧
        orderRows (orderByClause (SetDefaults f).SortBy (SetDefaults f).SortDir)
          ((joinUsers (race db).users (race db).listings).filter
            (fun p => p.1.user_id == userID)) = .ok ordered ∧
        pg.Data = ((ordered.drop (GetOffset (SetDefaults f)).toNat).take
          (SetDefaults f).Limit.toNat).map (fun p => { scanJoined none p with IsOwner := true })) ∧
    (∀ q ∈ (ListingService.GetUserListings race db userID f).queries,
      q = .countUserListings userID ∨
      q = .selectUserListings
        (orderByClause (SetDefaults f).SortBy (SetDefaults f).SortDir) userID
        (SetDefaults f).Limit (GetOffset (SetDefaults f))) ∧
    (∀ lo hi : Option ℚ, validateListingsFilter (SetDefaults f) = none →
      validateListingsFilter (SetDefaults { f with MinPrice := lo, MaxPrice := hi }) = none →
      (ListingService.GetUserListings race db userID
          { f with MinPrice := lo, MaxPrice := hi }).result =
        (ListingService.GetUserListings race db userID f).result) ∧
    (0 < userID → validateListingsFilter (SetDefaults f) = none →
      ((SetDefaults f).SortBy = "created_at" ∨ (SetDefaults f).SortBy = "price") →
      ((SetDefaults f).SortDir = "asc" ∨ (SetDefaults f).SortDir = "desc") →
      ((SetDefaults f).Page - 1) * (SetDefaults f).Limit ≤ 9223372036854775807 →
      ∃ pg, (ListingService.GetUserListings race db userID f).result = .ok pg) := by
  refine ⟨?_, ?_, ?_, ?_, ?_, ?_⟩
  · intro hu
    simp [ListingService.GetUserListings, hu]
  · intro hu e he
    have hu2 : ¬ userID ≤ 0 := by omega
    refine ⟨?_, ?_, ?_⟩
    · simp [ListingService.GetUserListings, hu2, he]
    · simp [ListingService.GetUserListings, hu2, he]
    · intro cu
      simp [ListingService.GetListings, he]
  · intro pg hok
    obtain ⟨_, hv, hrepo⟩ := service_GetUserListings_ok race db userID f pg hok
    obtain ⟨rows, hsel, _, hpg⟩ := repo_GetUserListings_ok race db userID _ pg hrepo
    obtain ⟨ordered, hord, _, _, hrows⟩ := execSelectUser_ok _ _ _ _ _ rows hsel
    have hperm := orderRows_perm _ _ _ hord
    subst hpg
    refine ⟨?_, rfl, rfl, rfl, rfl, ordered, hperm, hord, by rw [hrows]⟩
    intro l hl
    obtain ⟨p, hp, rfl⟩ := List.mem_map.1 hl
    rw [hrows] at hp
    have hp2 : p ∈ ordered := List.mem_of_mem_drop (List.mem_of_mem_take hp)
    have hp3 := (List.mem_filter.1 (hperm.mem_iff.1 hp2)).2
    refine ⟨?_, rfl⟩
    simpa [(scanJoined_IsOwner none p).1] using hp3
  · intro q hq
    have hq2 := service_GetUserListings_queries race db userID f q hq
    unfold ListingRepository.GetUserListings at hq2
    simp only [] at hq2
    repeat' split at hq2
    all_goals simp at hq2
    all_goals exact hq2
  · intro lo hi hv hv2
    unfold ListingService.GetUserListings
    by_cases hu : userID ≤ 0
    · simp [hu]
    · simp only [hu, if_false, hv, hv2]
      rw [SetDefaults_prices, repo_GetUserListings_prices]
  · intro hu hv hsb hsd hfit
    have hu2 : ¬ userID ≤ 0 := by omega
    obtain ⟨_, _, _, hp1, hl1, hl100⟩ := (validateListingsFilter_none_iff _).1 hv
    have hp2 : (SetDefaults f).Page - 1 ≤ 9223372036854775807 := by nlinarith
    obtain ⟨_, hoff0⟩ := GetOffset_exact (SetDefaults f) hp1 hp2 (by omega) hfit
    obtain ⟨ordered, hord, _⟩ := orderRows_enum (SetDefaults f).SortBy (SetDefaults f).SortDir
      ((joinUsers (race db).users (race db).listings).filter
        (fun p => p.1.user_id == userID)) hsb hsd
    have hrepo := repo_GetUserListings_eq race db userID (SetDefaults f) ordered hord hl1 hoff0
    have hsvc : (ListingService.GetUserListings race db userID f).result =
        (ListingRepository.GetUserListings race db userID (SetDefaults f)).result := by
      unfold ListingService.GetUserListings
      simp only [hu2, if_false, hv, hrepo]
    exact ⟨_, hsvc.trans hrepo⟩

/-- C21 at concrete inputs: user 1 gets the own listing 1, flagged as owner,
with total 1, also when min_price is far above its price; user id 0 is refused. -/
theorem GetUserListings_spec_witness :
    (ListingService.GetUserListings id sampleDB 1 { secondPage with Page := 1 }).result =
      .ok { Data := [{ scanJoined none (sampleRow, "artificial00") with IsOwner := true }],
            Total := 1, Page := 1, Limit := 20, TotalPages := 1 } ∧
    (ListingService.GetUserListings id sampleDB 1
        { secondPage with Page := 1, MinPrice := some 999999999 }).result =
      (ListingService.GetUserListings id sampleDB 1 { secondPage with Page := 1 }).result ∧
    (ListingService.GetUserListings id sampleDB 0 secondPage).result = .error "invalid user ID" ∧
    (∀ l ∈ [{ scanJoined none (sampleRow, "artificial00") with IsOwner := true }],
      l.UserID = 1 ∧ l.IsOwner = true) := by
  have h := GetUserListings_spec id sampleDB 1 { secondPage with Page := 1 }
  have h0 := GetUserListings_spec id sampleDB 0 secondPage
  have hres : (ListingService.GetUserListings id sampleDB 1 { secondPage with Page := 1 }).result =
      .ok { Data := [{ scanJoined none (sampleRow, "artificial00") with IsOwner := true }],
            Total := 1, Page := 1, Limit := 20, TotalPages := 1 } := by rfl
  exact ⟨hres, h.2.2.2.2.1 (some 999999999) none (by decide) (by decide),
    (h0.1 (by decide)).1, (h.2.2.1 _ hres).1⟩

/-! ### Placeholders and arguments -/

theorem repo_GetListings_all_queries (race : DB → DB) (db : DB) (g : ListingsFilter)
    (currentUserID : Option Int) :
    (ListingRepository.GetListings race db g currentUserID).queries =
      [.countListings (buildWhere g).conditions (buildWhere g).args,
        .selectListings (buildWhere g).conditions (orderByClause g.SortBy g.SortDir)
          (buildWhere g).argIndex ((buildWhere g).argIndex + 1)
          ((buildWhere g).args ++ [.int g.Limit, .int (GetOffset g)])] := by
  unfold ListingRepository.GetListings
  simp only [execCount, bindConditions_count]
  repeat' split
  all_goals rfl

theorem matchesAll_priceBounds (g : ListingsFilter) (r : ListingRow) :
    matchesAll (priceBounds g) r = true ↔
      ((∀ lo, g.MinPrice = some lo → lo ≤ r.price) ∧
        (∀ hi, g.MaxPrice = some hi → r.price ≤ hi)) := by
  obtain ⟨lo, hi, sb, sd, pg, lim⟩ := g
  cases lo <;> cases hi <;> simp [matchesAll, priceBounds]

/-- C29: in GetListings, for each of the four combinations of present and absent
min_price and max_price the WHERE clause is the conjunction of exactly the
supplied bounds; the count query and the select query carry the same conditions
with the same bound arguments, placeholder $k being bound to the k-th argument;
limit and offset are the last two arguments, of the select query only; so the
total counts the rows within the bounds, and the page is taken from the rows
within the same bounds. -/
theorem GetListings_where_clause (race : DB → DB) (db : DB) (g : ListingsFilter)
    (currentUserID : Option Int) :
    (g.MinPrice = none → g.MaxPrice = none →
      buildWhere g = { conditions := [], args := [], argIndex := 1 } ∧
      whereClause (buildWhere g).conditions = "") ∧
    (∀ lo, g.MinPrice = some lo → g.MaxPrice = none →
      buildWhere g = { conditions := [⟨.ge, 1⟩], args := [.num lo], argIndex := 2 } ∧
      whereClause (buildWhere g).conditions = "WHERE l.price >= $1") ∧
    (∀ hi, g.MinPrice = none → g.MaxPrice = some hi →
      buildWhere g = { conditions := [⟨.le, 1⟩], args := [.num hi], argIndex := 2 } ∧
      whereClause (buildWhere g).conditions = "WHERE l.price <= $1") ∧
    (∀ lo hi, g.MinPrice = some lo → g.MaxPrice = some hi →
      buildWhere g =
        { conditions := [⟨.ge, 1⟩, ⟨.le, 2⟩], args := [.num lo, .num hi], argIndex := 3 } ∧
      whereClause (buildWhere g).conditions = "WHERE l.price >= $1 AND l.price <= $2") ∧
    (ListingRepository.GetListings race db g currentUserID).queries =
      [.countListings (buildWhere g).conditions (buildWhere g).args,
        .selectListings (buildWhere g).conditions (orderByClause g.SortBy g.SortDir)
          (buildWhere g).argIndex ((buildWhere g).argIndex + 1)
          ((buildWhere g).args ++ [.int g.Limit, .int (GetOffset g)])] ∧
    bindConditions (buildWhere g).args (buildWhere g).conditions = some (priceBounds g) ∧
    bindConditions ((buildWhere g).args ++ [.int g.Limit, .int (GetOffset g)])
      (buildWhere g).conditions = some (priceBounds g) ∧
    (buildWhere g).args.length + 1 = (buildWhere g).argIndex ∧
    placeholder ((buildWhere g).args ++ [.int g.Limit, .int (GetOffset g)])
      (buildWhere g).argIndex = some (.int g.Limit) ∧
    placeholder ((buildWhere g).args ++ [.int g.Limit, .int (GetOffset g)])
      ((buildWhere g).argIndex + 1) = some (.int (GetOffset g)) ∧
    ((buildWhere g).args ++ [Arg.int g.Limit, Arg.int (GetOffset g)]).length =
      (buildWhere g).argIndex + 1 ∧
    (∀ r, matchesAll (priceBounds g) r = true ↔
      ((∀ lo, g.MinPrice = some lo → lo ≤ r.price) ∧
        (∀ hi, g.MaxPrice = some hi → r.price ≤ hi))) ∧
    (∀ pg, (ListingRepository.GetListings race db g currentUserID).result = .ok pg →
      pg.Total = ((matching db (priceBounds g)).length : Int) ∧
      ∀ l ∈ pg.Data, ∃ p ∈ matching (race db) (priceBounds g),
        l = scanJoined currentUserID p) := by
  refine ⟨?_, ?_, ?_, ?_, repo_GetListings_all_queries race db g currentUserID,
    bindConditions_count g, bindConditions_select g _ _, ?_,
    (placeholder_limit_offset g _ _).1, (placeholder_limit_offset g _ _).2, ?_,
    matchesAll_priceBounds g, ?_⟩
  · intro h1 h2
    simp [buildWhere, addBound, h1, h2, whereClause]
  · intro lo h1 h2
    refine ⟨by simp [buildWhere, addBound, h1, h2], ?_⟩
    simp only [buildWhere, addBound, h1, h2]
    rfl
  · intro hi h1 h2
    refine ⟨by simp [buildWhere, addBound, h1, h2], ?_⟩
    simp only [buildWhere, addBound, h1, h2]
    rfl
  · intro lo hi h1 h2
    refine ⟨by simp [buildWhere, addBound, h1, h2], ?_⟩
    simp only [buildWhere, addBound, h1, h2]
    rfl
  · obtain ⟨lo, hi, sb, sd, pg, lim⟩ := g
    cases lo <;> cases hi <;> rfl
  · obtain ⟨lo, hi, sb, sd, pg, lim⟩ := g
    cases lo <;> cases hi <;> rfl
  · intro pg hok
    obtain ⟨total, rows, hc, hs, _, hpg⟩ := repo_GetListings_ok race db g currentUserID pg hok
    subst hpg
    constructor
    · simp only [execCount, bindConditions_count, Except.ok.injEq] at hc
      exact hc.symm
    · intro l hl
      obtain ⟨p, hp, rfl⟩ := List.mem_map.1 hl
      refine ⟨p, ?_, rfl⟩
      simp only [execSelect, bindConditions_select,
        (placeholder_limit_offset g g.Limit (GetOffset g)).1,
        (placeholder_limit_offset g g.Limit (GetOffset g)).2] at hs
      split at hs
      · simp at hs
      · rename_i ordered hord
        unfold limitOffset at hs
        repeat' split at hs
        all_goals first
          | (simp only [Except.ok.injEq] at hs
             rw [← hs] at hp
             exact (orderRows_perm _ _ _ hord).mem_iff.1
               (List.mem_of_mem_drop (List.mem_of_mem_take hp)))
          | simp at hs

/-- C29 at a concrete input: with both bounds the count query has the two
prices as arguments and the select query has them followed by limit and offset
as $3 and $4; only listing 2, with price 50, is within 10 and 500. -/
theorem GetListings_where_clause_witness :
    whereClause (buildWhere boundedFilter).conditions =
      "WHERE l.price >= $1 AND l.price <= $2" ∧
    limitOffsetClause (buildWhere boundedFilter).argIndex = "LIMIT $3 OFFSET $4" ∧
    (ListingRepository.GetListings id sampleDB boundedFilter none).queries =
      [.countListings [⟨.ge, 1⟩, ⟨.le, 2⟩] [.num 10, .num 500],
        .selectListings [⟨.ge, 1⟩, ⟨.le, 2⟩] "ORDER BY l.price asc" 3 4
          [.num 10, .num 500, .int 20, .int 0]] ∧
    (ListingRepository.GetListings id sampleDB boundedFilter none).result.toOption.map
      (fun pg => (pg.Total, pg.Data.map (fun l => l.ID))) = some (1, [2]) := by
  have h := GetListings_where_clause id sampleDB boundedFilter none
  refine ⟨(h.2.2.2.1 10 500 rfl rfl).2, by rfl, ?_, by rfl⟩
  rw [h.2.2.2.2.1]
  rfl

/-! ### The SET clause of UpdateListing -/

theorem buildSet_shape (req : UpdateListingRequest) :
    (buildSet req).setParts.map (fun p => p.column) = presentColumns req ∧
    (buildSet req).setParts.map (fun p => p.index) =
      List.range' 1 (presentColumns req).length ∧
    (buildSet req).args = presentValues req ∧
    (buildSet req).argIndex = (presentColumns req).length + 1 ∧
    (presentValues req).length = (presentColumns req).length := by
  obtain ⟨t, d, u, p⟩ := req
  cases t <;> cases d <;> cases u <;> cases p <;> exact ⟨rfl, rfl, rfl, rfl, rfl⟩

theorem repo_UpdateListing_queries (E : Env) (now : Nat) (race : DB → DB) (db : DB)
    (id userID : Int) (req : UpdateListingRequest) (hown : queryOwner db id = .ok (some userID))
    (hne : presentColumns req ≠ []) :
    (ListingRepository.UpdateListing E now race db id userID req).queries =
      [.selectOwner id,
        .updateListing ((buildSet req).setParts ++ [⟨.updated_at, (buildSet req).argIndex⟩])
          ((buildSet req).argIndex + 1) ((buildSet req).args ++ [.time now] ++ [.int id])] := by
  have hlen : (buildSet req).setParts.length ≠ 0 := by
    have h := congrArg List.length (buildSet_shape req).1
    rw [List.length_map] at h
    rw [h]
    exact fun h0 => hne (List.length_eq_zero.1 h0)
  unfold ListingRepository.UpdateListing
  simp only [hown, ne_eq, not_true_eq_false, if_false, hlen]
  repeat' split
  all_goals rfl

/-- C30: in UpdateListing the SET clause lists exactly the present fields in
the order title, description, image_url, price, followed by updated_at; with n
items their placeholders are $1..$n in that order and the k-th argument is the
value of the k-th item; the WHERE placeholder is $(n+1) and is bound to the
listing id; the argument list has n+1 entries, one for each placeholder; and
this is the statement the method sends for an owner and a request with at least
one field; executed on a row it gives the row after the request, with the
values as the columns keep them. -/
theorem UpdateListing_set_clause (E : Env) (now : Nat) (race : DB → DB) (db : DB)
    (id userID : Int) (req : UpdateListingRequest) :
    ((buildSet req).setParts ++ [SetPart.mk .updated_at (buildSet req).argIndex]).map
      (fun p : SetPart => p.column) = presentColumns req ++ [.updated_at] ∧
    ((buildSet req).setParts ++ [SetPart.mk .updated_at (buildSet req).argIndex]).map
      (fun p : SetPart => p.index) = List.range' 1 ((presentColumns req).length + 1) ∧
    (buildSet req).args ++ [.time now] ++ [.int id] =
      presentValues req ++ [.time now, .int id] ∧
    (presentValues req).length = (presentColumns req).length ∧
    (buildSet req).argIndex + 1 = (presentColumns req).length + 1 + 1 ∧
    placeholder ((buildSet req).args ++ [.time now] ++ [.int id])
      ((buildSet req).argIndex + 1) = some (.int id) ∧
    ((buildSet req).args ++ [Arg.time now] ++ [Arg.int id]).length =
      (presentColumns req).length + 1 + 1 ∧
    (∀ k, placeholder ((buildSet req).args ++ [.time now] ++ [.int id]) (k + 1) =
      ((buildSet req).args ++ [Arg.time now] ++ [Arg.int id]).get? k) ∧
    (∀ r, applySet E ((buildSet req).args ++ [.time now] ++ [.int id])
      ((buildSet req).setParts ++ [⟨.updated_at, (buildSet req).argIndex⟩]) r =
        (storedRequest req).map (fun s => applyRequest s (E.pgTimestamp now) r)) ∧
    (queryOwner db id = .ok (some userID) → presentColumns req ≠ [] →
      (ListingRepository.UpdateListing E now race db id userID req).queries =
        [.selectOwner id,
          .updateListing ((buildSet req).setParts ++ [⟨.updated_at, (buildSet req).argIndex⟩])
            ((buildSet req).argIndex + 1) ((buildSet req).args ++ [.time now] ++ [.int id])]) := by
  obtain ⟨hcol, hidx, hargs, hidx2, hlen⟩ := buildSet_shape req
  refine ⟨?_, ?_, ?_, hlen, ?_, placeholder_buildSet req now id, ?_, ?_,
    applySet_buildSet E req now id, repo_UpdateListing_queries E now race db id userID req⟩
  · rw [List.map_append, hcol]
    rfl
  · rw [List.map_append, hidx, hidx2, List.range'_1_concat]
    simp [Nat.add_comm]
  · rw [hargs]
    simp
  · rw [hidx2]
  · rw [hargs]
    simp only [List.length_append, List.length_singleton, hlen]
  · intro k
    simp [placeholder]

/-- C30 at concrete inputs: a full update has the SET clause with $1 to $5 and
the id as $6; an update of the title alone has title as $1, updated_at as $2
and the id as $3. -/
theorem UpdateListing_set_clause_witness :
    setClause ((buildSet fullRequest).setParts ++
        [⟨.updated_at, (buildSet fullRequest).argIndex⟩]) =
      "title = $1, description = $2, image_url = $3, price = $4, updated_at = $5" ∧
    (ListingRepository.UpdateListing sampleEnv 99 id sampleDB 1 1 fullRequest).queries =
      [.selectOwner 1,
        .updateListing [⟨.title, 1⟩, ⟨.description, 2⟩, ⟨.image_url, 3⟩, ⟨.price, 4⟩,
            ⟨.updated_at, 5⟩] 6
          [.str "iPhone 15 Pro Updated", .str "Updated description",
            .str "https://example.com/updated.jpg", .num 130000, .time 99, .int 1]] ∧
    (ListingRepository.UpdateListing sampleEnv 99 id sampleDB 1 1
        { emptyRequest with Title := some "New title" }).queries =
      [.selectOwner 1,
        .updateListing [⟨.title, 1⟩, ⟨.updated_at, 2⟩] 3
          [.str "New title", .time 99, .int 1]] := by
  have h1 := (UpdateListing_set_clause sampleEnv 99 id sampleDB 1 1
    fullRequest).2.2.2.2.2.2.2.2.2 rfl (by decide)
  have h2 := (UpdateListing_set_clause sampleEnv 99 id sampleDB 1 1
    { emptyRequest with Title := some "New title" }).2.2.2.2.2.2.2.2.2 rfl (by decide)
  refine ⟨by rfl, ?_, ?_⟩
  · rw [h1]
    rfl
  · rw [h2]
    rfl

/-! ### Serialised users -/

/-- C26: the JSON of a User has exactly the fields id, login, created_at and
updated_at and does not depend on the password hash; so the bodies that the
Register and Login handlers send on success and the body of Me are the same
whatever the password hash of the user is. -/
theorem User_json_hides_hash (u : User) (hash token message : String) (statusCode : Nat) :
    (∃ a b c d, marshalUser u =
      .object [("id", a), ("login", b), ("created_at", c), ("updated_at", d)]) ∧
    marshalUser { u with PasswordHash := hash } = marshalUser u ∧
    marshalAuthResponse { User := { u with PasswordHash := hash }, Token := token } =
      marshalAuthResponse { User := u, Token := token } ∧
    (∀ req, marshalResponse (fun a => some (marshalAuthResponse a))
        (AuthHandler.Register
          (fun _ => .ok { User := { u with PasswordHash := hash }, Token := token })
          (some req)) =
      (201, .object [("data", .object [("user", marshalUser u), ("token", .string token)]),
        ("message", .string "User registered successfully")])) ∧
    (∀ req, marshalResponse (fun a => some (marshalAuthResponse a))
        (AuthHandler.Login
          (fun _ => .ok { User := { u with PasswordHash := hash }, Token := token })
          (some req)) =
      (200, .object [("data", .object [("user", marshalUser u), ("token", .string token)]),
        ("message", .string "Login successful")])) ∧
    (∀ id, marshalResponse (fun x => some (marshalUser x))
        (AuthHandler.Me (fun _ => .ok { u with PasswordHash := hash }) (some (.int id))) =
      (200, .object [("data", marshalUser u)])) ∧
    marshalResponse (fun x => some (marshalUser x))
        (Response.success statusCode { u with PasswordHash := hash } message) =
      marshalResponse (fun x => some (marshalUser x)) (Response.success statusCode u message) := by
  refine ⟨⟨_, _, _, _, rfl⟩, rfl, rfl, fun _ => rfl, fun _ => rfl, fun _ => rfl, rfl⟩

/-- C26 at a concrete input: the body of a successful registration of new_user
on the sample database. -/
theorem User_json_hides_hash_witness :
    marshalResponse (fun a => some (marshalAuthResponse a))
        (AuthHandler.Register
          (fun r => (AuthService.Register sampleEnv "secret" 99 id sampleDB r).result)
          (some { Login := "new_user", Password := "password123" })) =
      (201,
        .object [("data",
            .object [("user",
                .object [("id", .number 3), ("login", .string "new_user"),
                  ("created_at", .time 99), ("updated_at", .time 99)]),
              ("token", .string "token-of-new_user")]),
          ("message", .string "User registered successfully")]) := by
  have h := (User_json_hides_hash
    { ID := 3, Login := "new_user", PasswordHash := "", CreatedAt := 99, UpdatedAt := 99 }
    "$2a$10$password123" "token-of-new_user" "" 0).2.2.2.1
    { Login := "new_user", Password := "password123" }
  exact h

/-! ### The public listing routes -/

/-- C28: the public listing routes are registered without AuthMiddleware, so
the handlers GetListing and GetListings find no user_id in the context whatever
the Authorization header is and call the service without a caller: with the
valid bearer token of user 1, listing 1 of user 1 comes back with is_owner
false, where the same handler with user 1 in the context returns it with
is_owner true. -/
theorem public_routes_ignore_token (ValidateToken : String → String → Option Claims)
    (jwtSecret authHeader : String) :
    usesAuthMiddleware .getListing = false ∧ usesAuthMiddleware .getListings = false ∧
    (∀ (svc : Int → Option Int → Except String Listing) (id : Option Int),
      serveGetListing ValidateToken jwtSecret svc authHeader id =
        ListingHandler.GetListing svc none id) ∧
    (∀ (svc : ListingsFilter → Option Int → Except String PaginatedListings)
      (bound : Except String ListingsFilter),
      serveGetListings ValidateToken jwtSecret svc authHeader bound =
        ListingHandler.GetListings svc none bound) ∧
    AuthMiddleware sampleValidateToken "secret" "Bearer token-of-artificial00" = .ok (.int 1) ∧
    serveGetListing sampleValidateToken "secret"
        (fun i u => (ListingService.GetListingByID sampleDB i u).result)
        "Bearer token-of-artificial00" (some 1) =
      .success 200 (scanJoined none (sampleRow, "artificial00")) "" ∧
    (scanJoined none (sampleRow, "artificial00")).UserID = 1 ∧
    (scanJoined none (sampleRow, "artificial00")).IsOwner = false ∧
    ListingHandler.GetListing (fun i u => (ListingService.GetListingByID sampleDB i u).result)
        (GetUserID (some (.int 1))) (some 1) =
      .success 200 (scanJoined (some 1) (sampleRow, "artificial00")) "" ∧
    (scanJoined (some 1) (sampleRow, "artificial00")).IsOwner = true ∧
    (serveGetListings sampleValidateToken "secret"
        (fun f u => (ListingService.GetListings id sampleDB f u).result)
        "Bearer token-of-artificial00" (.ok { secondPage with Page := 1 })
      |> marshalResponse (fun pg => some (.array (pg.Data.map (fun l => .bool l.IsOwner))))) =
      (200, .object [("data", .array [.bool false, .bool false])]) := by
  refine ⟨rfl, rfl, fun _ _ => rfl, fun _ _ => rfl, by rfl, by rfl, by rfl, by rfl, by rfl,
    by rfl, by rfl⟩

end Marketplace
